import Mathlib

/-!
# va2pa: virtual-to-physical address translation (x86 page walk)

A shallow embedding of `src/va2pa_v2.c`.

* Machine integers are natural numbers; every place where the C type of an
  expression would wrap carries an explicit `% 2 ^ 32` or `% 2 ^ 64`.
* The reader callback (`PREAD_FUNC`, `PREAD_FUNC_64`) is a state-passing
  function: from its state, the requested size and the physical address it
  yields the returned byte count, the content of the buffer after the call,
  and its next state.  A pure memory is the special case with state `Unit`.
* A walk returns its status code, the value stored through the output
  pointer (`none` when the pointer was never written), the list of reader
  calls in the order they were made, and the final reader state.
* The source is compiled with `VA2PA_DEBUG_ON` defined (lines 9-11 define it
  unconditionally); text written to standard output is not modelled.
* The arguments of a walk are the values of the C parameters, so they lie
  below `2 ^ 32` for `va2pa` and below `2 ^ 64` for `va2pa_64`; a theorem
  stated for all natural numbers holds in particular there.
-/

namespace Va2pa

/-! ## Definitions (source lines 5-165) -/

/-- MAXPHYADDR for PAE (source line 5). -/
def PAE_MAXPHYADDR : Nat := 52

/-- MAXPHYADDR for Legacy translations (source line 6). -/
def LEGACY_MAXPHYADDR : Nat := 32

/-- Result codes, in the order of the `enum` of source lines 22-40. -/
inductive TranslationState32 where
  | ST_SUCCESS_32
  | ST_INCORRECT_LEVEL_32
  | ST_RAM_READ_ERROR_32
  | ST_PDE_NOT_PRESENT_32
  | ST_PTE_NOT_PRESENT_32
  | ST_PDE_SUPERVISOR_MODE_32
  | ST_PTE_SUPERVISOR_MODE_32
  | ST_PDE_PSE_32
  | ST_PDPTE_NOT_PRESENT_32
  | ST_PDPTE_RESERVED_32
  | ST_PDE_RESERVED_32
  | ST_PTE_RESERVED_32
  | ST_PML4E_NOT_PRESENT_32
  | ST_PML4E_SUPERVISOR_MODE_32
  | ST_PML4E_MBZ_32
  | ST_PTE_PAE_PAT_32
  | ST_PDE_PSE_PAT_32
  deriving DecidableEq, Repr

open TranslationState32

/-- The integer value of a result code (its position in the `enum`). -/
def TranslationState32.toNat : TranslationState32 → Nat
  | ST_SUCCESS_32 => 0
  | ST_INCORRECT_LEVEL_32 => 1
  | ST_RAM_READ_ERROR_32 => 2
  | ST_PDE_NOT_PRESENT_32 => 3
  | ST_PTE_NOT_PRESENT_32 => 4
  | ST_PDE_SUPERVISOR_MODE_32 => 5
  | ST_PTE_SUPERVISOR_MODE_32 => 6
  | ST_PDE_PSE_32 => 7
  | ST_PDPTE_NOT_PRESENT_32 => 8
  | ST_PDPTE_RESERVED_32 => 9
  | ST_PDE_RESERVED_32 => 10
  | ST_PTE_RESERVED_32 => 11
  | ST_PML4E_NOT_PRESENT_32 => 12
  | ST_PML4E_SUPERVISOR_MODE_32 => 13
  | ST_PML4E_MBZ_32 => 14
  | ST_PTE_PAE_PAT_32 => 15
  | ST_PDE_PSE_PAT_32 => 16

/-- Bit indices of a PDE (source lines 45-48).  A field that a designated
initialiser leaves out is zero, as in C. -/
structure PDEBitTable32 where
  present : Nat := 0
  rw : Nat := 0
  uaccess : Nat := 0
  pwt : Nat := 0
  pcd : Nat := 0
  accessed : Nat := 0
  dirty : Nat := 0
  pse : Nat := 0
  global : Nat := 0
  pat : Nat := 0
  addrstart : Nat := 0
  addrend : Nat := 0
  reserved : Nat := 0

/-- PDE Legacy bit table (source lines 51-61). -/
def PDEBits : PDEBitTable32 :=
  { present := 0, rw := 1, uaccess := 2, pwt := 3, pcd := 4, accessed := 5, pse := 7,
    addrstart := 12, addrend := LEGACY_MAXPHYADDR - 1 }

/-- Legacy 4 MiB PDE bit table (source lines 63-66). -/
def PDE4MbBits : PDEBitTable32 :=
  { present := 0, rw := 1, uaccess := 2, pwt := 3, pcd := 4, accessed := 5, dirty := 6,
    pse := 7, global := 8, pat := 12, reserved := 0x3FE000 }

/-- The 2 MiB PDE bit table (source lines 68-72). -/
def PDE2MbBits : PDEBitTable32 :=
  { present := 0, rw := 1, uaccess := 2, pwt := 3, pcd := 4, accessed := 5, dirty := 6,
    pse := 7, global := 8, pat := 12, addrstart := 21, addrend := PAE_MAXPHYADDR - 1,
    reserved := 0xFFF00000001FE000 }

/-- PDE PAE bit table (source lines 75-79). -/
def PDEBitsPAE : PDEBitTable32 :=
  { present := 0, rw := 1, uaccess := 2, pwt := 3, pcd := 4, accessed := 5, pse := 7,
    addrstart := 12, addrend := PAE_MAXPHYADDR - 1, reserved := 0xFFF0000000000000 }

/-- Bit indices of a PTE (source lines 82-85). -/
structure PTEBitTable32 where
  present : Nat := 0
  rw : Nat := 0
  uaccess : Nat := 0
  pwt : Nat := 0
  pcd : Nat := 0
  accessed : Nat := 0
  dirty : Nat := 0
  pat : Nat := 0
  global : Nat := 0
  addrstart : Nat := 0
  addrend : Nat := 0
  reserved : Nat := 0

/-- PTE Legacy bit table (source lines 88-100). -/
def PTEBits : PTEBitTable32 :=
  { present := 0, rw := 1, uaccess := 2, pwt := 3, pcd := 4, accessed := 5, dirty := 6,
    pat := 7, global := 8, addrstart := 12, addrend := LEGACY_MAXPHYADDR - 1 }

/-- PTE PAE bit table (source lines 103-107). -/
def PTEBitsPAE : PTEBitTable32 :=
  { present := 0, rw := 1, uaccess := 2, pwt := 3, pcd := 4, accessed := 5, dirty := 6,
    pat := 7, global := 8, addrstart := 12, addrend := PAE_MAXPHYADDR - 1,
    reserved := 0xFFF0000000000000 }

/-- Bit indices of a PDPTE (source lines 110-113). -/
structure PDPTEBitTablePAE where
  present : Nat := 0
  pwt : Nat := 0
  pcd : Nat := 0
  pse : Nat := 0
  addrstart : Nat := 0
  addrend : Nat := 0
  reserved : Nat := 0
  reserved64PSE : Nat := 0

/-- PAE PDPTE bit table (source lines 116-125). -/
def PDPTEBits : PDPTEBitTablePAE :=
  { present := 0, pwt := 3, pcd := 4, pse := 7, addrstart := 12,
    addrend := PAE_MAXPHYADDR - 1, reserved := 0xFFF00000000001E6,
    reserved64PSE := 0x3FFFE000 }

/-- Bit indices of the CR3 register (source lines 128-131). -/
structure CR3BitTable where
  pwt : Nat := 0
  pcd : Nat := 0
  addrstart : Nat := 0
  addrend : Nat := 0
  mbz : Nat := 0

/-- CR3 Legacy bit table (source lines 134-139). -/
def CR3Bits32 : CR3BitTable := { pwt := 3, pcd := 4, addrstart := 12, addrend := 31 }

/-- CR3 PAE bit table (source lines 142-144). -/
def CR3BitsPAE : CR3BitTable := { addrstart := 5, addrend := 31 }

/-- Bit indices of a PML4E (source lines 149-152). -/
structure PML4EBitTable where
  present : Nat := 0
  rw : Nat := 0
  uaccess : Nat := 0
  pwt : Nat := 0
  pcd : Nat := 0
  accessed : Nat := 0
  addrstart : Nat := 0
  addrend : Nat := 0
  mbz : Nat := 0

/-- PML4E bit table (source lines 155-159). -/
def PML4EBits : PML4EBitTable :=
  { present := 0, rw := 1, uaccess := 2, pwt := 3, pcd := 4, accessed := 5,
    addrstart := 12, addrend := 51, mbz := 0x300 }

/-- CR3 Long Mode bit table (source lines 162-165). -/
def CR3Bits64 : CR3BitTable :=
  { addrstart := 12, addrend := PAE_MAXPHYADDR - 1, mbz := 0xFFF0000000000000 }

/-! ## The reader callback and the outcome of a walk -/

/-- What one call of the reader leaves behind: the byte count it returns and
the content of the buffer after the call, read as a little-endian unsigned
integer. -/
structure ReadResult where
  count : Nat
  buf : Nat
  deriving DecidableEq, Repr

/-- The reader callback `PREAD_FUNC` (source line 263) as a state-passing
function of the requested size and the physical address. -/
abbrev PREAD_FUNC (σ : Type) : Type := σ → Nat → Nat → ReadResult × σ

/-- The reader callback `PREAD_FUNC_64` (source line 270). -/
abbrev PREAD_FUNC_64 (σ : Type) : Type := σ → Nat → Nat → ReadResult × σ

/-- One reader call as the walk saw it: the size and address it asked for,
the byte count that came back and the entry word found in the buffer. -/
structure ReadEvent where
  size : Nat
  physical_addr : Nat
  count : Nat
  data : Nat
  deriving DecidableEq, Repr

/-- The observable result of a walk. -/
structure Outcome (σ : Type) where
  status : TranslationState32
  phys_addr : Option Nat
  reads : List ReadEvent
  final : σ

/-- A reader backed by a memory function: it always delivers all requested
bytes, the word `mem physical_addr`. -/
def memReader (mem : Nat → Nat) : PREAD_FUNC Unit :=
  fun _ size physical_addr => ({ count := size, buf := mem physical_addr }, ())

/-! ## Entry checks of `va2pa` (Legacy and PAE) -/

/-- The value of the local `PDEIntegrityCheck` after source lines 331-344
(Legacy PDE).  Line 339 is a logical conjunction of the entry word and the
reserved mask, not a bitwise one. -/
def PDEIntegrityCheck (pde : Nat) : TranslationState32 :=
  if pde &&& (1 <<< PDEBits.present) = 0 then ST_PDE_NOT_PRESENT_32
  else if pde &&& (1 <<< PDEBits.uaccess) = 0 then ST_PDE_SUPERVISOR_MODE_32
  else if pde &&& (1 <<< PDEBits.pse) ≠ 0 then
    if pde ≠ 0 ∧ PDE4MbBits.reserved ≠ 0 then ST_PDE_RESERVED_32
    else if pde &&& (1 <<< PDE4MbBits.pat) = 0 then ST_PDE_PSE_PAT_32
    else ST_SUCCESS_32
  else ST_SUCCESS_32

/-- The value of the local `PTEIntegrityCheck` after source lines 379-385
(Legacy PTE). -/
def PTEIntegrityCheck (pte : Nat) : TranslationState32 :=
  if pte &&& (1 <<< PTEBits.present) = 0 then ST_PTE_NOT_PRESENT_32
  else if pte &&& (1 <<< PTEBits.uaccess) = 0 then ST_PTE_SUPERVISOR_MODE_32
  else ST_SUCCESS_32

/-- The value of the local `PDPTEIntegrityCheck` after source lines 430-438
(PAE PDPTE): two separate `if` statements, the second one overwrites. -/
def PDPTEIntegrityCheck (pdpte : Nat) : TranslationState32 :=
  let c1 := if pdpte &&& (1 <<< PDPTEBits.present) = 0 then ST_PDPTE_NOT_PRESENT_32
    else ST_SUCCESS_32
  if pdpte &&& PDPTEBits.reserved ≠ 0 then ST_PDPTE_RESERVED_32 else c1

/-- The value of the local `PDEIntegrityCheckPAE` after source lines 469-485
(PAE PDE): the present/supervisor chain, then a separate chain on the page
size bit that overwrites. -/
def PDEIntegrityCheckPAE (pde_pae : Nat) : TranslationState32 :=
  let c1 := if pde_pae &&& (1 <<< PDEBitsPAE.present) = 0 then ST_PDE_NOT_PRESENT_32
    else if pde_pae &&& (1 <<< PDEBitsPAE.uaccess) = 0 then ST_PDE_SUPERVISOR_MODE_32
    else ST_SUCCESS_32
  if pde_pae &&& (1 <<< PDEBitsPAE.pse) ≠ 0 then
    if pde_pae &&& PDE2MbBits.reserved ≠ 0 then ST_PDE_RESERVED_32
    else if pde_pae &&& (1 <<< PDE2MbBits.pat) = 0 then ST_PDE_PSE_PAT_32
    else c1
  else if pde_pae &&& PDEBitsPAE.reserved ≠ 0 then ST_PDE_RESERVED_32
  else c1

/-- The value of the local `PTEIntegrityCheckPAE` after source lines 520-532
(PAE PTE). -/
def PTEIntegrityCheckPAE (pte_pae : Nat) : TranslationState32 :=
  let c1 := if pte_pae &&& (1 <<< PTEBitsPAE.present) = 0 then ST_PTE_NOT_PRESENT_32
    else if pte_pae &&& (1 <<< PTEBitsPAE.uaccess) = 0 then ST_PDE_SUPERVISOR_MODE_32
    else if pte_pae &&& (1 <<< PTEBitsPAE.pat) = 0 then ST_PTE_PAE_PAT_32
    else ST_SUCCESS_32
  if pte_pae &&& PTEBitsPAE.reserved ≠ 0 then ST_PTE_RESERVED_32 else c1

/-! ## `va2pa` (source lines 290-563) -/

/-- The local `pde_addr` of source line 318, a `uint32_t`. -/
def pde_addr (root_addr virt_addr : Nat) : Nat :=
  ((root_addr >>> CR3Bits32.addrstart) + (virt_addr >>> 22) * 4) % 2 ^ 32

/-- The local `pte_addr` of source line 363, a `uint32_t`. -/
def pte_addr (pde virt_addr : Nat) : Nat :=
  ((pde >>> 12) + ((virt_addr >>> 12) &&& 0x3FF) * 4) % 2 ^ 32

/-- The value stored through `phys_addr` at source line 359 (4 MiB page),
computed in 32 bits. -/
def phys_addr_4mb (pde virt_addr : Nat) : Nat :=
  ((pde &&& 0xFFC00000) + (virt_addr &&& 0x3FFFFE)) % 2 ^ 32

/-- The value stored through `phys_addr` at source line 406 (Legacy 4 KiB
page), computed in 32 bits. -/
def phys_addr_4kb (pte virt_addr : Nat) : Nat :=
  ((pte &&& 0xFFFFF000) + (virt_addr &&& 0xFFF)) % 2 ^ 32

/-- The local `pdpte_addr` of source line 418, a `uint64_t`. -/
def pdpte_addr (root_addr virt_addr : Nat) : Nat :=
  ((root_addr >>> CR3BitsPAE.addrstart) + (virt_addr >>> 30) * 8) % 2 ^ 64

/-- The local `pde_addr_pae` of source line 453, a `uint64_t`. -/
def pde_addr_pae (pdpte virt_addr : Nat) : Nat :=
  (((pdpte >>> 12) &&& 0xFFFFFFFFFF) + ((virt_addr >>> 21) &&& 0x1FF) * 8) % 2 ^ 64

/-- The local `pte_addr_pae` of source line 504, a `uint64_t`. -/
def pte_addr_pae (pde_pae virt_addr : Nat) : Nat :=
  (((pde_pae >>> 12) &&& 0xFFFFFFFFFF) + ((virt_addr >>> 12) &&& 0x1FF) * 8) % 2 ^ 64

/-- The value stored through `phys_addr` at source line 500 (PAE 2 MiB
page). -/
def phys_addr_2mb_pae (pde_pae virt_addr : Nat) : Nat :=
  ((pde_pae &&& 0xFFFFFFFE00000) + (virt_addr &&& 0x1FFFFF)) % 2 ^ 64

/-- The value stored through `phys_addr` at source line 555 (PAE 4 KiB
page). -/
def phys_addr_4kb_pae (pte_pae virt_addr : Nat) : Nat :=
  ((pte_pae &&& 0xFFFFFFFFFFFFF000) + (virt_addr &&& 0xFFF)) % 2 ^ 64

/-- The level 2 (Legacy) branch of `va2pa`, source lines 311-410. -/
def va2pa_level2 {σ : Type} (virt_addr root_addr : Nat) (read_func : PREAD_FUNC σ)
    (s0 : σ) : Outcome σ :=
  let r1 := read_func s0 4 (pde_addr root_addr virt_addr)
  let pde := r1.1.buf % 2 ^ 32
  let e1 : ReadEvent := ⟨4, pde_addr root_addr virt_addr, r1.1.count, pde⟩
  if r1.1.count < 4 then ⟨ST_RAM_READ_ERROR_32, none, [e1], r1.2⟩
  else if PDEIntegrityCheck pde ≠ ST_SUCCESS_32 then
    ⟨PDEIntegrityCheck pde, none, [e1], r1.2⟩
  else if pde &&& (1 <<< PDEBits.pse) ≠ 0 then
    ⟨ST_SUCCESS_32, some (phys_addr_4mb pde virt_addr), [e1], r1.2⟩
  else
    let r2 := read_func r1.2 4 (pte_addr pde virt_addr)
    let pte := r2.1.buf % 2 ^ 32
    let e2 : ReadEvent := ⟨4, pte_addr pde virt_addr, r2.1.count, pte⟩
    if r2.1.count < 4 then ⟨ST_RAM_READ_ERROR_32, none, [e1, e2], r2.2⟩
    else if PTEIntegrityCheck pte ≠ ST_SUCCESS_32 then
      ⟨PTEIntegrityCheck pte, none, [e1, e2], r2.2⟩
    else ⟨ST_SUCCESS_32, some (phys_addr_4kb pte virt_addr), [e1, e2], r2.2⟩

/-- The level 3 (PAE) branch of `va2pa`, source lines 411-559.  The entry
addresses are 64-bit values that are converted to the 32-bit address
parameter of `PREAD_FUNC` at each call. -/
def va2pa_level3 {σ : Type} (virt_addr root_addr : Nat) (read_func : PREAD_FUNC σ)
    (s0 : σ) : Outcome σ :=
  let r1 := read_func s0 8 (pdpte_addr root_addr virt_addr % 2 ^ 32)
  let pdpte := r1.1.buf % 2 ^ 64
  let e1 : ReadEvent := ⟨8, pdpte_addr root_addr virt_addr % 2 ^ 32, r1.1.count, pdpte⟩
  if r1.1.count < 8 then ⟨ST_RAM_READ_ERROR_32, none, [e1], r1.2⟩
  else if PDPTEIntegrityCheck pdpte ≠ ST_SUCCESS_32 then
    ⟨PDPTEIntegrityCheck pdpte, none, [e1], r1.2⟩
  else
    let r2 := read_func r1.2 8 (pde_addr_pae pdpte virt_addr % 2 ^ 32)
    let pde_pae := r2.1.buf % 2 ^ 64
    let e2 : ReadEvent := ⟨8, pde_addr_pae pdpte virt_addr % 2 ^ 32, r2.1.count, pde_pae⟩
    if r2.1.count < 8 then ⟨ST_RAM_READ_ERROR_32, none, [e1, e2], r2.2⟩
    else if PDEIntegrityCheckPAE pde_pae ≠ ST_SUCCESS_32 then
      ⟨PDEIntegrityCheckPAE pde_pae, none, [e1, e2], r2.2⟩
    else if pde_pae &&& (1 <<< PDEBitsPAE.pse) ≠ 0 then
      ⟨ST_SUCCESS_32, some (phys_addr_2mb_pae pde_pae virt_addr), [e1, e2], r2.2⟩
    else
      let r3 := read_func r2.2 8 (pte_addr_pae pde_pae virt_addr % 2 ^ 32)
      let pte_pae := r3.1.buf % 2 ^ 64
      let e3 : ReadEvent := ⟨8, pte_addr_pae pde_pae virt_addr % 2 ^ 32, r3.1.count, pte_pae⟩
      if r3.1.count < 8 then ⟨ST_RAM_READ_ERROR_32, none, [e1, e2, e3], r3.2⟩
      else if PTEIntegrityCheckPAE pte_pae ≠ ST_SUCCESS_32 then
        ⟨PTEIntegrityCheckPAE pte_pae, none, [e1, e2, e3], r3.2⟩
      else
        ⟨ST_SUCCESS_32, some (phys_addr_4kb_pae pte_pae virt_addr), [e1, e2, e3], r3.2⟩

/-- The function `va2pa`, source lines 290-563. -/
def va2pa {σ : Type} (virt_addr level root_addr : Nat) (read_func : PREAD_FUNC σ)
    (s0 : σ) : Outcome σ :=
  if level > 3 ∨ level < 2 then ⟨ST_INCORRECT_LEVEL_32, none, [], s0⟩
  else if level = 2 then va2pa_level2 virt_addr root_addr read_func s0
  else if level = 3 then va2pa_level3 virt_addr root_addr read_func s0
  else ⟨ST_SUCCESS_32, none, [], s0⟩

/-! ## Entry checks of `va2pa_64` (Long mode) -/

/-- The value of the local `PML4EIntegrityCheck` after source lines 597-605. -/
def PML4EIntegrityCheck (pml4e : Nat) : TranslationState32 :=
  if pml4e &&& (1 <<< PML4EBits.present) = 0 then ST_PDPTE_NOT_PRESENT_32
  else if pml4e &&& (1 <<< PML4EBits.uaccess) = 0 then ST_PDE_SUPERVISOR_MODE_32
  else if pml4e &&& PML4EBits.mbz ≠ 0 then ST_PML4E_MBZ_32
  else ST_SUCCESS_32

/-- The value of the local `PDPTEIntegrityCheck` of `va2pa_64` after source
lines 636-646. -/
def PDPTEIntegrityCheck_64 (pdpte : Nat) : TranslationState32 :=
  let c1 := if pdpte &&& (1 <<< PDPTEBits.present) = 0 then ST_PDPTE_NOT_PRESENT_32
    else ST_SUCCESS_32
  if pdpte &&& (1 <<< PDPTEBits.pse) ≠ 0 then
    if pdpte &&& PDPTEBits.reserved64PSE ≠ 0 then ST_PDPTE_RESERVED_32 else c1
  else c1

/-- The value of the local `PDEIntegrityCheckPAE` of `va2pa_64` after source
lines 681-697. -/
def PDEIntegrityCheckPAE_64 (pde_64 : Nat) : TranslationState32 :=
  let c1 := if pde_64 &&& (1 <<< PDEBitsPAE.present) = 0 then ST_PDPTE_NOT_PRESENT_32
    else if pde_64 &&& (1 <<< PDEBitsPAE.uaccess) = 0 then ST_PDE_SUPERVISOR_MODE_32
    else ST_SUCCESS_32
  if pde_64 &&& (1 <<< PDEBitsPAE.pse) ≠ 0 then
    if pde_64 &&& PDE2MbBits.reserved ≠ 0 then ST_PDE_RESERVED_32 else c1
  else
    if pde_64 &&& PDEBitsPAE.reserved ≠ 0 then ST_PDE_RESERVED_32 else c1

/-- The value of the local `PTEIntegrityCheckPAE` of `va2pa_64` after source
lines 732-744. -/
def PTEIntegrityCheckPAE_64 (pte_64 : Nat) : TranslationState32 :=
  let c1 := if pte_64 &&& (1 <<< PTEBitsPAE.present) = 0 then ST_PDPTE_NOT_PRESENT_32
    else if pte_64 &&& (1 <<< PTEBitsPAE.uaccess) = 0 then ST_PDE_SUPERVISOR_MODE_32
    else if pte_64 &&& (1 <<< PTEBitsPAE.pat) = 0 then ST_PTE_PAE_PAT_32
    else ST_SUCCESS_32
  if pte_64 &&& PTEBitsPAE.reserved ≠ 0 then ST_PTE_RESERVED_32 else c1

/-! ## `va2pa_64` (source lines 571-774) -/

/-- The local `pml4e_addr` of source line 586. -/
def pml4e_addr (root_addr_64 virt_addr_64 : Nat) : Nat :=
  (((root_addr_64 >>> CR3Bits64.addrstart) &&& 0xFFFFFFFFFF)
    + ((virt_addr_64 >>> 39) &&& 0x1FF) * 8) % 2 ^ 64

/-- The local `pdpte_addr` of `va2pa_64`, source line 623. -/
def pdpte_addr_64 (pml4e virt_addr_64 : Nat) : Nat :=
  (((pml4e >>> PML4EBits.addrstart) &&& 0xFFFFFFFFFF)
    + ((virt_addr_64 >>> 30) &&& 0x1FF) * 8) % 2 ^ 64

/-- The local `pde_addr_64` of source line 665. -/
def pde_addr_64 (pdpte virt_addr_64 : Nat) : Nat :=
  (((pdpte >>> 12) &&& 0xFFFFFFFFFF) + ((virt_addr_64 >>> 21) &&& 0x1FF) * 8) % 2 ^ 64

/-- The local `pte_addr_64` of source line 716. -/
def pte_addr_64 (pde_64 virt_addr_64 : Nat) : Nat :=
  (((pde_64 >>> 12) &&& 0xFFFFFFFFFF) + ((virt_addr_64 >>> 12) &&& 0x1FF) * 8) % 2 ^ 64

/-- The value stored through `phys_addr_64` at source line 661 (1 GiB
page). -/
def phys_addr_1gb_64 (pdpte virt_addr_64 : Nat) : Nat :=
  ((pdpte &&& 0xFFFFFC0000000) + (virt_addr_64 &&& 0x3FFFFFFF)) % 2 ^ 64

/-- The value stored through `phys_addr_64` at source line 712 (2 MiB
page). -/
def phys_addr_2mb_64 (pde_64 virt_addr_64 : Nat) : Nat :=
  ((pde_64 &&& 0xFFFFFFFE00000) + (virt_addr_64 &&& 0x1FFFFE)) % 2 ^ 64

/-- The value stored through `phys_addr_64` at source line 767 (4 KiB
page). -/
def phys_addr_4kb_64 (pte_64 virt_addr_64 : Nat) : Nat :=
  ((pte_64 &&& 0xFFFFFFFFFFFFF000) + (virt_addr_64 &&& 0xFFF)) % 2 ^ 64

/-- The function `va2pa_64`, source lines 571-774.  The third read (the PDE,
line 672) fails only on a byte count of zero; the other three fail on any
count below 8. -/
def va2pa_64 {σ : Type} (virt_addr_64 root_addr_64 : Nat) (read_func_64 : PREAD_FUNC_64 σ)
    (s0 : σ) : Outcome σ :=
  let r1 := read_func_64 s0 8 (pml4e_addr root_addr_64 virt_addr_64)
  let pml4e := r1.1.buf % 2 ^ 64
  let e1 : ReadEvent := ⟨8, pml4e_addr root_addr_64 virt_addr_64, r1.1.count, pml4e⟩
  if r1.1.count < 8 then ⟨ST_RAM_READ_ERROR_32, none, [e1], r1.2⟩
  else if PML4EIntegrityCheck pml4e ≠ ST_SUCCESS_32 then
    ⟨PML4EIntegrityCheck pml4e, none, [e1], r1.2⟩
  else
    let r2 := read_func_64 r1.2 8 (pdpte_addr_64 pml4e virt_addr_64)
    let pdpte := r2.1.buf % 2 ^ 64
    let e2 : ReadEvent := ⟨8, pdpte_addr_64 pml4e virt_addr_64, r2.1.count, pdpte⟩
    if r2.1.count < 8 then ⟨ST_RAM_READ_ERROR_32, none, [e1, e2], r2.2⟩
    else if PDPTEIntegrityCheck_64 pdpte ≠ ST_SUCCESS_32 then
      ⟨PDPTEIntegrityCheck_64 pdpte, none, [e1, e2], r2.2⟩
    else if pdpte &&& (1 <<< PDPTEBits.pse) ≠ 0 then
      ⟨ST_SUCCESS_32, some (phys_addr_1gb_64 pdpte virt_addr_64), [e1, e2], r2.2⟩
    else
      let r3 := read_func_64 r2.2 8 (pde_addr_64 pdpte virt_addr_64)
      let pde_64 := r3.1.buf % 2 ^ 64
      let e3 : ReadEvent := ⟨8, pde_addr_64 pdpte virt_addr_64, r3.1.count, pde_64⟩
      if r3.1.count ≤ 0 then ⟨ST_RAM_READ_ERROR_32, none, [e1, e2, e3], r3.2⟩
      else if PDEIntegrityCheckPAE_64 pde_64 ≠ ST_SUCCESS_32 then
        ⟨PDEIntegrityCheckPAE_64 pde_64, none, [e1, e2, e3], r3.2⟩
      else if pde_64 &&& (1 <<< PDEBitsPAE.pse) ≠ 0 then
        ⟨ST_SUCCESS_32, some (phys_addr_2mb_64 pde_64 virt_addr_64), [e1, e2, e3], r3.2⟩
      else
        let r4 := read_func_64 r3.2 8 (pte_addr_64 pde_64 virt_addr_64)
        let pte_64 := r4.1.buf % 2 ^ 64
        let e4 : ReadEvent := ⟨8, pte_addr_64 pde_64 virt_addr_64, r4.1.count, pte_64⟩
        if r4.1.count < 8 then ⟨ST_RAM_READ_ERROR_32, none, [e1, e2, e3, e4], r4.2⟩
        else if PTEIntegrityCheckPAE_64 pte_64 ≠ ST_SUCCESS_32 then
          ⟨PTEIntegrityCheckPAE_64 pte_64, none, [e1, e2, e3, e4], r4.2⟩
        else
          ⟨ST_SUCCESS_32, some (phys_addr_4kb_64 pte_64 virt_addr_64),
            [e1, e2, e3, e4], r4.2⟩

/-! ## Concrete memories used as test inputs -/

/-- Scenario 1 of the specification: `0x00002007` at `0x1000`, `0x00003007`
at `0x2000`, zero elsewhere. -/
def memScenario1 : Nat → Nat :=
  fun a => if a = 0x1000 then 0x00002007 else if a = 0x2000 then 0x00003007 else 0

/-- A reader that delivers the words of a fixed list in the order of the
calls, whatever the address, always with the full byte count; its state is
the number of calls made so far. -/
def scriptReader (words : List Nat) : PREAD_FUNC Nat :=
  fun n size _ => ({ count := size, buf := words.getD n 0 }, n + 1)

/-- A reader like `scriptReader`, except that its call number `k` (counted
from 0) returns the byte count `short` while leaving the word of the list in
the buffer. -/
def shortReader (words : List Nat) (k short : Nat) : PREAD_FUNC Nat :=
  fun n size _ =>
    ({ count := if n = k then short else size, buf := words.getD n 0 }, n + 1)

/-! ## Vocabulary of the claims -/

/-- The content of the output location after a walk, given its content
`before` the call: the value stored through the pointer when the walk stored
one, the old content otherwise. -/
def phys_addr_after {σ : Type} (before : Nat) (r : Outcome σ) : Nat :=
  r.phys_addr.getD before

/-- An entry word of at most 64 bits with bit 0 (Present) cleared and every
other bit unchanged. -/
def clearPresent (w : Nat) : Nat := w &&& 0xFFFFFFFFFFFFFFFE

/-- The not-present kind that belongs to the entry read at position `k`
(counted from 0) of a walk of the 32-bit API: PDE and PTE at level 2; PDPTE,
PDE and PTE at level 3. -/
def notPresentKind (level k : Nat) : TranslationState32 :=
  if level = 2 then
    if k = 0 then ST_PDE_NOT_PRESENT_32 else ST_PTE_NOT_PRESENT_32
  else
    if k = 0 then ST_PDPTE_NOT_PRESENT_32
    else if k = 1 then ST_PDE_NOT_PRESENT_32
    else ST_PTE_NOT_PRESENT_32

/-- The test `va2pa` makes on the byte count returned by its read at position
`k` (counted from 0): below 4 at level 2 (source lines 321, 370), below 8 at
level 3 (lines 421, 460, 511). -/
def readFailed (level k count : Nat) : Bool :=
  if level = 2 then
    if k = 0 then decide (count < 4) else decide (count < 4)
  else
    if k = 0 then decide (count < 8)
    else if k = 1 then decide (count < 8)
    else decide (count < 8)

/-- The check `va2pa` applies to the entry word of its read at position `k`
(counted from 0): PDE and PTE at level 2; PDPTE, PDE and PTE at level 3. -/
def checkAt (level k w : Nat) : TranslationState32 :=
  if level = 2 then
    if k = 0 then PDEIntegrityCheck w else PTEIntegrityCheck w
  else
    if k = 0 then PDPTEIntegrityCheck w
    else if k = 1 then PDEIntegrityCheckPAE w
    else PTEIntegrityCheckPAE w

/-- The test `va2pa_64` makes on the byte count returned by its read at
position `k` (counted from 0): below 8 for the PML4E, the PDPTE and the PTE
(source lines 589, 627, 723), at most 0 for the PDE (line 672). -/
def readFailed_64 (k count : Nat) : Bool :=
  if k = 0 then decide (count < 8)
  else if k = 1 then decide (count < 8)
  else if k = 2 then decide (count ≤ 0)
  else decide (count < 8)

/-- The check `va2pa_64` applies to the entry word of its read at position
`k` (counted from 0): PML4E, PDPTE, PDE, PTE. -/
def checkAt_64 (k w : Nat) : TranslationState32 :=
  if k = 0 then PML4EIntegrityCheck w
  else if k = 1 then PDPTEIntegrityCheck_64 w
  else if k = 2 then PDEIntegrityCheckPAE_64 w
  else PTEIntegrityCheckPAE_64 w

end Va2pa

/-! ## Arithmetic of masks and offsets -/

namespace Va2pa

open TranslationState32

/-- Adding a number below `2 ^ k` to a multiple of `2 ^ k` is their bitwise or. -/
theorem add_eq_or_of_low (a b k : Nat) (ha : a % 2 ^ k = 0) (hb : b < 2 ^ k) :
    a + b = a ||| b := by
  have h : a = 2 ^ k * (a / 2 ^ k) := by
    have := Nat.div_add_mod a (2 ^ k)
    omega
  rw [h]
  exact Nat.mul_add_lt_is_or hb _

/-- A word masked with a mask whose low `k` bits are clear is a multiple of `2 ^ k`. -/
theorem and_mask_mod (x m k : Nat) (hm : m &&& (2 ^ k - 1) = 0) : (x &&& m) % 2 ^ k = 0 := by
  rw [← Nat.and_pow_two_sub_one_eq_mod, Nat.and_assoc, hm, Nat.and_zero]

/-- Adding an offset below `2 ^ k` to a word masked clear of its low `k` bits is
the bitwise or of the two, and does not wrap at width `w`. -/
theorem mask_add_offset (x v m off k w : Nat) (hm : m &&& (2 ^ k - 1) = 0)
    (hoff : off < 2 ^ k) (hmw : m < 2 ^ w) (hkw : k ≤ w) :
    ((x &&& m) + (v &&& off)) % 2 ^ w = (x &&& m) ||| (v &&& off) := by
  have hb : v &&& off < 2 ^ k := Nat.lt_of_le_of_lt Nat.and_le_right hoff
  have hbw : v &&& off < 2 ^ w :=
    Nat.lt_of_lt_of_le hb (Nat.pow_le_pow_right (by decide) hkw)
  rw [add_eq_or_of_low _ _ k (and_mask_mod x m k hm) hb]
  exact Nat.mod_eq_of_lt (Nat.or_lt_two_pow (Nat.and_lt_two_pow x hmw) hbw)

/-- With bits 52 to 63 clear, the mask `0xFFFFFFFFFFFFF000` selects bits 12 to 51. -/
theorem and_high_clear (x : Nat) (h : x &&& 0xFFF0000000000000 = 0) :
    x &&& 0xFFFFFFFFFFFFF000 = x &&& 0x000FFFFFFFFFF000 := by
  have hc : (0xFFFFFFFFFFFFF000 : Nat) = 0xFFF0000000000000 ||| 0x000FFFFFFFFFF000 := by decide
  rw [hc, Nat.and_or_distrib_left, h, Nat.zero_or]

/-- The Legacy PDE check passes exactly for a present, user-accessible PDE with PS clear. -/
theorem PDEIntegrityCheck_success (w : Nat) :
    PDEIntegrityCheck w = ST_SUCCESS_32 ↔ w &&& 1 ≠ 0 ∧ w &&& 4 ≠ 0 ∧ w &&& 128 = 0 := by
  unfold PDEIntegrityCheck
  simp only [PDEBits, PDE4MbBits]
  split_ifs <;> simp_all

/-- The Legacy PTE check passes exactly for a present, user-accessible PTE. -/
theorem PTEIntegrityCheck_success (w : Nat) :
    PTEIntegrityCheck w = ST_SUCCESS_32 ↔ w &&& 1 ≠ 0 ∧ w &&& 4 ≠ 0 := by
  unfold PTEIntegrityCheck
  simp only [PTEBits]
  split_ifs <;> simp_all

/-- The PAE PDPTE check passes exactly for a present PDPTE without reserved bits. -/
theorem PDPTEIntegrityCheck_success (w : Nat) :
    PDPTEIntegrityCheck w = ST_SUCCESS_32 ↔ w &&& 1 ≠ 0 ∧ w &&& 0xFFF00000000001E6 = 0 := by
  unfold PDPTEIntegrityCheck
  simp only [PDPTEBits]
  split_ifs <;> simp_all

/-- The PAE PDE check passes exactly for a present, user-accessible PDE that either has PS set, no
reserved bit of the 2 MiB layout and the PAT bit set, or has PS clear and no reserved bit. -/
theorem PDEIntegrityCheckPAE_success (w : Nat) :
    PDEIntegrityCheckPAE w = ST_SUCCESS_32 ↔
      w &&& 1 ≠ 0 ∧ w &&& 4 ≠ 0 ∧
        ((w &&& 128 ≠ 0 ∧ w &&& 0xFFF00000001FE000 = 0 ∧ w &&& 4096 ≠ 0) ∨
          (w &&& 128 = 0 ∧ w &&& 0xFFF0000000000000 = 0)) := by
  unfold PDEIntegrityCheckPAE
  simp only [PDEBitsPAE, PDE2MbBits]
  split_ifs <;> simp_all

/-- The PAE PTE check passes exactly for a present, user-accessible PTE with bit 7 set and no
reserved bit. -/
theorem PTEIntegrityCheckPAE_success (w : Nat) :
    PTEIntegrityCheckPAE w = ST_SUCCESS_32 ↔
      w &&& 1 ≠ 0 ∧ w &&& 4 ≠ 0 ∧ w &&& 128 ≠ 0 ∧ w &&& 0xFFF0000000000000 = 0 := by
  unfold PTEIntegrityCheckPAE
  simp only [PTEBitsPAE]
  split_ifs <;> simp_all

/-- The PML4E check passes exactly for a present, user-accessible PML4E with bits 8 and 9 clear. -/
theorem PML4EIntegrityCheck_success (w : Nat) :
    PML4EIntegrityCheck w = ST_SUCCESS_32 ↔ w &&& 1 ≠ 0 ∧ w &&& 4 ≠ 0 ∧ w &&& 0x300 = 0 := by
  unfold PML4EIntegrityCheck
  simp only [PML4EBits]
  split_ifs <;> simp_all

/-- The Long-mode PDPTE check passes exactly for a present PDPTE that, when PS is set, has no bit
of `0x3FFFE000`. -/
theorem PDPTEIntegrityCheck_64_success (w : Nat) :
    PDPTEIntegrityCheck_64 w = ST_SUCCESS_32 ↔
      w &&& 1 ≠ 0 ∧ (w &&& 128 ≠ 0 → w &&& 0x3FFFE000 = 0) := by
  unfold PDPTEIntegrityCheck_64
  simp only [PDPTEBits]
  split_ifs <;> simp_all

/-- The Long-mode PDE check passes exactly for a present, user-accessible PDE without reserved
bits of its page size. -/
theorem PDEIntegrityCheckPAE_64_success (w : Nat) :
    PDEIntegrityCheckPAE_64 w = ST_SUCCESS_32 ↔
      w &&& 1 ≠ 0 ∧ w &&& 4 ≠ 0 ∧
        ((w &&& 128 ≠ 0 ∧ w &&& 0xFFF00000001FE000 = 0) ∨
          (w &&& 128 = 0 ∧ w &&& 0xFFF0000000000000 = 0)) := by
  unfold PDEIntegrityCheckPAE_64
  simp only [PDEBitsPAE, PDE2MbBits]
  split_ifs <;> simp_all

/-- The Long-mode PTE check passes exactly for a present, user-accessible PTE with bit 7 set and
no reserved bit. -/
theorem PTEIntegrityCheckPAE_64_success (w : Nat) :
    PTEIntegrityCheckPAE_64 w = ST_SUCCESS_32 ↔
      w &&& 1 ≠ 0 ∧ w &&& 4 ≠ 0 ∧ w &&& 128 ≠ 0 ∧ w &&& 0xFFF0000000000000 = 0 := by
  unfold PTEIntegrityCheckPAE_64
  simp only [PTEBitsPAE]
  split_ifs <;> simp_all

/-- Or-ing an offset below `2 ^ 12` into a word masked clear of its low 12
bits leaves the offset in the low 12 bits. -/
theorem low_bits_of_or (x v m off : Nat) (hm : m &&& off = 0) :
    ((x &&& m) ||| (v &&& off)) &&& off = v &&& off := by
  apply Nat.eq_of_testBit_eq
  intro i
  have h := congrArg (fun t => t.testBit i) hm
  simp only [Nat.testBit_and, Nat.testBit_or, Nat.zero_testBit] at h ⊢
  cases hx : x.testBit i <;> cases hmm : m.testBit i <;> cases hv : v.testBit i <;>
    cases hc : off.testBit i <;> simp_all

/-! ## The shapes of a walk -/

/-- Level 2 of `va2pa` is the Legacy walk. -/
theorem va2pa_two {σ : Type} (va root : Nat) (rd : PREAD_FUNC σ) (s : σ) :
    va2pa va 2 root rd s = va2pa_level2 va root rd s := by
  simp [va2pa]

/-- Level 3 of `va2pa` is the PAE walk. -/
theorem va2pa_three {σ : Type} (va root : Nat) (rd : PREAD_FUNC σ) (s : σ) :
    va2pa va 3 root rd s = va2pa_level3 va root rd s := by
  simp [va2pa]

/-- Every run of the Legacy walk has one of six shapes. -/
theorem va2pa_level2_cases {σ : Type} (va root : Nat) (rd : PREAD_FUNC σ) (s : σ) :
    ∃ (e1 e2 : ReadEvent) (s1 s2 : σ),
      (e1.size = 4 ∧ e1.physical_addr = pde_addr root va ∧ e1.data < 2 ^ 32) ∧
      (e2.size = 4 ∧ e2.physical_addr = pte_addr e1.data va ∧ e2.data < 2 ^ 32) ∧
      ((e1.count < 4 ∧
          va2pa_level2 va root rd s = ⟨ST_RAM_READ_ERROR_32, none, [e1], s1⟩) ∨
        (4 ≤ e1.count ∧ PDEIntegrityCheck e1.data ≠ ST_SUCCESS_32 ∧
          va2pa_level2 va root rd s = ⟨PDEIntegrityCheck e1.data, none, [e1], s1⟩) ∨
        (4 ≤ e1.count ∧ PDEIntegrityCheck e1.data = ST_SUCCESS_32 ∧ e1.data &&& 128 ≠ 0 ∧
          va2pa_level2 va root rd s
            = ⟨ST_SUCCESS_32, some (phys_addr_4mb e1.data va), [e1], s1⟩) ∨
        (4 ≤ e1.count ∧ PDEIntegrityCheck e1.data = ST_SUCCESS_32 ∧ e1.data &&& 128 = 0 ∧
          e2.count < 4 ∧
          va2pa_level2 va root rd s = ⟨ST_RAM_READ_ERROR_32, none, [e1, e2], s2⟩) ∨
        (4 ≤ e1.count ∧ PDEIntegrityCheck e1.data = ST_SUCCESS_32 ∧ e1.data &&& 128 = 0 ∧
          4 ≤ e2.count ∧ PTEIntegrityCheck e2.data ≠ ST_SUCCESS_32 ∧
          va2pa_level2 va root rd s = ⟨PTEIntegrityCheck e2.data, none, [e1, e2], s2⟩) ∨
        (4 ≤ e1.count ∧ PDEIntegrityCheck e1.data = ST_SUCCESS_32 ∧ e1.data &&& 128 = 0 ∧
          4 ≤ e2.count ∧ PTEIntegrityCheck e2.data = ST_SUCCESS_32 ∧
          va2pa_level2 va root rd s
            = ⟨ST_SUCCESS_32, some (phys_addr_4kb e2.data va), [e1, e2], s2⟩)) := by
  unfold va2pa_level2
  dsimp only []
  generalize rd s 4 _ = r1
  generalize rd r1.2 4 _ = r2
  refine ⟨⟨4, pde_addr root va, r1.1.count, r1.1.buf % 2 ^ 32⟩,
    ⟨4, pte_addr (r1.1.buf % 2 ^ 32) va, r2.1.count, r2.1.buf % 2 ^ 32⟩, r1.2, r2.2,
    ⟨rfl, rfl, Nat.mod_lt _ (by decide)⟩, ⟨rfl, rfl, Nat.mod_lt _ (by decide)⟩, ?_⟩
  dsimp only []
  by_cases c1 : r1.1.count < 4
  · rw [if_pos c1]; exact Or.inl ⟨c1, rfl⟩
  rw [if_neg c1]
  have c1' := Nat.le_of_not_lt c1
  by_cases c2 : PDEIntegrityCheck (r1.1.buf % 2 ^ 32) ≠ ST_SUCCESS_32
  · rw [if_pos c2]; exact Or.inr (Or.inl ⟨c1', c2, rfl⟩)
  rw [if_neg c2]
  have c2' := not_not.mp c2
  by_cases c3 : r1.1.buf % 2 ^ 32 &&& (1 <<< PDEBits.pse) ≠ 0
  · rw [if_pos c3]; exact Or.inr (Or.inr (Or.inl ⟨c1', c2', c3, rfl⟩))
  rw [if_neg c3]
  have c3' : r1.1.buf % 2 ^ 32 &&& 128 = 0 := not_not.mp c3
  by_cases c4 : r2.1.count < 4
  · rw [if_pos c4]; exact Or.inr (Or.inr (Or.inr (Or.inl ⟨c1', c2', c3', c4, rfl⟩)))
  rw [if_neg c4]
  have c4' := Nat.le_of_not_lt c4
  by_cases c5 : PTEIntegrityCheck (r2.1.buf % 2 ^ 32) ≠ ST_SUCCESS_32
  · rw [if_pos c5]
    exact Or.inr (Or.inr (Or.inr (Or.inr (Or.inl ⟨c1', c2', c3', c4', c5, rfl⟩))))
  rw [if_neg c5]
  exact Or.inr (Or.inr (Or.inr (Or.inr (Or.inr ⟨c1', c2', c3', c4', not_not.mp c5, rfl⟩))))

/-- Every run of the PAE walk has one of eight shapes. -/
theorem va2pa_level3_cases {σ : Type} (va root : Nat) (rd : PREAD_FUNC σ) (s : σ) :
    ∃ (e1 e2 e3 : ReadEvent) (s1 s2 s3 : σ),
      (e1.size = 8 ∧ e1.physical_addr = pdpte_addr root va % 2 ^ 32 ∧ e1.data < 2 ^ 64) ∧
      (e2.size = 8 ∧ e2.physical_addr = pde_addr_pae e1.data va % 2 ^ 32 ∧
        e2.data < 2 ^ 64) ∧
      (e3.size = 8 ∧ e3.physical_addr = pte_addr_pae e2.data va % 2 ^ 32 ∧
        e3.data < 2 ^ 64) ∧
      ((e1.count < 8 ∧
          va2pa_level3 va root rd s = ⟨ST_RAM_READ_ERROR_32, none, [e1], s1⟩) ∨
        (8 ≤ e1.count ∧ PDPTEIntegrityCheck e1.data ≠ ST_SUCCESS_32 ∧
          va2pa_level3 va root rd s = ⟨PDPTEIntegrityCheck e1.data, none, [e1], s1⟩) ∨
        ((8 ≤ e1.count ∧ PDPTEIntegrityCheck e1.data = ST_SUCCESS_32) ∧ e2.count < 8 ∧
          va2pa_level3 va root rd s = ⟨ST_RAM_READ_ERROR_32, none, [e1, e2], s2⟩) ∨
        ((8 ≤ e1.count ∧ PDPTEIntegrityCheck e1.data = ST_SUCCESS_32) ∧
          8 ≤ e2.count ∧ PDEIntegrityCheckPAE e2.data ≠ ST_SUCCESS_32 ∧
          va2pa_level3 va root rd s = ⟨PDEIntegrityCheckPAE e2.data, none, [e1, e2], s2⟩) ∨
        ((8 ≤ e1.count ∧ PDPTEIntegrityCheck e1.data = ST_SUCCESS_32) ∧
          (8 ≤ e2.count ∧ PDEIntegrityCheckPAE e2.data = ST_SUCCESS_32) ∧
          e2.data &&& 128 ≠ 0 ∧
          va2pa_level3 va root rd s
            = ⟨ST_SUCCESS_32, some (phys_addr_2mb_pae e2.data va), [e1, e2], s2⟩) ∨
        ((8 ≤ e1.count ∧ PDPTEIntegrityCheck e1.data = ST_SUCCESS_32) ∧
          (8 ≤ e2.count ∧ PDEIntegrityCheckPAE e2.data = ST_SUCCESS_32 ∧
            e2.data &&& 128 = 0) ∧
          e3.count < 8 ∧
          va2pa_level3 va root rd s = ⟨ST_RAM_READ_ERROR_32, none, [e1, e2, e3], s3⟩) ∨
        ((8 ≤ e1.count ∧ PDPTEIntegrityCheck e1.data = ST_SUCCESS_32) ∧
          (8 ≤ e2.count ∧ PDEIntegrityCheckPAE e2.data = ST_SUCCESS_32 ∧
            e2.data &&& 128 = 0) ∧
          8 ≤ e3.count ∧ PTEIntegrityCheckPAE e3.data ≠ ST_SUCCESS_32 ∧
          va2pa_level3 va root rd s
            = ⟨PTEIntegrityCheckPAE e3.data, none, [e1, e2, e3], s3⟩) ∨
        ((8 ≤ e1.count ∧ PDPTEIntegrityCheck e1.data = ST_SUCCESS_32) ∧
          (8 ≤ e2.count ∧ PDEIntegrityCheckPAE e2.data = ST_SUCCESS_32 ∧
            e2.data &&& 128 = 0) ∧
          8 ≤ e3.count ∧ PTEIntegrityCheckPAE e3.data = ST_SUCCESS_32 ∧
          va2pa_level3 va root rd s
            = ⟨ST_SUCCESS_32, some (phys_addr_4kb_pae e3.data va), [e1, e2, e3], s3⟩)) := by
  unfold va2pa_level3
  dsimp only []
  generalize rd s 8 _ = r1
  generalize rd r1.2 8 _ = r2
  generalize rd r2.2 8 _ = r3
  refine ⟨⟨8, pdpte_addr root va % 2 ^ 32, r1.1.count, r1.1.buf % 2 ^ 64⟩,
    ⟨8, pde_addr_pae (r1.1.buf % 2 ^ 64) va % 2 ^ 32, r2.1.count, r2.1.buf % 2 ^ 64⟩,
    ⟨8, pte_addr_pae (r2.1.buf % 2 ^ 64) va % 2 ^ 32, r3.1.count, r3.1.buf % 2 ^ 64⟩,
    r1.2, r2.2, r3.2,
    ⟨rfl, rfl, Nat.mod_lt _ (by decide)⟩, ⟨rfl, rfl, Nat.mod_lt _ (by decide)⟩,
    ⟨rfl, rfl, Nat.mod_lt _ (by decide)⟩, ?_⟩
  dsimp only []
  by_cases c1 : r1.1.count < 8
  · rw [if_pos c1]; exact Or.inl ⟨c1, rfl⟩
  rw [if_neg c1]
  refine Or.inr ?_
  by_cases c2 : PDPTEIntegrityCheck (r1.1.buf % 2 ^ 64) ≠ ST_SUCCESS_32
  · rw [if_pos c2]; exact Or.inl ⟨Nat.le_of_not_lt c1, c2, rfl⟩
  rw [if_neg c2]
  refine Or.inr ?_
  have k1 : 8 ≤ r1.1.count ∧ PDPTEIntegrityCheck (r1.1.buf % 2 ^ 64) = ST_SUCCESS_32 :=
    ⟨Nat.le_of_not_lt c1, not_not.mp c2⟩
  by_cases c3 : r2.1.count < 8
  · rw [if_pos c3]; exact Or.inl ⟨k1, c3, rfl⟩
  rw [if_neg c3]
  refine Or.inr ?_
  by_cases c4 : PDEIntegrityCheckPAE (r2.1.buf % 2 ^ 64) ≠ ST_SUCCESS_32
  · rw [if_pos c4]; exact Or.inl ⟨k1, Nat.le_of_not_lt c3, c4, rfl⟩
  rw [if_neg c4]
  refine Or.inr ?_
  by_cases c5 : r2.1.buf % 2 ^ 64 &&& (1 <<< PDEBitsPAE.pse) ≠ 0
  · rw [if_pos c5]; exact Or.inl ⟨k1, ⟨Nat.le_of_not_lt c3, not_not.mp c4⟩, c5, rfl⟩
  rw [if_neg c5]
  refine Or.inr ?_
  have k2 : 8 ≤ r2.1.count ∧ PDEIntegrityCheckPAE (r2.1.buf % 2 ^ 64) = ST_SUCCESS_32 ∧
      r2.1.buf % 2 ^ 64 &&& 128 = 0 := ⟨Nat.le_of_not_lt c3, not_not.mp c4, not_not.mp c5⟩
  by_cases c6 : r3.1.count < 8
  · rw [if_pos c6]; exact Or.inl ⟨k1, k2, c6, rfl⟩
  rw [if_neg c6]
  refine Or.inr ?_
  by_cases c7 : PTEIntegrityCheckPAE (r3.1.buf % 2 ^ 64) ≠ ST_SUCCESS_32
  · rw [if_pos c7]; exact Or.inl ⟨k1, k2, Nat.le_of_not_lt c6, c7, rfl⟩
  rw [if_neg c7]
  exact Or.inr ⟨k1, k2, Nat.le_of_not_lt c6, not_not.mp c7, rfl⟩

/-- Every run of the Long-mode walk has one of eleven shapes. -/
theorem va2pa_64_cases {σ : Type} (va root : Nat) (rd : PREAD_FUNC_64 σ) (s : σ) :
    ∃ (e1 e2 e3 e4 : ReadEvent) (s1 s2 s3 s4 : σ),
      (e1.size = 8 ∧ e1.physical_addr = pml4e_addr root va ∧ e1.data < 2 ^ 64) ∧
      (e2.size = 8 ∧ e2.physical_addr = pdpte_addr_64 e1.data va ∧ e2.data < 2 ^ 64) ∧
      (e3.size = 8 ∧ e3.physical_addr = pde_addr_64 e2.data va ∧ e3.data < 2 ^ 64) ∧
      (e4.size = 8 ∧ e4.physical_addr = pte_addr_64 e3.data va ∧ e4.data < 2 ^ 64) ∧
      ((e1.count < 8 ∧
          va2pa_64 va root rd s = ⟨ST_RAM_READ_ERROR_32, none, [e1], s1⟩) ∨
        (8 ≤ e1.count ∧ PML4EIntegrityCheck e1.data ≠ ST_SUCCESS_32 ∧
          va2pa_64 va root rd s = ⟨PML4EIntegrityCheck e1.data, none, [e1], s1⟩) ∨
        ((8 ≤ e1.count ∧ PML4EIntegrityCheck e1.data = ST_SUCCESS_32) ∧ e2.count < 8 ∧
          va2pa_64 va root rd s = ⟨ST_RAM_READ_ERROR_32, none, [e1, e2], s2⟩) ∨
        ((8 ≤ e1.count ∧ PML4EIntegrityCheck e1.data = ST_SUCCESS_32) ∧
          8 ≤ e2.count ∧ PDPTEIntegrityCheck_64 e2.data ≠ ST_SUCCESS_32 ∧
          va2pa_64 va root rd s = ⟨PDPTEIntegrityCheck_64 e2.data, none, [e1, e2], s2⟩) ∨
        ((8 ≤ e1.count ∧ PML4EIntegrityCheck e1.data = ST_SUCCESS_32) ∧
          (8 ≤ e2.count ∧ PDPTEIntegrityCheck_64 e2.data = ST_SUCCESS_32) ∧
          e2.data &&& 128 ≠ 0 ∧
          va2pa_64 va root rd s
            = ⟨ST_SUCCESS_32, some (phys_addr_1gb_64 e2.data va), [e1, e2], s2⟩) ∨
        ((8 ≤ e1.count ∧ PML4EIntegrityCheck e1.data = ST_SUCCESS_32) ∧
          (8 ≤ e2.count ∧ PDPTEIntegrityCheck_64 e2.data = ST_SUCCESS_32 ∧
            e2.data &&& 128 = 0) ∧
          e3.count ≤ 0 ∧
          va2pa_64 va root rd s = ⟨ST_RAM_READ_ERROR_32, none, [e1, e2, e3], s3⟩) ∨
        ((8 ≤ e1.count ∧ PML4EIntegrityCheck e1.data = ST_SUCCESS_32) ∧
          (8 ≤ e2.count ∧ PDPTEIntegrityCheck_64 e2.data = ST_SUCCESS_32 ∧
            e2.data &&& 128 = 0) ∧
          0 < e3.count ∧ PDEIntegrityCheckPAE_64 e3.data ≠ ST_SUCCESS_32 ∧
          va2pa_64 va root rd s
            = ⟨PDEIntegrityCheckPAE_64 e3.data, none, [e1, e2, e3], s3⟩) ∨
        ((8 ≤ e1.count ∧ PML4EIntegrityCheck e1.data = ST_SUCCESS_32) ∧
          (8 ≤ e2.count ∧ PDPTEIntegrityCheck_64 e2.data = ST_SUCCESS_32 ∧
            e2.data &&& 128 = 0) ∧
          (0 < e3.count ∧ PDEIntegrityCheckPAE_64 e3.data = ST_SUCCESS_32) ∧
          e3.data &&& 128 ≠ 0 ∧
          va2pa_64 va root rd s
            = ⟨ST_SUCCESS_32, some (phys_addr_2mb_64 e3.data va), [e1, e2, e3], s3⟩) ∨
        ((8 ≤ e1.count ∧ PML4EIntegrityCheck e1.data = ST_SUCCESS_32) ∧
          (8 ≤ e2.count ∧ PDPTEIntegrityCheck_64 e2.data = ST_SUCCESS_32 ∧
            e2.data &&& 128 = 0) ∧
          (0 < e3.count ∧ PDEIntegrityCheckPAE_64 e3.data = ST_SUCCESS_32 ∧
            e3.data &&& 128 = 0) ∧
          e4.count < 8 ∧
          va2pa_64 va root rd s = ⟨ST_RAM_READ_ERROR_32, none, [e1, e2, e3, e4], s4⟩) ∨
        ((8 ≤ e1.count ∧ PML4EIntegrityCheck e1.data = ST_SUCCESS_32) ∧
          (8 ≤ e2.count ∧ PDPTEIntegrityCheck_64 e2.data = ST_SUCCESS_32 ∧
            e2.data &&& 128 = 0) ∧
          (0 < e3.count ∧ PDEIntegrityCheckPAE_64 e3.data = ST_SUCCESS_32 ∧
            e3.data &&& 128 = 0) ∧
          8 ≤ e4.count ∧ PTEIntegrityCheckPAE_64 e4.data ≠ ST_SUCCESS_32 ∧
          va2pa_64 va root rd s
            = ⟨PTEIntegrityCheckPAE_64 e4.data, none, [e1, e2, e3, e4], s4⟩) ∨
        ((8 ≤ e1.count ∧ PML4EIntegrityCheck e1.data = ST_SUCCESS_32) ∧
          (8 ≤ e2.count ∧ PDPTEIntegrityCheck_64 e2.data = ST_SUCCESS_32 ∧
            e2.data &&& 128 = 0) ∧
          (0 < e3.count ∧ PDEIntegrityCheckPAE_64 e3.data = ST_SUCCESS_32 ∧
            e3.data &&& 128 = 0) ∧
          8 ≤ e4.count ∧ PTEIntegrityCheckPAE_64 e4.data = ST_SUCCESS_32 ∧
          va2pa_64 va root rd s
            = ⟨ST_SUCCESS_32, some (phys_addr_4kb_64 e4.data va),
                [e1, e2, e3, e4], s4⟩)) := by
  unfold va2pa_64
  dsimp only []
  generalize rd s 8 _ = r1
  generalize rd r1.2 8 _ = r2
  generalize rd r2.2 8 _ = r3
  generalize rd r3.2 8 _ = r4
  refine ⟨⟨8, pml4e_addr root va, r1.1.count, r1.1.buf % 2 ^ 64⟩,
    ⟨8, pdpte_addr_64 (r1.1.buf % 2 ^ 64) va, r2.1.count, r2.1.buf % 2 ^ 64⟩,
    ⟨8, pde_addr_64 (r2.1.buf % 2 ^ 64) va, r3.1.count, r3.1.buf % 2 ^ 64⟩,
    ⟨8, pte_addr_64 (r3.1.buf % 2 ^ 64) va, r4.1.count, r4.1.buf % 2 ^ 64⟩,
    r1.2, r2.2, r3.2, r4.2,
    ⟨rfl, rfl, Nat.mod_lt _ (by decide)⟩, ⟨rfl, rfl, Nat.mod_lt _ (by decide)⟩,
    ⟨rfl, rfl, Nat.mod_lt _ (by decide)⟩, ⟨rfl, rfl, Nat.mod_lt _ (by decide)⟩, ?_⟩
  dsimp only []
  by_cases c1 : r1.1.count < 8
  · rw [if_pos c1]; exact Or.inl ⟨c1, rfl⟩
  rw [if_neg c1]
  refine Or.inr ?_
  by_cases c2 : PML4EIntegrityCheck (r1.1.buf % 2 ^ 64) ≠ ST_SUCCESS_32
  · rw [if_pos c2]; exact Or.inl ⟨Nat.le_of_not_lt c1, c2, rfl⟩
  rw [if_neg c2]
  refine Or.inr ?_
  have k1 : 8 ≤ r1.1.count ∧ PML4EIntegrityCheck (r1.1.buf % 2 ^ 64) = ST_SUCCESS_32 :=
    ⟨Nat.le_of_not_lt c1, not_not.mp c2⟩
  by_cases c3 : r2.1.count < 8
  · rw [if_pos c3]; exact Or.inl ⟨k1, c3, rfl⟩
  rw [if_neg c3]
  refine Or.inr ?_
  by_cases c4 : PDPTEIntegrityCheck_64 (r2.1.buf % 2 ^ 64) ≠ ST_SUCCESS_32
  · rw [if_pos c4]; exact Or.inl ⟨k1, Nat.le_of_not_lt c3, c4, rfl⟩
  rw [if_neg c4]
  refine Or.inr ?_
  by_cases c5 : r2.1.buf % 2 ^ 64 &&& (1 <<< PDPTEBits.pse) ≠ 0
  · rw [if_pos c5]; exact Or.inl ⟨k1, ⟨Nat.le_of_not_lt c3, not_not.mp c4⟩, c5, rfl⟩
  rw [if_neg c5]
  refine Or.inr ?_
  have k2 : 8 ≤ r2.1.count ∧ PDPTEIntegrityCheck_64 (r2.1.buf % 2 ^ 64) = ST_SUCCESS_32 ∧
      r2.1.buf % 2 ^ 64 &&& 128 = 0 := ⟨Nat.le_of_not_lt c3, not_not.mp c4, not_not.mp c5⟩
  by_cases c6 : r3.1.count ≤ 0
  · rw [if_pos c6]; exact Or.inl ⟨k1, k2, c6, rfl⟩
  rw [if_neg c6]
  refine Or.inr ?_
  by_cases c7 : PDEIntegrityCheckPAE_64 (r3.1.buf % 2 ^ 64) ≠ ST_SUCCESS_32
  · rw [if_pos c7]; exact Or.inl ⟨k1, k2, Nat.lt_of_not_le c6, c7, rfl⟩
  rw [if_neg c7]
  refine Or.inr ?_
  by_cases c8 : r3.1.buf % 2 ^ 64 &&& (1 <<< PDEBitsPAE.pse) ≠ 0
  · rw [if_pos c8]
    exact Or.inl ⟨k1, k2, ⟨Nat.lt_of_not_le c6, not_not.mp c7⟩, c8, rfl⟩
  rw [if_neg c8]
  refine Or.inr ?_
  have k3 : 0 < r3.1.count ∧ PDEIntegrityCheckPAE_64 (r3.1.buf % 2 ^ 64) = ST_SUCCESS_32 ∧
      r3.1.buf % 2 ^ 64 &&& 128 = 0 := ⟨Nat.lt_of_not_le c6, not_not.mp c7, not_not.mp c8⟩
  by_cases c9 : r4.1.count < 8
  · rw [if_pos c9]; exact Or.inl ⟨k1, k2, k3, c9, rfl⟩
  rw [if_neg c9]
  refine Or.inr ?_
  by_cases c10 : PTEIntegrityCheckPAE_64 (r4.1.buf % 2 ^ 64) ≠ ST_SUCCESS_32
  · rw [if_pos c10]; exact Or.inl ⟨k1, k2, k3, Nat.le_of_not_lt c9, c10, rfl⟩
  rw [if_neg c10]
  exact Or.inr ⟨k1, k2, k3, Nat.le_of_not_lt c9, not_not.mp c10, rfl⟩

/-! ## The steps of a walk, one read at a time -/

/-- The first step of the Legacy walk: the PDE read and its check. -/
theorem level2_at_pde {σ : Type} (va root : Nat) (rd : PREAD_FUNC σ) (s : σ) :
    ∃ e1, (va2pa_level2 va root rd s).reads[0]? = some e1 ∧
      e1.size = 4 ∧ e1.physical_addr = pde_addr root va ∧ e1.data < 2 ^ 32 ∧
      (e1.count < 4 →
        (va2pa_level2 va root rd s).status = ST_RAM_READ_ERROR_32 ∧
        (va2pa_level2 va root rd s).reads = [e1] ∧
        (va2pa_level2 va root rd s).phys_addr = none) ∧
      (4 ≤ e1.count → PDEIntegrityCheck e1.data ≠ ST_SUCCESS_32 →
        (va2pa_level2 va root rd s).status = PDEIntegrityCheck e1.data ∧
        (va2pa_level2 va root rd s).reads = [e1] ∧
        (va2pa_level2 va root rd s).phys_addr = none) := by
  obtain ⟨e1, e2, s1, s2, ⟨a1, a2, a3⟩, -, hc⟩ := va2pa_level2_cases va root rd s
  refine ⟨e1, ?_, a1, a2, a3, ?_, ?_⟩ <;>
    rcases hc with ⟨_, hw⟩ | ⟨_, _, hw⟩ | ⟨_, _, _, hw⟩ | ⟨_, _, _, _, hw⟩ |
      ⟨_, _, _, _, _, hw⟩ | ⟨_, _, _, _, _, hw⟩ <;>
    rw [hw] <;> simp_all

/-- The second step of the Legacy walk, after a PDE that passed its check. -/
theorem level2_at_pte {σ : Type} (va root : Nat) (rd : PREAD_FUNC σ) (s : σ) (e1 : ReadEvent)
    (h0 : (va2pa_level2 va root rd s).reads[0]? = some e1)
    (hc1 : 4 ≤ e1.count) (hk1 : PDEIntegrityCheck e1.data = ST_SUCCESS_32) :
    ∃ e2, (va2pa_level2 va root rd s).reads[1]? = some e2 ∧
      e2.size = 4 ∧ e2.physical_addr = pte_addr e1.data va ∧ e2.data < 2 ^ 32 ∧
      (e2.count < 4 →
        (va2pa_level2 va root rd s).status = ST_RAM_READ_ERROR_32 ∧
        (va2pa_level2 va root rd s).reads = [e1, e2] ∧
        (va2pa_level2 va root rd s).phys_addr = none) ∧
      (4 ≤ e2.count → PTEIntegrityCheck e2.data ≠ ST_SUCCESS_32 →
        (va2pa_level2 va root rd s).status = PTEIntegrityCheck e2.data ∧
        (va2pa_level2 va root rd s).reads = [e1, e2] ∧
        (va2pa_level2 va root rd s).phys_addr = none) ∧
      (4 ≤ e2.count → PTEIntegrityCheck e2.data = ST_SUCCESS_32 →
        (va2pa_level2 va root rd s).status = ST_SUCCESS_32 ∧
        (va2pa_level2 va root rd s).reads = [e1, e2] ∧
        (va2pa_level2 va root rd s).phys_addr = some (phys_addr_4kb e2.data va)) := by
  obtain ⟨f1, e2, s1, s2, -, ⟨a1, a2, a3⟩, hc⟩ := va2pa_level2_cases va root rd s
  have hf0 : f1 = e1 := by
    rcases hc with ⟨_, hw⟩ | ⟨_, _, hw⟩ | ⟨_, _, _, hw⟩ | ⟨_, _, _, _, hw⟩ |
      ⟨_, _, _, _, _, hw⟩ | ⟨_, _, _, _, _, hw⟩ <;>
    · rw [hw] at h0
      simp at h0; exact h0
  subst hf0
  refine ⟨e2, ?_, a1, a2, a3, ?_, ?_, ?_⟩ <;>
    rcases hc with ⟨_, hw⟩ | ⟨_, _, hw⟩ | ⟨_, _, _, hw⟩ | ⟨_, _, _, _, hw⟩ |
      ⟨_, _, _, _, _, hw⟩ | ⟨_, _, _, _, _, hw⟩ <;>
    rw [hw] <;> simp_all [PDEIntegrityCheck_success] <;> omega

/-- The first step of the PAE walk: the PDPTE read and its check. -/
theorem level3_at_pdpte {σ : Type} (va root : Nat) (rd : PREAD_FUNC σ) (s : σ) :
    ∃ e1, (va2pa_level3 va root rd s).reads[0]? = some e1 ∧
      e1.size = 8 ∧ e1.physical_addr = pdpte_addr root va % 2 ^ 32 ∧ e1.data < 2 ^ 64 ∧
      (e1.count < 8 →
        (va2pa_level3 va root rd s).status = ST_RAM_READ_ERROR_32 ∧
        (va2pa_level3 va root rd s).reads = [e1] ∧
        (va2pa_level3 va root rd s).phys_addr = none) ∧
      (8 ≤ e1.count → PDPTEIntegrityCheck e1.data ≠ ST_SUCCESS_32 →
        (va2pa_level3 va root rd s).status = PDPTEIntegrityCheck e1.data ∧
        (va2pa_level3 va root rd s).reads = [e1] ∧
        (va2pa_level3 va root rd s).phys_addr = none) := by
  obtain ⟨e1, e2, e3, s1, s2, s3, ⟨a1, a2, a3⟩, -, -, hc⟩ := va2pa_level3_cases va root rd s
  refine ⟨e1, ?_, a1, a2, a3, ?_, ?_⟩ <;>
    rcases hc with ⟨_, hw⟩ | ⟨_, _, hw⟩ | ⟨⟨_, _⟩, _, hw⟩ | ⟨⟨_, _⟩, _, _, hw⟩ |
      ⟨⟨_, _⟩, ⟨_, _⟩, _, hw⟩ | ⟨⟨_, _⟩, ⟨_, _, _⟩, _, hw⟩ | ⟨⟨_, _⟩, ⟨_, _, _⟩, _, _, hw⟩ |
      ⟨⟨_, _⟩, ⟨_, _, _⟩, _, _, hw⟩ <;>
    rw [hw] <;> simp_all

/-- The second step of the PAE walk, after a PDPTE that passed its check. -/
theorem level3_at_pde {σ : Type} (va root : Nat) (rd : PREAD_FUNC σ) (s : σ) (e1 : ReadEvent)
    (h0 : (va2pa_level3 va root rd s).reads[0]? = some e1)
    (hc1 : 8 ≤ e1.count) (hk1 : PDPTEIntegrityCheck e1.data = ST_SUCCESS_32) :
    ∃ e2, (va2pa_level3 va root rd s).reads[1]? = some e2 ∧
      e2.size = 8 ∧ e2.physical_addr = pde_addr_pae e1.data va % 2 ^ 32 ∧ e2.data < 2 ^ 64 ∧
      (e2.count < 8 →
        (va2pa_level3 va root rd s).status = ST_RAM_READ_ERROR_32 ∧
        (va2pa_level3 va root rd s).reads = [e1, e2] ∧
        (va2pa_level3 va root rd s).phys_addr = none) ∧
      (8 ≤ e2.count → PDEIntegrityCheckPAE e2.data ≠ ST_SUCCESS_32 →
        (va2pa_level3 va root rd s).status = PDEIntegrityCheckPAE e2.data ∧
        (va2pa_level3 va root rd s).reads = [e1, e2] ∧
        (va2pa_level3 va root rd s).phys_addr = none) ∧
      (8 ≤ e2.count → PDEIntegrityCheckPAE e2.data = ST_SUCCESS_32 → e2.data &&& 128 ≠ 0 →
        (va2pa_level3 va root rd s).status = ST_SUCCESS_32 ∧
        (va2pa_level3 va root rd s).reads = [e1, e2] ∧
        (va2pa_level3 va root rd s).phys_addr = some (phys_addr_2mb_pae e2.data va)) := by
  obtain ⟨f1, e2, e3, s1, s2, s3, -, ⟨a1, a2, a3⟩, -, hc⟩ := va2pa_level3_cases va root rd s
  have hf0 : f1 = e1 := by
    rcases hc with ⟨_, hw⟩ | ⟨_, _, hw⟩ | ⟨⟨_, _⟩, _, hw⟩ | ⟨⟨_, _⟩, _, _, hw⟩ |
      ⟨⟨_, _⟩, ⟨_, _⟩, _, hw⟩ | ⟨⟨_, _⟩, ⟨_, _, _⟩, _, hw⟩ | ⟨⟨_, _⟩, ⟨_, _, _⟩, _, _, hw⟩ |
      ⟨⟨_, _⟩, ⟨_, _, _⟩, _, _, hw⟩ <;>
    · rw [hw] at h0
      simp at h0; exact h0
  subst hf0
  refine ⟨e2, ?_, a1, a2, a3, ?_, ?_, ?_⟩ <;>
    rcases hc with ⟨_, hw⟩ | ⟨_, _, hw⟩ | ⟨⟨_, _⟩, _, hw⟩ | ⟨⟨_, _⟩, _, _, hw⟩ |
      ⟨⟨_, _⟩, ⟨_, _⟩, _, hw⟩ | ⟨⟨_, _⟩, ⟨_, _, _⟩, _, hw⟩ | ⟨⟨_, _⟩, ⟨_, _, _⟩, _, _, hw⟩ |
      ⟨⟨_, _⟩, ⟨_, _, _⟩, _, _, hw⟩ <;>
    rw [hw] <;> simp_all <;> omega

/-- The third step of the PAE walk, after a PDE that passed its check with PS clear. -/
theorem level3_at_pte {σ : Type} (va root : Nat) (rd : PREAD_FUNC σ) (s : σ) (e1 e2 : ReadEvent)
    (h0 : (va2pa_level3 va root rd s).reads[0]? = some e1)
    (h1 : (va2pa_level3 va root rd s).reads[1]? = some e2)
    (hc1 : 8 ≤ e1.count) (hk1 : PDPTEIntegrityCheck e1.data = ST_SUCCESS_32)
    (hc2 : 8 ≤ e2.count) (hk2 : PDEIntegrityCheckPAE e2.data = ST_SUCCESS_32)
    (hps2 : e2.data &&& 128 = 0) :
    ∃ e3, (va2pa_level3 va root rd s).reads[2]? = some e3 ∧
      e3.size = 8 ∧ e3.physical_addr = pte_addr_pae e2.data va % 2 ^ 32 ∧ e3.data < 2 ^ 64 ∧
      (e3.count < 8 →
        (va2pa_level3 va root rd s).status = ST_RAM_READ_ERROR_32 ∧
        (va2pa_level3 va root rd s).reads = [e1, e2, e3] ∧
        (va2pa_level3 va root rd s).phys_addr = none) ∧
      (8 ≤ e3.count → PTEIntegrityCheckPAE e3.data ≠ ST_SUCCESS_32 →
        (va2pa_level3 va root rd s).status = PTEIntegrityCheckPAE e3.data ∧
        (va2pa_level3 va root rd s).reads = [e1, e2, e3] ∧
        (va2pa_level3 va root rd s).phys_addr = none) ∧
      (8 ≤ e3.count → PTEIntegrityCheckPAE e3.data = ST_SUCCESS_32 →
        (va2pa_level3 va root rd s).status = ST_SUCCESS_32 ∧
        (va2pa_level3 va root rd s).reads = [e1, e2, e3] ∧
        (va2pa_level3 va root rd s).phys_addr = some (phys_addr_4kb_pae e3.data va)) := by
  obtain ⟨f1, f2, e3, s1, s2, s3, -, -, ⟨a1, a2, a3⟩, hc⟩ := va2pa_level3_cases va root rd s
  have hf0 : f1 = e1 := by
    rcases hc with ⟨_, hw⟩ | ⟨_, _, hw⟩ | ⟨⟨_, _⟩, _, hw⟩ | ⟨⟨_, _⟩, _, _, hw⟩ |
      ⟨⟨_, _⟩, ⟨_, _⟩, _, hw⟩ | ⟨⟨_, _⟩, ⟨_, _, _⟩, _, hw⟩ | ⟨⟨_, _⟩, ⟨_, _, _⟩, _, _, hw⟩ |
      ⟨⟨_, _⟩, ⟨_, _, _⟩, _, _, hw⟩ <;>
    · rw [hw] at h0
      simp at h0; exact h0
  subst hf0
  have hf1 : f2 = e2 := by
    rcases hc with ⟨_, hw⟩ | ⟨_, _, hw⟩ | ⟨⟨_, _⟩, _, hw⟩ | ⟨⟨_, _⟩, _, _, hw⟩ |
      ⟨⟨_, _⟩, ⟨_, _⟩, _, hw⟩ | ⟨⟨_, _⟩, ⟨_, _, _⟩, _, hw⟩ | ⟨⟨_, _⟩, ⟨_, _, _⟩, _, _, hw⟩ |
      ⟨⟨_, _⟩, ⟨_, _, _⟩, _, _, hw⟩ <;>
    · rw [hw] at h1
      simp at h1 <;> exact h1
  subst hf1
  refine ⟨e3, ?_, a1, a2, a3, ?_, ?_, ?_⟩ <;>
    rcases hc with ⟨_, hw⟩ | ⟨_, _, hw⟩ | ⟨⟨_, _⟩, _, hw⟩ | ⟨⟨_, _⟩, _, _, hw⟩ |
      ⟨⟨_, _⟩, ⟨_, _⟩, _, hw⟩ | ⟨⟨_, _⟩, ⟨_, _, _⟩, _, hw⟩ | ⟨⟨_, _⟩, ⟨_, _, _⟩, _, _, hw⟩ |
      ⟨⟨_, _⟩, ⟨_, _, _⟩, _, _, hw⟩ <;>
    rw [hw] <;> simp_all <;> omega

/-- The first step of the Long-mode walk: the PML4E read and its check. -/
theorem long_at_pml4e {σ : Type} (va root : Nat) (rd : PREAD_FUNC σ) (s : σ) :
    ∃ e1, (va2pa_64 va root rd s).reads[0]? = some e1 ∧
      e1.size = 8 ∧ e1.physical_addr = pml4e_addr root va ∧ e1.data < 2 ^ 64 ∧
      (e1.count < 8 →
        (va2pa_64 va root rd s).status = ST_RAM_READ_ERROR_32 ∧
        (va2pa_64 va root rd s).reads = [e1] ∧
        (va2pa_64 va root rd s).phys_addr = none) ∧
      (8 ≤ e1.count → PML4EIntegrityCheck e1.data ≠ ST_SUCCESS_32 →
        (va2pa_64 va root rd s).status = PML4EIntegrityCheck e1.data ∧
        (va2pa_64 va root rd s).reads = [e1] ∧
        (va2pa_64 va root rd s).phys_addr = none) := by
  obtain ⟨e1, e2, e3, e4, s1, s2, s3, s4, ⟨a1, a2, a3⟩, -, -, -, hc⟩ := va2pa_64_cases va root rd s
  refine ⟨e1, ?_, a1, a2, a3, ?_, ?_⟩ <;>
    rcases hc with ⟨_, hw⟩ | ⟨_, _, hw⟩ | ⟨⟨_, _⟩, _, hw⟩ | ⟨⟨_, _⟩, _, _, hw⟩ |
      ⟨⟨_, _⟩, ⟨_, _⟩, _, hw⟩ | ⟨⟨_, _⟩, ⟨_, _, _⟩, _, hw⟩ | ⟨⟨_, _⟩, ⟨_, _, _⟩, _, _, hw⟩ |
      ⟨⟨_, _⟩, ⟨_, _, _⟩, ⟨_, _⟩, _, hw⟩ | ⟨⟨_, _⟩, ⟨_, _, _⟩, ⟨_, _, _⟩, _, hw⟩ |
      ⟨⟨_, _⟩, ⟨_, _, _⟩, ⟨_, _, _⟩, _, _, hw⟩ | ⟨⟨_, _⟩, ⟨_, _, _⟩, ⟨_, _, _⟩, _, _, hw⟩ <;>
    rw [hw] <;> simp_all

/-- The second step of the Long-mode walk, after a PML4E that passed its check. -/
theorem long_at_pdpte {σ : Type} (va root : Nat) (rd : PREAD_FUNC σ) (s : σ) (e1 : ReadEvent)
    (h0 : (va2pa_64 va root rd s).reads[0]? = some e1)
    (hc1 : 8 ≤ e1.count) (hk1 : PML4EIntegrityCheck e1.data = ST_SUCCESS_32) :
    ∃ e2, (va2pa_64 va root rd s).reads[1]? = some e2 ∧
      e2.size = 8 ∧ e2.physical_addr = pdpte_addr_64 e1.data va ∧ e2.data < 2 ^ 64 ∧
      (e2.count < 8 →
        (va2pa_64 va root rd s).status = ST_RAM_READ_ERROR_32 ∧
        (va2pa_64 va root rd s).reads = [e1, e2] ∧
        (va2pa_64 va root rd s).phys_addr = none) ∧
      (8 ≤ e2.count → PDPTEIntegrityCheck_64 e2.data ≠ ST_SUCCESS_32 →
        (va2pa_64 va root rd s).status = PDPTEIntegrityCheck_64 e2.data ∧
        (va2pa_64 va root rd s).reads = [e1, e2] ∧
        (va2pa_64 va root rd s).phys_addr = none) ∧
      (8 ≤ e2.count → PDPTEIntegrityCheck_64 e2.data = ST_SUCCESS_32 → e2.data &&& 128 ≠ 0 →
        (va2pa_64 va root rd s).status = ST_SUCCESS_32 ∧
        (va2pa_64 va root rd s).reads = [e1, e2] ∧
        (va2pa_64 va root rd s).phys_addr = some (phys_addr_1gb_64 e2.data va)) := by
  obtain ⟨f1, e2, e3, e4, s1, s2, s3, s4, -, ⟨a1, a2, a3⟩, -, -, hc⟩ := va2pa_64_cases va root rd s
  have hf0 : f1 = e1 := by
    rcases hc with ⟨_, hw⟩ | ⟨_, _, hw⟩ | ⟨⟨_, _⟩, _, hw⟩ | ⟨⟨_, _⟩, _, _, hw⟩ |
      ⟨⟨_, _⟩, ⟨_, _⟩, _, hw⟩ | ⟨⟨_, _⟩, ⟨_, _, _⟩, _, hw⟩ | ⟨⟨_, _⟩, ⟨_, _, _⟩, _, _, hw⟩ |
      ⟨⟨_, _⟩, ⟨_, _, _⟩, ⟨_, _⟩, _, hw⟩ | ⟨⟨_, _⟩, ⟨_, _, _⟩, ⟨_, _, _⟩, _, hw⟩ |
      ⟨⟨_, _⟩, ⟨_, _, _⟩, ⟨_, _, _⟩, _, _, hw⟩ | ⟨⟨_, _⟩, ⟨_, _, _⟩, ⟨_, _, _⟩, _, _, hw⟩ <;>
    · rw [hw] at h0
      simp at h0; exact h0
  subst hf0
  refine ⟨e2, ?_, a1, a2, a3, ?_, ?_, ?_⟩ <;>
    rcases hc with ⟨_, hw⟩ | ⟨_, _, hw⟩ | ⟨⟨_, _⟩, _, hw⟩ | ⟨⟨_, _⟩, _, _, hw⟩ |
      ⟨⟨_, _⟩, ⟨_, _⟩, _, hw⟩ | ⟨⟨_, _⟩, ⟨_, _, _⟩, _, hw⟩ | ⟨⟨_, _⟩, ⟨_, _, _⟩, _, _, hw⟩ |
      ⟨⟨_, _⟩, ⟨_, _, _⟩, ⟨_, _⟩, _, hw⟩ | ⟨⟨_, _⟩, ⟨_, _, _⟩, ⟨_, _, _⟩, _, hw⟩ |
      ⟨⟨_, _⟩, ⟨_, _, _⟩, ⟨_, _, _⟩, _, _, hw⟩ | ⟨⟨_, _⟩, ⟨_, _, _⟩, ⟨_, _, _⟩, _, _, hw⟩ <;>
    rw [hw] <;> simp_all <;> omega

/-- The third step of the Long-mode walk, after a PDPTE that passed its check with PS clear; this read fails only on a byte count of zero. -/
theorem long_at_pde {σ : Type} (va root : Nat) (rd : PREAD_FUNC σ) (s : σ) (e1 e2 : ReadEvent)
    (h0 : (va2pa_64 va root rd s).reads[0]? = some e1)
    (h1 : (va2pa_64 va root rd s).reads[1]? = some e2)
    (hc1 : 8 ≤ e1.count) (hk1 : PML4EIntegrityCheck e1.data = ST_SUCCESS_32)
    (hc2 : 8 ≤ e2.count) (hk2 : PDPTEIntegrityCheck_64 e2.data = ST_SUCCESS_32)
    (hps2 : e2.data &&& 128 = 0) :
    ∃ e3, (va2pa_64 va root rd s).reads[2]? = some e3 ∧
      e3.size = 8 ∧ e3.physical_addr = pde_addr_64 e2.data va ∧ e3.data < 2 ^ 64 ∧
      (e3.count ≤ 0 →
        (va2pa_64 va root rd s).status = ST_RAM_READ_ERROR_32 ∧
        (va2pa_64 va root rd s).reads = [e1, e2, e3] ∧
        (va2pa_64 va root rd s).phys_addr = none) ∧
      (0 < e3.count → PDEIntegrityCheckPAE_64 e3.data ≠ ST_SUCCESS_32 →
        (va2pa_64 va root rd s).status = PDEIntegrityCheckPAE_64 e3.data ∧
        (va2pa_64 va root rd s).reads = [e1, e2, e3] ∧
        (va2pa_64 va root rd s).phys_addr = none) ∧
      (0 < e3.count → PDEIntegrityCheckPAE_64 e3.data = ST_SUCCESS_32 → e3.data &&& 128 ≠ 0 →
        (va2pa_64 va root rd s).status = ST_SUCCESS_32 ∧
        (va2pa_64 va root rd s).reads = [e1, e2, e3] ∧
        (va2pa_64 va root rd s).phys_addr = some (phys_addr_2mb_64 e3.data va)) := by
  obtain ⟨f1, f2, e3, e4, s1, s2, s3, s4, -, -, ⟨a1, a2, a3⟩, -, hc⟩ := va2pa_64_cases va root rd s
  have hf0 : f1 = e1 := by
    rcases hc with ⟨_, hw⟩ | ⟨_, _, hw⟩ | ⟨⟨_, _⟩, _, hw⟩ | ⟨⟨_, _⟩, _, _, hw⟩ |
      ⟨⟨_, _⟩, ⟨_, _⟩, _, hw⟩ | ⟨⟨_, _⟩, ⟨_, _, _⟩, _, hw⟩ | ⟨⟨_, _⟩, ⟨_, _, _⟩, _, _, hw⟩ |
      ⟨⟨_, _⟩, ⟨_, _, _⟩, ⟨_, _⟩, _, hw⟩ | ⟨⟨_, _⟩, ⟨_, _, _⟩, ⟨_, _, _⟩, _, hw⟩ |
      ⟨⟨_, _⟩, ⟨_, _, _⟩, ⟨_, _, _⟩, _, _, hw⟩ | ⟨⟨_, _⟩, ⟨_, _, _⟩, ⟨_, _, _⟩, _, _, hw⟩ <;>
    · rw [hw] at h0
      simp at h0; exact h0
  subst hf0
  have hf1 : f2 = e2 := by
    rcases hc with ⟨_, hw⟩ | ⟨_, _, hw⟩ | ⟨⟨_, _⟩, _, hw⟩ | ⟨⟨_, _⟩, _, _, hw⟩ |
      ⟨⟨_, _⟩, ⟨_, _⟩, _, hw⟩ | ⟨⟨_, _⟩, ⟨_, _, _⟩, _, hw⟩ | ⟨⟨_, _⟩, ⟨_, _, _⟩, _, _, hw⟩ |
      ⟨⟨_, _⟩, ⟨_, _, _⟩, ⟨_, _⟩, _, hw⟩ | ⟨⟨_, _⟩, ⟨_, _, _⟩, ⟨_, _, _⟩, _, hw⟩ |
      ⟨⟨_, _⟩, ⟨_, _, _⟩, ⟨_, _, _⟩, _, _, hw⟩ | ⟨⟨_, _⟩, ⟨_, _, _⟩, ⟨_, _, _⟩, _, _, hw⟩ <;>
    · rw [hw] at h1
      simp at h1 <;> exact h1
  subst hf1
  refine ⟨e3, ?_, a1, a2, a3, ?_, ?_, ?_⟩ <;>
    rcases hc with ⟨_, hw⟩ | ⟨_, _, hw⟩ | ⟨⟨_, _⟩, _, hw⟩ | ⟨⟨_, _⟩, _, _, hw⟩ |
      ⟨⟨_, _⟩, ⟨_, _⟩, _, hw⟩ | ⟨⟨_, _⟩, ⟨_, _, _⟩, _, hw⟩ | ⟨⟨_, _⟩, ⟨_, _, _⟩, _, _, hw⟩ |
      ⟨⟨_, _⟩, ⟨_, _, _⟩, ⟨_, _⟩, _, hw⟩ | ⟨⟨_, _⟩, ⟨_, _, _⟩, ⟨_, _, _⟩, _, hw⟩ |
      ⟨⟨_, _⟩, ⟨_, _, _⟩, ⟨_, _, _⟩, _, _, hw⟩ | ⟨⟨_, _⟩, ⟨_, _, _⟩, ⟨_, _, _⟩, _, _, hw⟩ <;>
    rw [hw] <;> simp_all <;> omega

/-- The fourth step of the Long-mode walk, after a PDE that passed its check with PS clear. -/
theorem long_at_pte {σ : Type} (va root : Nat) (rd : PREAD_FUNC σ) (s : σ) (e1 e2 e3 : ReadEvent)
    (h0 : (va2pa_64 va root rd s).reads[0]? = some e1)
    (h1 : (va2pa_64 va root rd s).reads[1]? = some e2)
    (h2 : (va2pa_64 va root rd s).reads[2]? = some e3)
    (hc1 : 8 ≤ e1.count) (hk1 : PML4EIntegrityCheck e1.data = ST_SUCCESS_32)
    (hc2 : 8 ≤ e2.count) (hk2 : PDPTEIntegrityCheck_64 e2.data = ST_SUCCESS_32)
    (hps2 : e2.data &&& 128 = 0)
    (hc3 : 0 < e3.count) (hk3 : PDEIntegrityCheckPAE_64 e3.data = ST_SUCCESS_32)
    (hps3 : e3.data &&& 128 = 0) :
    ∃ e4, (va2pa_64 va root rd s).reads[3]? = some e4 ∧
      e4.size = 8 ∧ e4.physical_addr = pte_addr_64 e3.data va ∧ e4.data < 2 ^ 64 ∧
      (e4.count < 8 →
        (va2pa_64 va root rd s).status = ST_RAM_READ_ERROR_32 ∧
        (va2pa_64 va root rd s).reads = [e1, e2, e3, e4] ∧
        (va2pa_64 va root rd s).phys_addr = none) ∧
      (8 ≤ e4.count → PTEIntegrityCheckPAE_64 e4.data ≠ ST_SUCCESS_32 →
        (va2pa_64 va root rd s).status = PTEIntegrityCheckPAE_64 e4.data ∧
        (va2pa_64 va root rd s).reads = [e1, e2, e3, e4] ∧
        (va2pa_64 va root rd s).phys_addr = none) ∧
      (8 ≤ e4.count → PTEIntegrityCheckPAE_64 e4.data = ST_SUCCESS_32 →
        (va2pa_64 va root rd s).status = ST_SUCCESS_32 ∧
        (va2pa_64 va root rd s).reads = [e1, e2, e3, e4] ∧
        (va2pa_64 va root rd s).phys_addr = some (phys_addr_4kb_64 e4.data va)) := by
  obtain ⟨f1, f2, f3, e4, s1, s2, s3, s4, -, -, -, ⟨a1, a2, a3⟩, hc⟩ := va2pa_64_cases va root rd s
  have hf0 : f1 = e1 := by
    rcases hc with ⟨_, hw⟩ | ⟨_, _, hw⟩ | ⟨⟨_, _⟩, _, hw⟩ | ⟨⟨_, _⟩, _, _, hw⟩ |
      ⟨⟨_, _⟩, ⟨_, _⟩, _, hw⟩ | ⟨⟨_, _⟩, ⟨_, _, _⟩, _, hw⟩ | ⟨⟨_, _⟩, ⟨_, _, _⟩, _, _, hw⟩ |
      ⟨⟨_, _⟩, ⟨_, _, _⟩, ⟨_, _⟩, _, hw⟩ | ⟨⟨_, _⟩, ⟨_, _, _⟩, ⟨_, _, _⟩, _, hw⟩ |
      ⟨⟨_, _⟩, ⟨_, _, _⟩, ⟨_, _, _⟩, _, _, hw⟩ | ⟨⟨_, _⟩, ⟨_, _, _⟩, ⟨_, _, _⟩, _, _, hw⟩ <;>
    · rw [hw] at h0
      simp at h0; exact h0
  subst hf0
  have hf1 : f2 = e2 := by
    rcases hc with ⟨_, hw⟩ | ⟨_, _, hw⟩ | ⟨⟨_, _⟩, _, hw⟩ | ⟨⟨_, _⟩, _, _, hw⟩ |
      ⟨⟨_, _⟩, ⟨_, _⟩, _, hw⟩ | ⟨⟨_, _⟩, ⟨_, _, _⟩, _, hw⟩ | ⟨⟨_, _⟩, ⟨_, _, _⟩, _, _, hw⟩ |
      ⟨⟨_, _⟩, ⟨_, _, _⟩, ⟨_, _⟩, _, hw⟩ | ⟨⟨_, _⟩, ⟨_, _, _⟩, ⟨_, _, _⟩, _, hw⟩ |
      ⟨⟨_, _⟩, ⟨_, _, _⟩, ⟨_, _, _⟩, _, _, hw⟩ | ⟨⟨_, _⟩, ⟨_, _, _⟩, ⟨_, _, _⟩, _, _, hw⟩ <;>
    · rw [hw] at h1
      simp at h1 <;> exact h1
  subst hf1
  have hf2 : f3 = e3 := by
    rcases hc with ⟨_, hw⟩ | ⟨_, _, hw⟩ | ⟨⟨_, _⟩, _, hw⟩ | ⟨⟨_, _⟩, _, _, hw⟩ |
      ⟨⟨_, _⟩, ⟨_, _⟩, _, hw⟩ | ⟨⟨_, _⟩, ⟨_, _, _⟩, _, hw⟩ | ⟨⟨_, _⟩, ⟨_, _, _⟩, _, _, hw⟩ |
      ⟨⟨_, _⟩, ⟨_, _, _⟩, ⟨_, _⟩, _, hw⟩ | ⟨⟨_, _⟩, ⟨_, _, _⟩, ⟨_, _, _⟩, _, hw⟩ |
      ⟨⟨_, _⟩, ⟨_, _, _⟩, ⟨_, _, _⟩, _, _, hw⟩ | ⟨⟨_, _⟩, ⟨_, _, _⟩, ⟨_, _, _⟩, _, _, hw⟩ <;>
    · rw [hw] at h2
      simp at h2 <;> exact h2
  subst hf2
  refine ⟨e4, ?_, a1, a2, a3, ?_, ?_, ?_⟩ <;>
    rcases hc with ⟨_, hw⟩ | ⟨_, _, hw⟩ | ⟨⟨_, _⟩, _, hw⟩ | ⟨⟨_, _⟩, _, _, hw⟩ |
      ⟨⟨_, _⟩, ⟨_, _⟩, _, hw⟩ | ⟨⟨_, _⟩, ⟨_, _, _⟩, _, hw⟩ | ⟨⟨_, _⟩, ⟨_, _, _⟩, _, _, hw⟩ |
      ⟨⟨_, _⟩, ⟨_, _, _⟩, ⟨_, _⟩, _, hw⟩ | ⟨⟨_, _⟩, ⟨_, _, _⟩, ⟨_, _, _⟩, _, hw⟩ |
      ⟨⟨_, _⟩, ⟨_, _, _⟩, ⟨_, _, _⟩, _, _, hw⟩ | ⟨⟨_, _⟩, ⟨_, _, _⟩, ⟨_, _, _⟩, _, _, hw⟩ <;>
    rw [hw] <;> simp_all

/-- What a successful Legacy walk went through. -/
theorem level2_success {σ : Type} (va root : Nat) (rd : PREAD_FUNC σ) (s : σ)
    (h : (va2pa_level2 va root rd s).status = ST_SUCCESS_32) :
    ∃ e1 e2, (va2pa_level2 va root rd s).reads = [e1, e2] ∧
      (4 ≤ e1.count ∧ PDEIntegrityCheck e1.data = ST_SUCCESS_32 ∧ e1.data &&& 128 = 0) ∧
      (4 ≤ e2.count ∧ PTEIntegrityCheck e2.data = ST_SUCCESS_32) ∧
      (va2pa_level2 va root rd s).phys_addr = some (phys_addr_4kb e2.data va) := by
  obtain ⟨e1, e2, s1, s2, -, -, hc⟩ := va2pa_level2_cases va root rd s
  refine ⟨e1, e2, ?_⟩
  rcases hc with ⟨_, hw⟩ | ⟨_, _, hw⟩ | ⟨_, _, _, hw⟩ | ⟨_, _, _, _, hw⟩ |
      ⟨_, _, _, _, _, hw⟩ | ⟨_, _, _, _, _, hw⟩ <;>
    rw [hw] at h ⊢ <;> simp_all [PDEIntegrityCheck_success]

/-- What a successful PAE walk went through. -/
theorem level3_success {σ : Type} (va root : Nat) (rd : PREAD_FUNC σ) (s : σ)
    (h : (va2pa_level3 va root rd s).status = ST_SUCCESS_32) :
    ∃ e1 e2, (va2pa_level3 va root rd s).reads[0]? = some e1 ∧
      (va2pa_level3 va root rd s).reads[1]? = some e2 ∧
      (8 ≤ e1.count ∧ PDPTEIntegrityCheck e1.data = ST_SUCCESS_32) ∧
      (8 ≤ e2.count ∧ PDEIntegrityCheckPAE e2.data = ST_SUCCESS_32) ∧
      ((e2.data &&& 128 ≠ 0 ∧ (va2pa_level3 va root rd s).reads = [e1, e2] ∧
          (va2pa_level3 va root rd s).phys_addr = some (phys_addr_2mb_pae e2.data va)) ∨
        (e2.data &&& 128 = 0 ∧ ∃ e3, (va2pa_level3 va root rd s).reads = [e1, e2, e3] ∧
          (8 ≤ e3.count ∧ PTEIntegrityCheckPAE e3.data = ST_SUCCESS_32) ∧
          (va2pa_level3 va root rd s).phys_addr = some (phys_addr_4kb_pae e3.data va))) := by
  obtain ⟨e1, e2, e3, s1, s2, s3, -, -, -, hc⟩ := va2pa_level3_cases va root rd s
  refine ⟨e1, e2, ?_⟩
  rcases hc with ⟨_, hw⟩ | ⟨_, _, hw⟩ | ⟨⟨_, _⟩, _, hw⟩ | ⟨⟨_, _⟩, _, _, hw⟩ |
      ⟨⟨_, _⟩, ⟨_, _⟩, _, hw⟩ | ⟨⟨_, _⟩, ⟨_, _, _⟩, _, hw⟩ | ⟨⟨_, _⟩, ⟨_, _, _⟩, _, _, hw⟩ |
      ⟨⟨_, _⟩, ⟨_, _, _⟩, _, _, hw⟩ <;>
    rw [hw] at h ⊢ <;> simp_all

/-- What a successful Long-mode walk went through. -/
theorem long_success {σ : Type} (va root : Nat) (rd : PREAD_FUNC_64 σ) (s : σ)
    (h : (va2pa_64 va root rd s).status = ST_SUCCESS_32) :
    ∃ e1 e2, (va2pa_64 va root rd s).reads[0]? = some e1 ∧
      (va2pa_64 va root rd s).reads[1]? = some e2 ∧
      (8 ≤ e1.count ∧ PML4EIntegrityCheck e1.data = ST_SUCCESS_32) ∧
      (8 ≤ e2.count ∧ PDPTEIntegrityCheck_64 e2.data = ST_SUCCESS_32) ∧
      ((e2.data &&& 128 ≠ 0 ∧ (va2pa_64 va root rd s).reads = [e1, e2] ∧
          (va2pa_64 va root rd s).phys_addr = some (phys_addr_1gb_64 e2.data va)) ∨
        (e2.data &&& 128 = 0 ∧ ∃ e3, (va2pa_64 va root rd s).reads[2]? = some e3 ∧
          (0 < e3.count ∧ PDEIntegrityCheckPAE_64 e3.data = ST_SUCCESS_32) ∧
          ((e3.data &&& 128 ≠ 0 ∧ (va2pa_64 va root rd s).reads = [e1, e2, e3] ∧
              (va2pa_64 va root rd s).phys_addr = some (phys_addr_2mb_64 e3.data va)) ∨
            (e3.data &&& 128 = 0 ∧ ∃ e4, (va2pa_64 va root rd s).reads = [e1, e2, e3, e4] ∧
              (8 ≤ e4.count ∧ PTEIntegrityCheckPAE_64 e4.data = ST_SUCCESS_32) ∧
              (va2pa_64 va root rd s).phys_addr = some (phys_addr_4kb_64 e4.data va))))) := by
  obtain ⟨e1, e2, e3, e4, s1, s2, s3, s4, -, -, -, -, hc⟩ := va2pa_64_cases va root rd s
  refine ⟨e1, e2, ?_⟩
  rcases hc with ⟨_, hw⟩ | ⟨_, _, hw⟩ | ⟨⟨_, _⟩, _, hw⟩ | ⟨⟨_, _⟩, _, _, hw⟩ |
      ⟨⟨_, _⟩, ⟨_, _⟩, _, hw⟩ | ⟨⟨_, _⟩, ⟨_, _, _⟩, _, hw⟩ | ⟨⟨_, _⟩, ⟨_, _, _⟩, _, _, hw⟩ |
      ⟨⟨_, _⟩, ⟨_, _, _⟩, ⟨_, _⟩, _, hw⟩ | ⟨⟨_, _⟩, ⟨_, _, _⟩, ⟨_, _, _⟩, _, hw⟩ |
      ⟨⟨_, _⟩, ⟨_, _, _⟩, ⟨_, _, _⟩, _, _, hw⟩ | ⟨⟨_, _⟩, ⟨_, _, _⟩, ⟨_, _, _⟩, _, _, hw⟩ <;>
    rw [hw] at h ⊢ <;> simp_all

/-! ## C1: the Legacy 4 KiB walk at scenario 1 -/

/-- C1, evaluated at scenario 1 of the specification (`cr3 = 0x1000`,
`0x00002007` at `0x1000`, `0x00003007` at `0x2000`, `va = 0x00000ABC`): the
entries the claim names are there and are valid, and the result it promises is
`0x00003ABC`; the code asks for its PDE at address `1`, which is
`cr3 >> 12`, finds the word `0` and returns `ST_PDE_NOT_PRESENT_32` without
writing the output. -/
theorem legacy_scenario1_returns_pde_not_present :
    (memScenario1 ((0x1000 &&& 0xFFFFF000) + 4 * (0xABC >>> 22)) = 0x2007 ∧
      memScenario1 ((0x2007 &&& 0xFFFFF000) + 4 * ((0xABC >>> 12) &&& 0x3FF)) = 0x3007 ∧
      (0x3007 &&& 0xFFFFF000) ||| (0xABC &&& 0xFFF) = 0x3ABC) ∧
    (va2pa 0xABC 2 0x1000 (memReader memScenario1) ()).status = ST_PDE_NOT_PRESENT_32 ∧
    (va2pa 0xABC 2 0x1000 (memReader memScenario1) ()).phys_addr = none ∧
    (va2pa 0xABC 2 0x1000 (memReader memScenario1) ()).reads = [⟨4, 1, 4, 0⟩] := by
  decide

/-! ## C2: the small-page result formula -/

/-- The Legacy 4 KiB result is the frame bits of the PTE or-ed with the page offset. -/
theorem phys_addr_4kb_eq (pte va : Nat) :
    phys_addr_4kb pte va = (pte &&& 0xFFFFF000) ||| (va &&& 0xFFF) :=
  mask_add_offset pte va 0xFFFFF000 0xFFF 12 32 (by decide) (by decide) (by decide) (by decide)

/-- The PAE 4 KiB result, for a PTE whose bits above bit 51 are clear. -/
theorem phys_addr_4kb_pae_eq (pte va : Nat) (h : pte &&& 0xFFF0000000000000 = 0) :
    phys_addr_4kb_pae pte va = (pte &&& 0x000FFFFFFFFFF000) ||| (va &&& 0xFFF) := by
  rw [← and_high_clear pte h]
  exact mask_add_offset pte va 0xFFFFFFFFFFFFF000 0xFFF 12 64
    (by decide) (by decide) (by decide) (by decide)

/-- The Long-mode 4 KiB result, for a PTE whose bits above bit 51 are clear. -/
theorem phys_addr_4kb_64_eq (pte va : Nat) (h : pte &&& 0xFFF0000000000000 = 0) :
    phys_addr_4kb_64 pte va = (pte &&& 0x000FFFFFFFFFF000) ||| (va &&& 0xFFF) :=
  phys_addr_4kb_pae_eq pte va h

/-- C2: in each mode, a walk that returns success after reading a PTE (Legacy:
every successful level 2 walk; PAE: the PDE of the second read has PS clear;
Long: the PDPTE and the PDE have PS clear) has read 2, 3 or 4 entries, and the
physical address written is `(pte & M) | (va & 0xFFF)` for the word `pte` of
the last read, with `M = 0xFFFFF000` in Legacy and `0x000FFFFFFFFFF000` in PAE
and Long mode; its low 12 bits are `va & 0xFFF`. -/
theorem small_page_result_formula {σ : Type} (rd : PREAD_FUNC σ) (s : σ) (va root : Nat) :
    ((va2pa va 2 root rd s).status = ST_SUCCESS_32 →
      ∃ pde pte, (va2pa va 2 root rd s).reads = [pde, pte] ∧
        (va2pa va 2 root rd s).phys_addr
          = some ((pte.data &&& 0xFFFFF000) ||| (va &&& 0xFFF)) ∧
        ((pte.data &&& 0xFFFFF000) ||| (va &&& 0xFFF)) &&& 0xFFF = va &&& 0xFFF) ∧
    (∀ pde, (va2pa va 3 root rd s).status = ST_SUCCESS_32 →
      (va2pa va 3 root rd s).reads[1]? = some pde → pde.data &&& 0x80 = 0 →
      ∃ pdpte pte, (va2pa va 3 root rd s).reads = [pdpte, pde, pte] ∧
        (va2pa va 3 root rd s).phys_addr
          = some ((pte.data &&& 0x000FFFFFFFFFF000) ||| (va &&& 0xFFF)) ∧
        ((pte.data &&& 0x000FFFFFFFFFF000) ||| (va &&& 0xFFF)) &&& 0xFFF = va &&& 0xFFF) ∧
    (∀ pdpte pde, (va2pa_64 va root rd s).status = ST_SUCCESS_32 →
      (va2pa_64 va root rd s).reads[1]? = some pdpte → pdpte.data &&& 0x80 = 0 →
      (va2pa_64 va root rd s).reads[2]? = some pde → pde.data &&& 0x80 = 0 →
      ∃ pml4e pte, (va2pa_64 va root rd s).reads = [pml4e, pdpte, pde, pte] ∧
        (va2pa_64 va root rd s).phys_addr
          = some ((pte.data &&& 0x000FFFFFFFFFF000) ||| (va &&& 0xFFF)) ∧
        ((pte.data &&& 0x000FFFFFFFFFF000) ||| (va &&& 0xFFF)) &&& 0xFFF = va &&& 0xFFF) := by
  refine ⟨?_, ?_, ?_⟩
  · intro h
    rw [va2pa_two] at h ⊢
    obtain ⟨e1, e2, s1, s2, -, -, hc⟩ := va2pa_level2_cases va root rd s
    rcases hc with ⟨_, hw⟩ | ⟨_, hb, hw⟩ | ⟨_, hk, hps, hw⟩ | ⟨_, _, _, _, hw⟩ |
      ⟨_, _, _, _, hb, hw⟩ | ⟨_, _, _, _, _, hw⟩ <;> rw [hw] at h ⊢
    · cases h
    · exact absurd h hb
    · rw [PDEIntegrityCheck_success] at hk
      exact absurd hk.2.2 hps
    · cases h
    · exact absurd h hb
    · exact ⟨e1, e2, rfl, congrArg some (phys_addr_4kb_eq _ _),
        low_bits_of_or _ _ _ _ (by decide)⟩
  · intro pde h hpde hps
    rw [va2pa_three] at h hpde ⊢
    obtain ⟨e1, e2, e3, s1, s2, s3, -, -, -, hc⟩ := va2pa_level3_cases va root rd s
    rcases hc with ⟨_, hw⟩ | ⟨_, hb, hw⟩ | ⟨_, _, hw⟩ | ⟨_, _, hb, hw⟩ | ⟨_, _, hl, hw⟩ |
      ⟨_, _, _, hw⟩ | ⟨_, _, _, hb, hw⟩ | ⟨_, _, _, hk, hw⟩ <;> rw [hw] at h hpde ⊢
    · cases h
    · exact absurd h hb
    · cases h
    · exact absurd h hb
    · simp only [List.getElem?_cons_succ, List.getElem?_cons_zero, Option.some.injEq] at hpde
      subst hpde
      exact absurd hps hl
    · cases h
    · exact absurd h hb
    · simp only [List.getElem?_cons_succ, List.getElem?_cons_zero, Option.some.injEq] at hpde
      subst hpde
      rw [PTEIntegrityCheckPAE_success] at hk
      exact ⟨e1, e3, rfl, congrArg some (phys_addr_4kb_pae_eq _ _ hk.2.2.2),
        low_bits_of_or _ _ _ _ (by decide)⟩
  · intro pdpte pde h hpdpte hps2 hpde hps3
    obtain ⟨e1, e2, e3, e4, s1, s2, s3, s4, -, -, -, -, hc⟩ := va2pa_64_cases va root rd s
    rcases hc with ⟨_, hw⟩ | ⟨_, hb, hw⟩ | ⟨_, _, hw⟩ | ⟨_, _, hb, hw⟩ | ⟨_, _, hl, hw⟩ |
      ⟨_, _, _, hw⟩ | ⟨_, _, _, hb, hw⟩ | ⟨_, _, _, hl, hw⟩ | ⟨_, _, _, _, hw⟩ |
      ⟨_, _, _, _, hb, hw⟩ | ⟨_, _, _, _, hk, hw⟩ <;> rw [hw] at h hpdpte hpde ⊢
    · cases h
    · exact absurd h hb
    · cases h
    · exact absurd h hb
    · simp only [List.getElem?_cons_succ, List.getElem?_cons_zero, Option.some.injEq]
        at hpdpte
      subst hpdpte
      exact absurd hps2 hl
    · cases h
    · exact absurd h hb
    · simp only [List.getElem?_cons_succ, List.getElem?_cons_zero, Option.some.injEq] at hpde
      subst hpde
      exact absurd hps3 hl
    · cases h
    · exact absurd h hb
    · simp only [List.getElem?_cons_succ, List.getElem?_cons_zero, Option.some.injEq]
        at hpdpte hpde
      subst hpdpte hpde
      rw [PTEIntegrityCheckPAE_64_success] at hk
      exact ⟨e1, e4, rfl, congrArg some (phys_addr_4kb_64_eq _ _ hk.2.2.2),
        low_bits_of_or _ _ _ _ (by decide)⟩


/-- C2 at three concrete walks, one per mode. -/
theorem small_page_result_formula_witness :
    ((va2pa 0xABC 2 0x1000 (scriptReader [0x2007, 0x3007]) 0).status = ST_SUCCESS_32 ∧
      ∃ pde pte, (va2pa 0xABC 2 0x1000 (scriptReader [0x2007, 0x3007]) 0).reads = [pde, pte] ∧
        (va2pa 0xABC 2 0x1000 (scriptReader [0x2007, 0x3007]) 0).phys_addr
          = some ((pte.data &&& 0xFFFFF000) ||| (0xABC &&& 0xFFF)) ∧
        ((pte.data &&& 0xFFFFF000) ||| (0xABC &&& 0xFFF)) &&& 0xFFF = 0xABC &&& 0xFFF) ∧
    ((va2pa 0xABC 3 0x1000 (scriptReader [0x1001, 0x2007, 0x3087]) 0).status = ST_SUCCESS_32 ∧
      ∃ pdpte pte, (va2pa 0xABC 3 0x1000 (scriptReader [0x1001, 0x2007, 0x3087]) 0).reads
          = [pdpte, ⟨8, 1, 8, 0x2007⟩, pte] ∧
        (va2pa 0xABC 3 0x1000 (scriptReader [0x1001, 0x2007, 0x3087]) 0).phys_addr
          = some ((pte.data &&& 0x000FFFFFFFFFF000) ||| (0xABC &&& 0xFFF)) ∧
        ((pte.data &&& 0x000FFFFFFFFFF000) ||| (0xABC &&& 0xFFF)) &&& 0xFFF
          = 0xABC &&& 0xFFF) ∧
    ((va2pa_64 0xABC 0x1000 (scriptReader [0x1007, 0x2007, 0x3007, 0x4087]) 0).status
        = ST_SUCCESS_32 ∧
      ∃ pml4e pte,
        (va2pa_64 0xABC 0x1000 (scriptReader [0x1007, 0x2007, 0x3007, 0x4087]) 0).reads
          = [pml4e, ⟨8, 1, 8, 0x2007⟩, ⟨8, 2, 8, 0x3007⟩, pte] ∧
        (va2pa_64 0xABC 0x1000 (scriptReader [0x1007, 0x2007, 0x3007, 0x4087]) 0).phys_addr
          = some ((pte.data &&& 0x000FFFFFFFFFF000) ||| (0xABC &&& 0xFFF)) ∧
        ((pte.data &&& 0x000FFFFFFFFFF000) ||| (0xABC &&& 0xFFF)) &&& 0xFFF
          = 0xABC &&& 0xFFF) :=
  ⟨⟨by decide,
      (small_page_result_formula (scriptReader [0x2007, 0x3007]) 0 0xABC 0x1000).1
        (by decide)⟩,
    ⟨by decide,
      (small_page_result_formula (scriptReader [0x1001, 0x2007, 0x3087]) 0 0xABC 0x1000).2.1
        ⟨8, 1, 8, 0x2007⟩ (by decide) (by decide) (by decide)⟩,
    ⟨by decide,
      (small_page_result_formula (scriptReader [0x1007, 0x2007, 0x3007, 0x4087]) 0 0xABC
        0x1000).2.2 ⟨8, 1, 8, 0x2007⟩ ⟨8, 2, 8, 0x3007⟩ (by decide) (by decide) (by decide)
        (by decide) (by decide)⟩⟩

/-! ## C3: the Legacy 4 MiB page at scenario 2 -/

/-- C3, evaluated at scenario 2 of the specification (`pde = 0x00400087`,
`va = 0x00123456`): the PDE is present, user-accessible, has PS set and no bit
of `0x3FE000`, and the claim promises `0x00523456`; the code returns
`ST_PDE_RESERVED_32` after its one read and writes nothing. -/
theorem legacy_pse_scenario2_returns_pde_reserved :
    ((0x00400087 &&& 1 ≠ 0 ∧ 0x00400087 &&& 4 ≠ 0 ∧ 0x00400087 &&& 0x80 ≠ 0 ∧
        0x00400087 &&& 0x3FE000 = 0) ∧
      (0x00400087 &&& 0xFFC00000) ||| (0x00123456 &&& 0x003FFFFF) = 0x00523456) ∧
    (va2pa 0x00123456 2 0x1000 (memReader (fun _ => 0x00400087)) ()).status
      = ST_PDE_RESERVED_32 ∧
    (va2pa 0x00123456 2 0x1000 (memReader (fun _ => 0x00400087)) ()).phys_addr = none ∧
    (va2pa 0x00123456 2 0x1000 (memReader (fun _ => 0x00400087)) ()).reads
      = [⟨4, 1, 4, 0x00400087⟩] := by
  decide

/-! ## C4: the Long-mode 1 GiB page -/

/-- The 1 GiB result is the frame bits of the PDPTE or-ed with the low 30 bits of the address. -/
theorem phys_addr_1gb_64_eq (pdpte va : Nat) :
    phys_addr_1gb_64 pdpte va = (pdpte &&& 0x000FFFFFC0000000) ||| (va &&& 0x3FFFFFFF) :=
  mask_add_offset pdpte va 0xFFFFFC0000000 0x3FFFFFFF 30 64
    (by decide) (by decide) (by decide) (by decide)

/-- C4: whenever `va2pa_64` returns success and the PDPTE delivered by the
second read has PS set, exactly two reader calls were made and the physical
address written is `(pdpte & 0x000FFFFFC0000000) | (va & 0x3FFFFFFF)`, whose
low 30 bits are those of `va`. -/
theorem long_1gb_page {σ : Type} (rd : PREAD_FUNC_64 σ) (s : σ) (va cr3 : Nat)
    (pdpte : ReadEvent)
    (h : (va2pa_64 va cr3 rd s).status = ST_SUCCESS_32)
    (hpdpte : (va2pa_64 va cr3 rd s).reads[1]? = some pdpte)
    (hps : pdpte.data &&& 0x80 ≠ 0) :
    (va2pa_64 va cr3 rd s).reads.length = 2 ∧
    (va2pa_64 va cr3 rd s).phys_addr
      = some ((pdpte.data &&& 0x000FFFFFC0000000) ||| (va &&& 0x3FFFFFFF)) ∧
    ((pdpte.data &&& 0x000FFFFFC0000000) ||| (va &&& 0x3FFFFFFF)) &&& 0x3FFFFFFF
      = va &&& 0x3FFFFFFF := by
  obtain ⟨e1, e2, e3, e4, s1, s2, s3, s4, -, -, -, -, hc⟩ := va2pa_64_cases va cr3 rd s
  rcases hc with ⟨_, hw⟩ | ⟨_, hb, hw⟩ | ⟨_, _, hw⟩ | ⟨_, _, hb, hw⟩ | ⟨_, _, hl, hw⟩ |
    ⟨_, hl, _, hw⟩ | ⟨_, hl, _, hb, hw⟩ | ⟨_, hl, _, _, hw⟩ | ⟨_, hl, _, _, hw⟩ |
    ⟨_, hl, _, _, hb, hw⟩ | ⟨_, hl, _, _, hk, hw⟩ <;> rw [hw] at h hpdpte ⊢
  · cases h
  · exact absurd h hb
  · cases h
  · exact absurd h hb
  · simp only [List.getElem?_cons_succ, List.getElem?_cons_zero, Option.some.injEq]
      at hpdpte
    subst hpdpte
    exact ⟨rfl, congrArg some (phys_addr_1gb_64_eq _ _), low_bits_of_or _ _ _ _ (by decide)⟩
  · cases h
  · exact absurd h hb
  · simp only [List.getElem?_cons_succ, List.getElem?_cons_zero, Option.some.injEq]
      at hpdpte
    subst hpdpte
    exact absurd hl.2.2 hps
  · cases h
  · exact absurd h hb
  · simp only [List.getElem?_cons_succ, List.getElem?_cons_zero, Option.some.injEq]
      at hpdpte
    subst hpdpte
    exact absurd hl.2.2 hps

/-- C4 at scenario 4 of the specification: the result is `0x0000000412345678`. -/
theorem long_1gb_page_witness :
    (va2pa_64 0x12345678 0 (scriptReader [0x1007, 0x400000087]) 0).reads.length = 2 ∧
    (va2pa_64 0x12345678 0 (scriptReader [0x1007, 0x400000087]) 0).phys_addr
      = some 0x0000000412345678 ∧
    (0x0000000412345678 : Nat) &&& 0x3FFFFFFF = 0x12345678 &&& 0x3FFFFFFF :=
  long_1gb_page (scriptReader [0x1007, 0x400000087]) 0 0x12345678 0 ⟨8, 1, 8, 0x400000087⟩
    (by decide) (by decide) (by decide)

/-! ## C5: the PAE 2 MiB page -/

/-- The PAE 2 MiB result is the frame bits of the PDE or-ed with the low 21 bits of the address. -/
theorem phys_addr_2mb_pae_eq (pde va : Nat) :
    phys_addr_2mb_pae pde va = (pde &&& 0x000FFFFFFFE00000) ||| (va &&& 0x001FFFFF) :=
  mask_add_offset pde va 0xFFFFFFFE00000 0x1FFFFF 21 64
    (by decide) (by decide) (by decide) (by decide)

/-- C5: whenever `va2pa` at level 3 returns success and the PDE delivered by
the second read has PS set, exactly two reader calls were made and the
physical address written is `(pde & 0x000FFFFFFFE00000) | (va & 0x001FFFFF)`,
whose low 21 bits are those of `va`. -/
theorem pae_2mb_page {σ : Type} (rd : PREAD_FUNC σ) (s : σ) (va cr3 : Nat) (pde : ReadEvent)
    (h : (va2pa va 3 cr3 rd s).status = ST_SUCCESS_32)
    (hpde : (va2pa va 3 cr3 rd s).reads[1]? = some pde)
    (hps : pde.data &&& 0x80 ≠ 0) :
    (va2pa va 3 cr3 rd s).reads.length = 2 ∧
    (va2pa va 3 cr3 rd s).phys_addr
      = some ((pde.data &&& 0x000FFFFFFFE00000) ||| (va &&& 0x001FFFFF)) ∧
    ((pde.data &&& 0x000FFFFFFFE00000) ||| (va &&& 0x001FFFFF)) &&& 0x001FFFFF
      = va &&& 0x001FFFFF := by
  rw [va2pa_three] at h hpde ⊢
  obtain ⟨e1, e2, e3, s1, s2, s3, -, -, -, hc⟩ := va2pa_level3_cases va cr3 rd s
  rcases hc with ⟨_, hw⟩ | ⟨_, hb, hw⟩ | ⟨_, _, hw⟩ | ⟨_, _, hb, hw⟩ | ⟨_, _, hl, hw⟩ |
    ⟨_, hl, _, hw⟩ | ⟨_, hl, _, hb, hw⟩ | ⟨_, hl, _, hk, hw⟩ <;> rw [hw] at h hpde ⊢
  · cases h
  · exact absurd h hb
  · cases h
  · exact absurd h hb
  · simp only [List.getElem?_cons_succ, List.getElem?_cons_zero, Option.some.injEq] at hpde
    subst hpde
    exact ⟨rfl, congrArg some (phys_addr_2mb_pae_eq _ _), low_bits_of_or _ _ _ _ (by decide)⟩
  · cases h
  · exact absurd h hb
  · simp only [List.getElem?_cons_succ, List.getElem?_cons_zero, Option.some.injEq] at hpde
    subst hpde
    exact absurd hl.2.2 hps

/-- C5 at a concrete PAE walk through a 2 MiB page. -/
theorem pae_2mb_page_witness :
    (va2pa 0x00123456 3 0 (scriptReader [0x1001, 0x00201087]) 0).reads.length = 2 ∧
    (va2pa 0x00123456 3 0 (scriptReader [0x1001, 0x00201087]) 0).phys_addr
      = some 0x00323456 ∧
    (0x00323456 : Nat) &&& 0x001FFFFF = 0x00123456 &&& 0x001FFFFF :=
  pae_2mb_page (scriptReader [0x1001, 0x00201087]) 0 0x00123456 0 ⟨8, 1, 8, 0x00201087⟩
    (by decide) (by decide) (by decide)

/-! ## C6: the Long-mode 2 MiB page -/

/-- C6, evaluated at `va = 1` with a valid PML4E and PDPTE and the PDE
`0x00200087` (PS set): the walk succeeds after three reads and writes
`0x00200000`, where the claim promises `0x00200001`; bit 0 of `va` is lost. -/
theorem long_2mb_page_drops_bit0 :
    (va2pa_64 0x00000001 0 (scriptReader [0x1007, 0x2007, 0x00200087]) 0).status
      = ST_SUCCESS_32 ∧
    (va2pa_64 0x00000001 0 (scriptReader [0x1007, 0x2007, 0x00200087]) 0).reads
      = [⟨8, 0, 8, 0x1007⟩, ⟨8, 1, 8, 0x2007⟩, ⟨8, 2, 8, 0x00200087⟩] ∧
    (0x00200087 : Nat) &&& 0x80 ≠ 0 ∧
    (va2pa_64 0x00000001 0 (scriptReader [0x1007, 0x2007, 0x00200087]) 0).phys_addr
      = some 0x00200000 ∧
    (0x00200087 &&& 0x000FFFFFFFE00000) ||| (0x00000001 &&& 0x001FFFFF) = 0x00200001 ∧
    (0x00200000 : Nat) &&& 0x001FFFFF ≠ 0x00000001 &&& 0x001FFFFF := by
  decide

/-! ## C7: levels other than 2 and 3 -/

/-- C7: for every level other than 2 and 3, `va2pa` returns
`ST_INCORRECT_LEVEL_32`, whose value is 1, makes no reader call (the list of
calls is empty and the reader state is the initial one) and does not write the
output. -/
theorem incorrect_level_short_circuit {σ : Type} (rd : PREAD_FUNC σ) (s : σ)
    (va level cr3 : Nat) (h2 : level ≠ 2) (h3 : level ≠ 3) :
    (va2pa va level cr3 rd s).status = ST_INCORRECT_LEVEL_32 ∧
    (va2pa va level cr3 rd s).status.toNat = 1 ∧
    (va2pa va level cr3 rd s).reads = [] ∧
    (va2pa va level cr3 rd s).final = s ∧
    (va2pa va level cr3 rd s).phys_addr = none := by
  have hl : level > 3 ∨ level < 2 := by omega
  unfold va2pa
  rw [if_pos hl]
  exact ⟨rfl, rfl, rfl, rfl, rfl⟩

/-- C7 at `va = 0`, `level = 4`, `cr3 = 0`. -/
theorem incorrect_level_short_circuit_witness :
    (va2pa 0 4 0 (scriptReader []) 0).status = ST_INCORRECT_LEVEL_32 ∧
    (va2pa 0 4 0 (scriptReader []) 0).status.toNat = 1 ∧
    (va2pa 0 4 0 (scriptReader []) 0).reads = [] ∧
    (va2pa 0 4 0 (scriptReader []) 0).final = 0 ∧
    (va2pa 0 4 0 (scriptReader []) 0).phys_addr = none :=
  incorrect_level_short_circuit (scriptReader []) 0 0 4 0 (by decide) (by decide)

/-! ## C8: not-present faults of the 32-bit API -/

/-- Clearing the Present bit clears bit 0. -/
theorem clearPresent_and_one (w : Nat) : clearPresent w &&& 1 = 0 := by
  unfold clearPresent
  have hc : (0xFFFFFFFFFFFFFFFE : Nat) &&& 1 = 0 := by decide
  rw [Nat.and_assoc, hc, Nat.and_zero]

/-- Clearing the Present bit leaves every bit of a mask without bit 0 as it was. -/
theorem clearPresent_and (w m : Nat) (hm : 0xFFFFFFFFFFFFFFFE &&& m = m) :
    clearPresent w &&& m = w &&& m := by
  unfold clearPresent
  rw [Nat.and_assoc, hm]

/-- A Legacy PDE without its Present bit is reported not present. -/
theorem PDEIntegrityCheck_clearPresent (w : Nat) :
    PDEIntegrityCheck (clearPresent w) = ST_PDE_NOT_PRESENT_32 := by
  unfold PDEIntegrityCheck
  simp only [PDEBits, Nat.shiftLeft_zero, clearPresent_and_one, if_true]

/-- A Legacy PTE without its Present bit is reported not present. -/
theorem PTEIntegrityCheck_clearPresent (w : Nat) :
    PTEIntegrityCheck (clearPresent w) = ST_PTE_NOT_PRESENT_32 := by
  unfold PTEIntegrityCheck
  simp only [PTEBits, Nat.shiftLeft_zero, clearPresent_and_one, if_true]

/-- A PAE PDPTE that passes its check is reported not present once its Present bit is cleared. -/
theorem PDPTEIntegrityCheck_clearPresent (w : Nat)
    (h : PDPTEIntegrityCheck w = ST_SUCCESS_32) :
    PDPTEIntegrityCheck (clearPresent w) = ST_PDPTE_NOT_PRESENT_32 := by
  rw [PDPTEIntegrityCheck_success] at h
  unfold PDPTEIntegrityCheck
  simp only [PDPTEBits, Nat.shiftLeft_zero, clearPresent_and_one,
    clearPresent_and w 0xFFF00000000001E6 (by decide), h.2, if_true, ne_eq, not_true_eq_false,
    if_false]

/-- A PAE PDE that passes its check is reported not present once its Present bit is cleared. -/
theorem PDEIntegrityCheckPAE_clearPresent (w : Nat)
    (h : PDEIntegrityCheckPAE w = ST_SUCCESS_32) :
    PDEIntegrityCheckPAE (clearPresent w) = ST_PDE_NOT_PRESENT_32 := by
  rw [PDEIntegrityCheckPAE_success] at h
  unfold PDEIntegrityCheckPAE
  simp only [PDEBitsPAE, PDE2MbBits, Nat.shiftLeft_zero, clearPresent_and_one,
    clearPresent_and w 0xFFF00000001FE000 (by decide),
    clearPresent_and w 0xFFF0000000000000 (by decide),
    clearPresent_and w (1 <<< 7) (by decide), clearPresent_and w (1 <<< 12) (by decide)]
  rcases h.2.2 with ⟨h1, h2, h3⟩ | ⟨h1, h2⟩ <;> simp_all

/-- A PAE PTE that passes its check is reported not present once its Present bit is cleared. -/
theorem PTEIntegrityCheckPAE_clearPresent (w : Nat)
    (h : PTEIntegrityCheckPAE w = ST_SUCCESS_32) :
    PTEIntegrityCheckPAE (clearPresent w) = ST_PTE_NOT_PRESENT_32 := by
  rw [PTEIntegrityCheckPAE_success] at h
  unfold PTEIntegrityCheckPAE
  simp only [PTEBitsPAE, Nat.shiftLeft_zero, clearPresent_and_one,
    clearPresent_and w 0xFFF0000000000000 (by decide), h.2.2.2, if_true, ne_eq,
    not_true_eq_false, if_false]

/-- C8: take a Legacy or PAE walk that succeeds and the entry `e` it was
delivered at position `k`; in any second walk of the same address whose
earlier reads are the same and whose read at position `k` delivers the same
byte count and the word of `e` with only bit 0 cleared, `va2pa` returns the
not-present kind of that level (PDPTE, PDE or PTE), stops after that read and
writes nothing. -/
theorem not_present_fault_32 {σ τ : Type} (rd : PREAD_FUNC σ) (s : σ) (rd' : PREAD_FUNC τ)
    (s' : τ) (va cr3 level k : Nat) (e : ReadEvent)
    (hlevel : level = 2 ∨ level = 3)
    (h : (va2pa va level cr3 rd s).status = ST_SUCCESS_32)
    (he : (va2pa va level cr3 rd s).reads[k]? = some e)
    (hearlier : ∀ i, i < k →
      (va2pa va level cr3 rd' s').reads[i]? = (va2pa va level cr3 rd s).reads[i]?)
    (hrepl : ∀ e', (va2pa va level cr3 rd' s').reads[k]? = some e' →
      e'.count = e.count ∧ e'.data = clearPresent e.data) :
    (va2pa va level cr3 rd' s').status = notPresentKind level k ∧
    (va2pa va level cr3 rd' s').reads.length = k + 1 ∧
    (va2pa va level cr3 rd' s').phys_addr = none := by
  rcases hlevel with rfl | rfl
  · rw [va2pa_two] at h he hearlier
    rw [va2pa_two] at hearlier hrepl ⊢
    obtain ⟨e1, e2, hr, ⟨hc1, hk1, -⟩, ⟨hc2, -⟩, -⟩ := level2_success va cr3 rd s h
    rw [hr] at he hearlier
    rcases k with _ | _ | k
    · simp only [List.getElem?_cons_zero, Option.some.injEq] at he
      subst he
      obtain ⟨e1', h0', -, -, -, -, hbad⟩ := level2_at_pde va cr3 rd' s'
      obtain ⟨hcnt, hdata⟩ := hrepl e1' h0'
      have hchk : PDEIntegrityCheck e1'.data = ST_PDE_NOT_PRESENT_32 := by
        rw [hdata]; exact PDEIntegrityCheck_clearPresent _
      obtain ⟨r1, r2, r3⟩ := hbad (by omega) (by rw [hchk]; decide)
      rw [r1, r2, r3, hchk]
      exact ⟨rfl, rfl, rfl⟩
    · simp only [List.getElem?_cons_succ, List.getElem?_cons_zero, Option.some.injEq] at he
      subst he
      have h0' := hearlier 0 (by omega)
      simp only [List.getElem?_cons_zero] at h0'
      obtain ⟨e2', h1', -, -, -, -, hbad, -⟩ := level2_at_pte va cr3 rd' s' e1 h0' hc1 hk1
      obtain ⟨hcnt, hdata⟩ := hrepl e2' h1'
      have hchk : PTEIntegrityCheck e2'.data = ST_PTE_NOT_PRESENT_32 := by
        rw [hdata]; exact PTEIntegrityCheck_clearPresent _
      obtain ⟨r1, r2, r3⟩ := hbad (by omega) (by rw [hchk]; decide)
      rw [r1, r2, r3, hchk]
      exact ⟨rfl, rfl, rfl⟩
    · simp at he
  · rw [va2pa_three] at h he hearlier
    rw [va2pa_three] at hearlier hrepl ⊢
    obtain ⟨e1, e2, g0, g1, ⟨hc1, hk1⟩, ⟨hc2, hk2⟩, hshape⟩ := level3_success va cr3 rd s h
    rcases k with _ | _ | _ | k
    · rw [g0] at he
      simp only [Option.some.injEq] at he
      subst he
      obtain ⟨e1', h0', -, -, -, -, hbad⟩ := level3_at_pdpte va cr3 rd' s'
      obtain ⟨hcnt, hdata⟩ := hrepl e1' h0'
      have hchk : PDPTEIntegrityCheck e1'.data = ST_PDPTE_NOT_PRESENT_32 := by
        rw [hdata]; exact PDPTEIntegrityCheck_clearPresent _ hk1
      obtain ⟨r1, r2, r3⟩ := hbad (by omega) (by rw [hchk]; decide)
      rw [r1, r2, r3, hchk]
      exact ⟨rfl, rfl, rfl⟩
    · rw [g1] at he
      simp only [Option.some.injEq] at he
      subst he
      have h0' := hearlier 0 (by omega)
      rw [g0] at h0'
      obtain ⟨e2', h1', -, -, -, -, hbad, -⟩ := level3_at_pde va cr3 rd' s' e1 h0' hc1 hk1
      obtain ⟨hcnt, hdata⟩ := hrepl e2' h1'
      have hchk : PDEIntegrityCheckPAE e2'.data = ST_PDE_NOT_PRESENT_32 := by
        rw [hdata]; exact PDEIntegrityCheckPAE_clearPresent _ hk2
      obtain ⟨r1, r2, r3⟩ := hbad (by omega) (by rw [hchk]; decide)
      rw [r1, r2, r3, hchk]
      exact ⟨rfl, rfl, rfl⟩
    · rcases hshape with ⟨-, hr, -⟩ | ⟨hps2, e3, hr, ⟨hc3, hk3⟩, -⟩
      · rw [hr] at he
        simp at he
      · rw [hr] at he
        simp only [List.getElem?_cons_succ, List.getElem?_cons_zero, Option.some.injEq] at he
        subst he
        have h0' := hearlier 0 (by omega)
        have h1' := hearlier 1 (by omega)
        rw [g0] at h0'
        rw [g1] at h1'
        obtain ⟨e3', h2', -, -, -, -, hbad, -⟩ :=
          level3_at_pte va cr3 rd' s' e1 e2 h0' h1' hc1 hk1 hc2 hk2 hps2
        obtain ⟨hcnt, hdata⟩ := hrepl e3' h2'
        have hchk : PTEIntegrityCheckPAE e3'.data = ST_PTE_NOT_PRESENT_32 := by
          rw [hdata]; exact PTEIntegrityCheckPAE_clearPresent _ hk3
        obtain ⟨r1, r2, r3⟩ := hbad (by omega) (by rw [hchk]; decide)
        rw [r1, r2, r3, hchk]
        exact ⟨rfl, rfl, rfl⟩
    · rcases hshape with ⟨-, hr, -⟩ | ⟨-, e3, hr, -, -⟩ <;>
      · rw [hr] at he
        simp at he


/-- C8 at a PAE walk whose PDE `0x2007` is replaced by `0x2006`, and at the PDE `0` of scenario 3 of the specification. -/
theorem not_present_fault_32_witness :
    notPresentKind 3 1 = ST_PDE_NOT_PRESENT_32 ∧
    (va2pa 0 3 0 (scriptReader [0x1001, 0x0000000000000000]) 0).status
      = ST_PDE_NOT_PRESENT_32 ∧
    (va2pa 0 3 0 (scriptReader [0x1001, 0x2006]) 0).status = notPresentKind 3 1 ∧
    (va2pa 0 3 0 (scriptReader [0x1001, 0x2006]) 0).reads.length = 1 + 1 ∧
    (va2pa 0 3 0 (scriptReader [0x1001, 0x2006]) 0).phys_addr = none :=
  And.intro (by decide) <| And.intro (by decide) <|
  not_present_fault_32 (scriptReader [0x1001, 0x2007, 0x3087]) 0
    (scriptReader [0x1001, 0x2006]) 0 0 0 3 1 ⟨8, 1, 8, 0x2007⟩
    (Or.inr rfl) (by decide) (by decide) (by decide)
    (fun e' he' => by
      have hr : (va2pa 0 3 0 (scriptReader [0x1001, 0x2006]) 0).reads[1]?
          = some ⟨8, 1, 8, 0x2006⟩ := by decide
      rw [hr] at he'
      cases he'
      exact ⟨rfl, by decide⟩)

/-! ## C9: not-present kinds in Long mode -/

/-- C9, evaluated at four Long-mode walks whose last delivered entry has only
the Present bit clear (`0x1006`, `0x2006`, `0x3006`, `0x4006`): at the PML4E,
the PDPTE, the PDE and the PTE alike `va2pa_64` returns
`ST_PDPTE_NOT_PRESENT_32`, which is none of the PML4E, PDE and PTE kinds. -/
theorem long_not_present_kinds_evaluated :
    ((va2pa_64 0 0 (scriptReader [0x1006]) 0).status = ST_PDPTE_NOT_PRESENT_32 ∧
      (va2pa_64 0 0 (scriptReader [0x1006]) 0).reads = [⟨8, 0, 8, 0x1006⟩]) ∧
    ((va2pa_64 0 0 (scriptReader [0x1007, 0x2006]) 0).status = ST_PDPTE_NOT_PRESENT_32 ∧
      (va2pa_64 0 0 (scriptReader [0x1007, 0x2006]) 0).reads
        = [⟨8, 0, 8, 0x1007⟩, ⟨8, 1, 8, 0x2006⟩]) ∧
    ((va2pa_64 0 0 (scriptReader [0x1007, 0x2007, 0x3006]) 0).status
        = ST_PDPTE_NOT_PRESENT_32 ∧
      (va2pa_64 0 0 (scriptReader [0x1007, 0x2007, 0x3006]) 0).reads
        = [⟨8, 0, 8, 0x1007⟩, ⟨8, 1, 8, 0x2007⟩, ⟨8, 2, 8, 0x3006⟩]) ∧
    ((va2pa_64 0 0 (scriptReader [0x1007, 0x2007, 0x3007, 0x4006]) 0).status
        = ST_PDPTE_NOT_PRESENT_32 ∧
      (va2pa_64 0 0 (scriptReader [0x1007, 0x2007, 0x3007, 0x4006]) 0).reads
        = [⟨8, 0, 8, 0x1007⟩, ⟨8, 1, 8, 0x2007⟩, ⟨8, 2, 8, 0x3007⟩, ⟨8, 3, 8, 0x4006⟩]) ∧
    ST_PDPTE_NOT_PRESENT_32 ≠ ST_PML4E_NOT_PRESENT_32 ∧
    ST_PDPTE_NOT_PRESENT_32 ≠ ST_PDE_NOT_PRESENT_32 ∧
    ST_PDPTE_NOT_PRESENT_32 ≠ ST_PTE_NOT_PRESENT_32 := by
  decide

/-! ## C10: reserved-bit faults in PAE -/

/-- A PAE PDPTE with a reserved bit set is reported reserved, whatever its other bits. -/
theorem PDPTEIntegrityCheck_reserved (w : Nat) (h : w &&& 0xFFF00000000001E6 ≠ 0) :
    PDPTEIntegrityCheck w = ST_PDPTE_RESERVED_32 := by
  unfold PDPTEIntegrityCheck
  simp only [PDPTEBits]
  rw [if_pos h]

/-- A PAE PDE with a reserved bit of its page size set is reported reserved, whatever its other bits. -/
theorem PDEIntegrityCheckPAE_reserved (w : Nat)
    (h : (w &&& 0x80 = 0 ∧ w &&& 0xFFF0000000000000 ≠ 0) ∨
      (w &&& 0x80 ≠ 0 ∧ w &&& 0xFFF00000001FE000 ≠ 0)) :
    PDEIntegrityCheckPAE w = ST_PDE_RESERVED_32 := by
  unfold PDEIntegrityCheckPAE
  simp only [PDEBitsPAE, PDE2MbBits]
  rcases h with ⟨h1, h2⟩ | ⟨h1, h2⟩ <;> simp_all

/-- A PAE PTE with a reserved bit set is reported reserved, whatever its other bits. -/
theorem PTEIntegrityCheckPAE_reserved (w : Nat) (h : w &&& 0xFFF0000000000000 ≠ 0) :
    PTEIntegrityCheckPAE w = ST_PTE_RESERVED_32 := by
  unfold PTEIntegrityCheckPAE
  simp only [PTEBitsPAE]
  rw [if_pos h]

/-- C10: in a PAE walk, an entry delivered with its full 8 bytes and a reserved
bit set yields the reserved kind of its level: the PDPTE (first read) with a
bit of `0xFFF00000000001E6` gives `ST_PDPTE_RESERVED_32` after exactly one
reader call; the PDE (second read) with PS clear and a bit of
`0xFFF0000000000000`, or PS set and a bit of `0xFFF00000001FE000`, gives
`ST_PDE_RESERVED_32`; the PTE (third read) with a bit of `0xFFF0000000000000`
gives `ST_PTE_RESERVED_32`. -/
theorem reserved_bit_faults_pae {σ : Type} (rd : PREAD_FUNC σ) (s : σ) (va cr3 : Nat)
    (e : ReadEvent) (hcount : 8 ≤ e.count) :
    ((va2pa va 3 cr3 rd s).reads[0]? = some e → e.data &&& 0xFFF00000000001E6 ≠ 0 →
      (va2pa va 3 cr3 rd s).status = ST_PDPTE_RESERVED_32 ∧
      (va2pa va 3 cr3 rd s).reads.length = 1) ∧
    ((va2pa va 3 cr3 rd s).reads[1]? = some e →
      ((e.data &&& 0x80 = 0 ∧ e.data &&& 0xFFF0000000000000 ≠ 0) ∨
        (e.data &&& 0x80 ≠ 0 ∧ e.data &&& 0xFFF00000001FE000 ≠ 0)) →
      (va2pa va 3 cr3 rd s).status = ST_PDE_RESERVED_32 ∧
      (va2pa va 3 cr3 rd s).reads.length = 2) ∧
    ((va2pa va 3 cr3 rd s).reads[2]? = some e → e.data &&& 0xFFF0000000000000 ≠ 0 →
      (va2pa va 3 cr3 rd s).status = ST_PTE_RESERVED_32 ∧
      (va2pa va 3 cr3 rd s).reads.length = 3) := by
  rw [va2pa_three]
  obtain ⟨e1, e2, e3, s1, s2, s3, -, -, -, hc⟩ := va2pa_level3_cases va cr3 rd s
  refine ⟨?_, ?_, ?_⟩
  · intro he hres
    have hk := PDPTEIntegrityCheck_reserved _ hres
    rcases hc with ⟨_, hw⟩ | ⟨_, _, hw⟩ | ⟨⟨_, _⟩, _, hw⟩ | ⟨⟨_, _⟩, _, _, hw⟩ |
      ⟨⟨_, _⟩, ⟨_, _⟩, _, hw⟩ | ⟨⟨_, _⟩, ⟨_, _, _⟩, _, hw⟩ | ⟨⟨_, _⟩, ⟨_, _, _⟩, _, _, hw⟩ |
      ⟨⟨_, _⟩, ⟨_, _, _⟩, _, _, hw⟩ <;>
    rw [hw] at he ⊢ <;>
    simp only [List.getElem?_cons_zero, Option.some.injEq] at he <;>
    subst he <;>
    first
      | omega
      | simp_all
  · intro he hres
    have hk := PDEIntegrityCheckPAE_reserved _ hres
    rcases hc with ⟨_, hw⟩ | ⟨_, _, hw⟩ | ⟨⟨_, _⟩, _, hw⟩ | ⟨⟨_, _⟩, _, _, hw⟩ |
      ⟨⟨_, _⟩, ⟨_, _⟩, _, hw⟩ | ⟨⟨_, _⟩, ⟨_, _, _⟩, _, hw⟩ | ⟨⟨_, _⟩, ⟨_, _, _⟩, _, _, hw⟩ |
      ⟨⟨_, _⟩, ⟨_, _, _⟩, _, _, hw⟩ <;>
    rw [hw] at he ⊢ <;>
    simp only [List.getElem?_cons_succ, List.getElem?_cons_zero, List.getElem?_nil,
      Option.some.injEq, reduceCtorEq] at he <;>
    subst he <;>
    first
      | omega
      | simp_all
  · intro he hres
    have hk := PTEIntegrityCheckPAE_reserved _ hres
    rcases hc with ⟨_, hw⟩ | ⟨_, _, hw⟩ | ⟨⟨_, _⟩, _, hw⟩ | ⟨⟨_, _⟩, _, _, hw⟩ |
      ⟨⟨_, _⟩, ⟨_, _⟩, _, hw⟩ | ⟨⟨_, _⟩, ⟨_, _, _⟩, _, hw⟩ | ⟨⟨_, _⟩, ⟨_, _, _⟩, _, _, hw⟩ |
      ⟨⟨_, _⟩, ⟨_, _, _⟩, _, _, hw⟩ <;>
    rw [hw] at he ⊢ <;>
    simp only [List.getElem?_cons_succ, List.getElem?_cons_zero, List.getElem?_nil,
      Option.some.injEq, reduceCtorEq] at he <;>
    subst he <;>
    first
      | omega
      | simp_all

/-- C10 at the PDPTE `0x0000000000000101` of scenario 5 of the specification, and at a PDE and a PTE with bit 63 set. -/
theorem reserved_bit_faults_pae_witness :
    ((va2pa 0 3 0 (scriptReader [0x0000000000000101]) 0).status = ST_PDPTE_RESERVED_32 ∧
      (va2pa 0 3 0 (scriptReader [0x0000000000000101]) 0).reads.length = 1) ∧
    ((va2pa 0 3 0 (scriptReader [0x1001, 0x8000000000002007]) 0).status
        = ST_PDE_RESERVED_32 ∧
      (va2pa 0 3 0 (scriptReader [0x1001, 0x8000000000002007]) 0).reads.length = 2) ∧
    ((va2pa 0 3 0 (scriptReader [0x1001, 0x2007, 0x8000000000003087]) 0).status
        = ST_PTE_RESERVED_32 ∧
      (va2pa 0 3 0 (scriptReader [0x1001, 0x2007, 0x8000000000003087]) 0).reads.length = 3) :=
  ⟨(reserved_bit_faults_pae (scriptReader [0x0000000000000101]) 0 0 0
      ⟨8, 0, 8, 0x0000000000000101⟩ (by decide)).1 (by decide) (by decide),
    (reserved_bit_faults_pae (scriptReader [0x1001, 0x8000000000002007]) 0 0 0
      ⟨8, 1, 8, 0x8000000000002007⟩ (by decide)).2.1 (by decide) (by decide),
    (reserved_bit_faults_pae (scriptReader [0x1001, 0x2007, 0x8000000000003087]) 0 0 0
      ⟨8, 2, 8, 0x8000000000003087⟩ (by decide)).2.2 (by decide) (by decide)⟩

/-! ## C11: supervisor kinds -/

/-- C11, evaluated at three walks whose last delivered entry is present with
U/S clear (PAE PTE `0x3001`, Long-mode PML4E `0x1003`, Long-mode PTE
`0x4001`): `va2pa` and `va2pa_64` return `ST_PDE_SUPERVISOR_MODE_32` each
time, which is neither the PTE kind nor the PML4E kind; the Legacy walk
returns the PTE kind for its PTE `0x3001`. -/
theorem supervisor_kinds_evaluated :
    ((va2pa 0 3 0 (scriptReader [0x1001, 0x2007, 0x3001]) 0).status
        = ST_PDE_SUPERVISOR_MODE_32 ∧
      (va2pa 0 3 0 (scriptReader [0x1001, 0x2007, 0x3001]) 0).reads
        = [⟨8, 0, 8, 0x1001⟩, ⟨8, 1, 8, 0x2007⟩, ⟨8, 2, 8, 0x3001⟩]) ∧
    ((va2pa_64 0 0 (scriptReader [0x1003]) 0).status = ST_PDE_SUPERVISOR_MODE_32 ∧
      (va2pa_64 0 0 (scriptReader [0x1003]) 0).reads = [⟨8, 0, 8, 0x1003⟩]) ∧
    ((va2pa_64 0 0 (scriptReader [0x1007, 0x2007, 0x3007, 0x4001]) 0).status
        = ST_PDE_SUPERVISOR_MODE_32 ∧
      (va2pa_64 0 0 (scriptReader [0x1007, 0x2007, 0x3007, 0x4001]) 0).reads
        = [⟨8, 0, 8, 0x1007⟩, ⟨8, 1, 8, 0x2007⟩, ⟨8, 2, 8, 0x3007⟩, ⟨8, 3, 8, 0x4001⟩]) ∧
    ST_PDE_SUPERVISOR_MODE_32 ≠ ST_PTE_SUPERVISOR_MODE_32 ∧
    ST_PDE_SUPERVISOR_MODE_32 ≠ ST_PML4E_SUPERVISOR_MODE_32 ∧
    (va2pa 0 2 0 (scriptReader [0x2007, 0x3001]) 0).status = ST_PTE_SUPERVISOR_MODE_32 := by
  decide

/-! ## C12: the PML4E must-be-zero bits -/

/-- The PML4E check reports the must-be-zero fault exactly for a present, user-accessible PML4E
with bit 8 or 9 set. -/
theorem PML4EIntegrityCheck_mbz (w : Nat) :
    PML4EIntegrityCheck w = ST_PML4E_MBZ_32 ↔
      w &&& 1 ≠ 0 ∧ w &&& 4 ≠ 0 ∧ w &&& 0x300 ≠ 0 := by
  unfold PML4EIntegrityCheck
  simp only [PML4EBits]
  split_ifs <;> simp_all

/-- The Long-mode PDPTE check never reports the must-be-zero fault. -/
theorem PDPTEIntegrityCheck_64_ne_mbz (w : Nat) :
    PDPTEIntegrityCheck_64 w ≠ ST_PML4E_MBZ_32 := by
  unfold PDPTEIntegrityCheck_64
  simp only [PDPTEBits]
  split_ifs <;> simp

/-- The Long-mode PDE check never reports the must-be-zero fault. -/
theorem PDEIntegrityCheckPAE_64_ne_mbz (w : Nat) :
    PDEIntegrityCheckPAE_64 w ≠ ST_PML4E_MBZ_32 := by
  unfold PDEIntegrityCheckPAE_64
  simp only [PDEBitsPAE, PDE2MbBits]
  split_ifs <;> simp

/-- The Long-mode PTE check never reports the must-be-zero fault. -/
theorem PTEIntegrityCheckPAE_64_ne_mbz (w : Nat) :
    PTEIntegrityCheckPAE_64 w ≠ ST_PML4E_MBZ_32 := by
  unfold PTEIntegrityCheckPAE_64
  simp only [PTEBitsPAE]
  split_ifs <;> simp

/-- C12: if the PML4E delivered in full by the first read of `va2pa_64` has
P set, U/S set and a bit of `0x300` set, the walk returns `ST_PML4E_MBZ_32`
after exactly one reader call and writes nothing; and whenever `va2pa_64`
returns `ST_PML4E_MBZ_32`, it made one read, delivered in full, of such a
PML4E. -/
theorem pml4e_must_be_zero {σ : Type} (rd : PREAD_FUNC_64 σ) (s : σ) (va cr3 : Nat) :
    (∀ e, (va2pa_64 va cr3 rd s).reads[0]? = some e → 8 ≤ e.count →
      e.data &&& 1 ≠ 0 → e.data &&& 4 ≠ 0 → e.data &&& 0x300 ≠ 0 →
      (va2pa_64 va cr3 rd s).status = ST_PML4E_MBZ_32 ∧
      (va2pa_64 va cr3 rd s).reads.length = 1 ∧
      (va2pa_64 va cr3 rd s).phys_addr = none) ∧
    ((va2pa_64 va cr3 rd s).status = ST_PML4E_MBZ_32 →
      ∃ e, (va2pa_64 va cr3 rd s).reads = [e] ∧ 8 ≤ e.count ∧
        e.data &&& 1 ≠ 0 ∧ e.data &&& 4 ≠ 0 ∧ e.data &&& 0x300 ≠ 0) := by
  refine ⟨?_, ?_⟩
  · intro e he hcount hp hus hmbz
    have hk : PML4EIntegrityCheck e.data = ST_PML4E_MBZ_32 :=
      (PML4EIntegrityCheck_mbz e.data).mpr ⟨hp, hus, hmbz⟩
    obtain ⟨e1, h0, -, -, -, -, hbad⟩ := long_at_pml4e va cr3 rd s
    rw [h0] at he
    cases he
    obtain ⟨r1, r2, r3⟩ := hbad hcount (by rw [hk]; decide)
    rw [r1, r2, r3, hk]
    exact ⟨rfl, rfl, rfl⟩
  · intro h
    obtain ⟨e1, e2, e3, e4, s1, s2, s3, s4, -, -, -, -, hc⟩ := va2pa_64_cases va cr3 rd s
    rcases hc with ⟨_, hw⟩ | ⟨hc1, _, hw⟩ | ⟨_, _, hw⟩ | ⟨_, _, _, hw⟩ | ⟨_, _, _, hw⟩ |
      ⟨_, _, _, hw⟩ | ⟨_, _, _, _, hw⟩ | ⟨_, _, _, _, hw⟩ | ⟨_, _, _, _, hw⟩ |
      ⟨_, _, _, _, _, hw⟩ | ⟨_, _, _, _, _, hw⟩ <;> rw [hw] at h ⊢
    · cases h
    · exact ⟨e1, rfl, hc1, (PML4EIntegrityCheck_mbz e1.data).mp h⟩
    · cases h
    · exact absurd h (PDPTEIntegrityCheck_64_ne_mbz _)
    · cases h
    · cases h
    · exact absurd h (PDEIntegrityCheckPAE_64_ne_mbz _)
    · cases h
    · cases h
    · exact absurd h (PTEIntegrityCheckPAE_64_ne_mbz _)
    · cases h

/-- C12 at the PML4E `0x1107`. -/
theorem pml4e_must_be_zero_witness :
    ((va2pa_64 0 0 (scriptReader [0x1107]) 0).status = ST_PML4E_MBZ_32 ∧
      (va2pa_64 0 0 (scriptReader [0x1107]) 0).reads.length = 1 ∧
      (va2pa_64 0 0 (scriptReader [0x1107]) 0).phys_addr = none) ∧
    (∃ e, (va2pa_64 0 0 (scriptReader [0x1107]) 0).reads = [e] ∧ 8 ≤ e.count ∧
      e.data &&& 1 ≠ 0 ∧ e.data &&& 4 ≠ 0 ∧ e.data &&& 0x300 ≠ 0) :=
  ⟨(pml4e_must_be_zero (scriptReader [0x1107]) 0 0 0).1 ⟨8, 0, 8, 0x1107⟩
      (by decide) (by decide) (by decide) (by decide) (by decide),
    (pml4e_must_be_zero (scriptReader [0x1107]) 0 0 0).2 (by decide)⟩

/-! ## C13: the PTE PAT bit in PAE and Long mode -/

/-- C13, evaluated in PAE and in Long mode at a valid walk whose PTE is present
and user-accessible without reserved bits: with PAT bit 7 clear (`0x3005`,
`0x4005`) the code returns `ST_PTE_PAE_PAT_32` and writes nothing, with PAT
bit 7 set (`0x3085`, `0x4085`) it returns success; the claim says the
opposite in both cases. -/
theorem pte_pat_policy_evaluated :
    ((va2pa 0 3 0 (scriptReader [0x1001, 0x2007, 0x3005]) 0).status = ST_PTE_PAE_PAT_32 ∧
      (va2pa 0 3 0 (scriptReader [0x1001, 0x2007, 0x3005]) 0).phys_addr = none) ∧
    ((va2pa 0 3 0 (scriptReader [0x1001, 0x2007, 0x3085]) 0).status = ST_SUCCESS_32 ∧
      (va2pa 0 3 0 (scriptReader [0x1001, 0x2007, 0x3085]) 0).phys_addr = some 0x3000) ∧
    ((va2pa_64 0 0 (scriptReader [0x1007, 0x2007, 0x3007, 0x4005]) 0).status
        = ST_PTE_PAE_PAT_32 ∧
      (va2pa_64 0 0 (scriptReader [0x1007, 0x2007, 0x3007, 0x4005]) 0).phys_addr = none) ∧
    ((va2pa_64 0 0 (scriptReader [0x1007, 0x2007, 0x3007, 0x4085]) 0).status
        = ST_SUCCESS_32 ∧
      (va2pa_64 0 0 (scriptReader [0x1007, 0x2007, 0x3007, 0x4085]) 0).phys_addr
        = some 0x4000) ∧
    ((0x3005 : Nat) &&& 0x80 = 0 ∧ (0x3085 : Nat) &&& 0x80 ≠ 0 ∧
      (0x4005 : Nat) &&& 0x80 = 0 ∧ (0x4085 : Nat) &&& 0x80 ≠ 0) := by
  decide

/-! ## C14: the PAT bit of a PAE 2 MiB PDE -/

/-- C14, evaluated at a PAE walk with the valid PDPTE `0x1001` and the PDE
`0x00200087` (P, U/S and PS set, no reserved bit, PAT bit 12 clear): the code
returns `ST_PDE_PSE_PAT_32` after two reads and writes nothing, where the
claim says success; with bit 12 set (`0x00201087`) the walk succeeds, and the
Long-mode walk accepts the PDE `0x00200087`. -/
theorem pae_large_pde_pat_clear_evaluated :
    ((0x00200087 : Nat) &&& 1 ≠ 0 ∧ (0x00200087 : Nat) &&& 4 ≠ 0 ∧
      (0x00200087 : Nat) &&& 0x80 ≠ 0 ∧ (0x00200087 : Nat) &&& 0xFFF00000001FE000 = 0 ∧
      (0x00200087 : Nat) &&& 0x1000 = 0) ∧
    (va2pa 0 3 0 (scriptReader [0x1001, 0x00200087]) 0).status = ST_PDE_PSE_PAT_32 ∧
    (va2pa 0 3 0 (scriptReader [0x1001, 0x00200087]) 0).reads
      = [⟨8, 0, 8, 0x1001⟩, ⟨8, 1, 8, 0x00200087⟩] ∧
    (va2pa 0 3 0 (scriptReader [0x1001, 0x00200087]) 0).phys_addr = none ∧
    (va2pa 0 3 0 (scriptReader [0x1001, 0x00201087]) 0).status = ST_SUCCESS_32 ∧
    (va2pa_64 0 0 (scriptReader [0x1007, 0x2007, 0x00200087]) 0).status = ST_SUCCESS_32 := by
  decide

/-! ## C15: reserved bits of the Long-mode PDPTE -/

/-- C15, evaluated at Long-mode walks whose PDPTE is present and has bit 63
set: with PS set (`0x8000000040000087`) the code returns success and writes
`0x40000000`, with PS clear (`0x8000000000002007`) it goes on to read the PDE
and the PTE and succeeds; the claim says `ST_PDPTE_RESERVED_32` after two
reads. A PDPTE with PS set and bit 13 set (`0x40002087`) is rejected as the
claim says. -/
theorem long_pdpte_high_bits_evaluated :
    (((0x8000000040000087 : Nat) &&& 1 ≠ 0 ∧ (0x8000000040000087 : Nat) &&& 0x80 ≠ 0 ∧
        (0x8000000040000087 : Nat) &&& 0xFFF0000000000000 ≠ 0) ∧
      (va2pa_64 0 0 (scriptReader [0x1007, 0x8000000040000087]) 0).status = ST_SUCCESS_32 ∧
      (va2pa_64 0 0 (scriptReader [0x1007, 0x8000000040000087]) 0).phys_addr
        = some 0x40000000) ∧
    (((0x8000000000002007 : Nat) &&& 1 ≠ 0 ∧ (0x8000000000002007 : Nat) &&& 0x80 = 0 ∧
        (0x8000000000002007 : Nat) &&& 0xFFF0000000000000 ≠ 0) ∧
      (va2pa_64 0 0 (scriptReader [0x1007, 0x8000000000002007, 0x3007, 0x4087]) 0).status
        = ST_SUCCESS_32 ∧
      (va2pa_64 0 0 (scriptReader [0x1007, 0x8000000000002007, 0x3007, 0x4087]) 0).reads.length
        = 4) ∧
    ((va2pa_64 0 0 (scriptReader [0x1007, 0x40002087]) 0).status = ST_PDPTE_RESERVED_32 ∧
      (va2pa_64 0 0 (scriptReader [0x1007, 0x40002087]) 0).reads.length = 2) := by
  decide

/-! ## C16: short reads in the 32-bit API -/

/-- C16: in a Legacy or PAE walk, if the reader returns for the read at
position `k` a byte count below the requested size (4 at level 2, 8 at level
3), `va2pa` returns `ST_RAM_READ_ERROR_32`, whose value is 2, makes no further
reader call and does not write the output. -/
theorem short_read_32 {σ : Type} (rd : PREAD_FUNC σ) (s : σ) (va cr3 level k : Nat)
    (e : ReadEvent) (hlevel : level = 2 ∨ level = 3)
    (he : (va2pa va level cr3 rd s).reads[k]? = some e)
    (hshort : e.count < e.size) :
    e.size = (if level = 2 then 4 else 8) ∧
    (va2pa va level cr3 rd s).status = ST_RAM_READ_ERROR_32 ∧
    (va2pa va level cr3 rd s).status.toNat = 2 ∧
    (va2pa va level cr3 rd s).reads.length = k + 1 ∧
    (va2pa va level cr3 rd s).phys_addr = none := by
  rcases hlevel with rfl | rfl
  · rw [va2pa_two] at he ⊢
    obtain ⟨e1, e2, s1, s2, ⟨z1, -, -⟩, ⟨z2, -, -⟩, hc⟩ := va2pa_level2_cases va cr3 rd s
    rcases k with _ | _ | k <;>
    rcases hc with ⟨_, hw⟩ | ⟨_, _, hw⟩ | ⟨_, _, _, hw⟩ | ⟨_, _, _, _, hw⟩ |
      ⟨_, _, _, _, _, hw⟩ | ⟨_, _, _, _, _, hw⟩ <;>
    rw [hw] at he ⊢ <;>
    simp only [List.getElem?_cons_succ, List.getElem?_cons_zero, List.getElem?_nil,
      Option.some.injEq, reduceCtorEq] at he <;>
    subst he <;>
    first
      | omega
      | exact ⟨by simpa using z1, rfl, rfl, rfl, rfl⟩
      | exact ⟨by simpa using z2, rfl, rfl, rfl, rfl⟩
  · rw [va2pa_three] at he ⊢
    obtain ⟨e1, e2, e3, s1, s2, s3, ⟨z1, -, -⟩, ⟨z2, -, -⟩, ⟨z3, -, -⟩, hc⟩ :=
      va2pa_level3_cases va cr3 rd s
    rcases k with _ | _ | _ | k <;>
    rcases hc with ⟨_, hw⟩ | ⟨_, _, hw⟩ | ⟨⟨_, _⟩, _, hw⟩ | ⟨⟨_, _⟩, _, _, hw⟩ |
      ⟨⟨_, _⟩, ⟨_, _⟩, _, hw⟩ | ⟨⟨_, _⟩, ⟨_, _, _⟩, _, hw⟩ | ⟨⟨_, _⟩, ⟨_, _, _⟩, _, _, hw⟩ |
      ⟨⟨_, _⟩, ⟨_, _, _⟩, _, _, hw⟩ <;>
    rw [hw] at he ⊢ <;>
    simp only [List.getElem?_cons_succ, List.getElem?_cons_zero, List.getElem?_nil,
      Option.some.injEq, reduceCtorEq] at he <;>
    subst he <;>
    first
      | omega
      | exact ⟨by simpa using z1, rfl, rfl, rfl, rfl⟩
      | exact ⟨by simpa using z2, rfl, rfl, rfl, rfl⟩
      | exact ⟨by simpa using z3, rfl, rfl, rfl, rfl⟩

/-- C16 at a PAE walk whose second read returns 4 bytes. -/
theorem short_read_32_witness :
    (8 : Nat) = (if 3 = 2 then 4 else 8) ∧
    (va2pa 0 3 0 (shortReader [0x1001, 0x2007, 0x3087] 1 4) 0).status
      = ST_RAM_READ_ERROR_32 ∧
    (va2pa 0 3 0 (shortReader [0x1001, 0x2007, 0x3087] 1 4) 0).status.toNat = 2 ∧
    (va2pa 0 3 0 (shortReader [0x1001, 0x2007, 0x3087] 1 4) 0).reads.length = 1 + 1 ∧
    (va2pa 0 3 0 (shortReader [0x1001, 0x2007, 0x3087] 1 4) 0).phys_addr = none :=
  short_read_32 (shortReader [0x1001, 0x2007, 0x3087] 1 4) 0 0 0 3 1 ⟨8, 1, 4, 0x2007⟩
    (Or.inr rfl) (by decide) (by decide)

/-! ## C17: short reads in Long mode -/

/-- C17, evaluated at a Long-mode walk whose third read (the PDE) returns 4
bytes: the code goes on, makes a fourth reader call, returns success and
writes `0x4000`, where the claim says `ST_RAM_READ_ERROR_32`, no further call
and no output; a count of 0 at the third read, or of 4 at any other read, is
reported as a read error. -/
theorem long_short_pde_read_evaluated :
    (va2pa_64 0 0 (shortReader [0x1007, 0x2007, 0x3007, 0x4087] 2 4) 0).reads
      = [⟨8, 0, 8, 0x1007⟩, ⟨8, 1, 8, 0x2007⟩, ⟨8, 2, 4, 0x3007⟩, ⟨8, 3, 8, 0x4087⟩] ∧
    (va2pa_64 0 0 (shortReader [0x1007, 0x2007, 0x3007, 0x4087] 2 4) 0).status
      = ST_SUCCESS_32 ∧
    (va2pa_64 0 0 (shortReader [0x1007, 0x2007, 0x3007, 0x4087] 2 4) 0).phys_addr
      = some 0x4000 ∧
    (va2pa_64 0 0 (shortReader [0x1007, 0x2007, 0x3007, 0x4087] 2 4) 0).final = 4 ∧
    (va2pa_64 0 0 (shortReader [0x1007, 0x2007, 0x3007, 0x4087] 2 0) 0).status
      = ST_RAM_READ_ERROR_32 ∧
    (va2pa_64 0 0 (shortReader [0x1007, 0x2007, 0x3007, 0x4087] 0 4) 0).status
      = ST_RAM_READ_ERROR_32 ∧
    (va2pa_64 0 0 (shortReader [0x1007, 0x2007, 0x3007, 0x4087] 1 4) 0).status
      = ST_RAM_READ_ERROR_32 ∧
    (va2pa_64 0 0 (shortReader [0x1007, 0x2007, 0x3007, 0x4087] 3 4) 0).status
      = ST_RAM_READ_ERROR_32 := by
  decide

/-! ## C18: the output is written only on success -/

/-- The value of a result code is 0 exactly for success. -/
theorem toNat_eq_zero (t : TranslationState32) : t.toNat = 0 ↔ t = ST_SUCCESS_32 := by
  cases t <;> simp [TranslationState32.toNat]

/-- An outcome that is either a success with a stored value or a failure without one. -/
theorem written_iff_of_shape {σ : Type} (r : Outcome σ) (before : Nat)
    (h : (r.status = ST_SUCCESS_32 ∧ ∃ p, r.phys_addr = some p) ∨
      (r.status ≠ ST_SUCCESS_32 ∧ r.phys_addr = none)) :
    (r.status.toNat = 0 ↔ r.phys_addr.isSome = true) ∧
    (r.status.toNat ≠ 0 → phys_addr_after before r = before) := by
  rw [toNat_eq_zero]
  unfold phys_addr_after
  rcases h with ⟨h1, p, h2⟩ | ⟨h1, h2⟩
  · rw [h1, h2]; simp [TranslationState32.toNat]
  · rw [h2]; simp [h1]

/-- A Legacy walk either succeeds and stores a value or fails and stores none. -/
theorem level2_written_shape {σ : Type} (va root : Nat) (rd : PREAD_FUNC σ) (s : σ) :
    ((va2pa_level2 va root rd s).status = ST_SUCCESS_32 ∧
        ∃ p, (va2pa_level2 va root rd s).phys_addr = some p) ∨
      ((va2pa_level2 va root rd s).status ≠ ST_SUCCESS_32 ∧
        (va2pa_level2 va root rd s).phys_addr = none) := by
  obtain ⟨e1, e2, s1, s2, -, -, hc⟩ := va2pa_level2_cases va root rd s
  rcases hc with ⟨_, hw⟩ | ⟨_, _, hw⟩ | ⟨_, _, _, hw⟩ | ⟨_, _, _, _, hw⟩ |
    ⟨_, _, _, _, _, hw⟩ | ⟨_, _, _, _, _, hw⟩ <;> rw [hw] <;> simp_all

/-- A PAE walk either succeeds and stores a value or fails and stores none. -/
theorem level3_written_shape {σ : Type} (va root : Nat) (rd : PREAD_FUNC σ) (s : σ) :
    ((va2pa_level3 va root rd s).status = ST_SUCCESS_32 ∧
        ∃ p, (va2pa_level3 va root rd s).phys_addr = some p) ∨
      ((va2pa_level3 va root rd s).status ≠ ST_SUCCESS_32 ∧
        (va2pa_level3 va root rd s).phys_addr = none) := by
  obtain ⟨e1, e2, e3, s1, s2, s3, -, -, -, hc⟩ := va2pa_level3_cases va root rd s
  rcases hc with ⟨_, hw⟩ | ⟨_, _, hw⟩ | ⟨_, _, hw⟩ | ⟨_, _, _, hw⟩ | ⟨_, _, _, hw⟩ |
    ⟨_, _, _, hw⟩ | ⟨_, _, _, _, hw⟩ | ⟨_, _, _, _, hw⟩ <;> rw [hw] <;> simp_all

/-- A Long-mode walk either succeeds and stores a value or fails and stores none. -/
theorem long_written_shape {σ : Type} (va root : Nat) (rd : PREAD_FUNC_64 σ) (s : σ) :
    ((va2pa_64 va root rd s).status = ST_SUCCESS_32 ∧
        ∃ p, (va2pa_64 va root rd s).phys_addr = some p) ∨
      ((va2pa_64 va root rd s).status ≠ ST_SUCCESS_32 ∧
        (va2pa_64 va root rd s).phys_addr = none) := by
  obtain ⟨e1, e2, e3, e4, s1, s2, s3, s4, -, -, -, -, hc⟩ := va2pa_64_cases va root rd s
  rcases hc with ⟨_, hw⟩ | ⟨_, _, hw⟩ | ⟨_, _, hw⟩ | ⟨_, _, _, hw⟩ | ⟨_, _, _, hw⟩ |
    ⟨_, _, _, hw⟩ | ⟨_, _, _, _, hw⟩ | ⟨_, _, _, _, hw⟩ | ⟨_, _, _, _, hw⟩ |
    ⟨_, _, _, _, _, hw⟩ | ⟨_, _, _, _, _, hw⟩ <;> rw [hw] <;> simp_all

/-- A call of `va2pa`, at any level, either succeeds and stores a value or fails and stores none. -/
theorem va2pa_written_shape {σ : Type} (va level root : Nat) (rd : PREAD_FUNC σ) (s : σ) :
    ((va2pa va level root rd s).status = ST_SUCCESS_32 ∧
        ∃ p, (va2pa va level root rd s).phys_addr = some p) ∨
      ((va2pa va level root rd s).status ≠ ST_SUCCESS_32 ∧
        (va2pa va level root rd s).phys_addr = none) := by
  by_cases h2 : level = 2
  · subst h2
    rw [va2pa_two]
    exact level2_written_shape va root rd s
  by_cases h3 : level = 3
  · subst h3
    rw [va2pa_three]
    exact level3_written_shape va root rd s
  have hl : level > 3 ∨ level < 2 := by omega
  unfold va2pa
  rw [if_pos hl]
  exact Or.inr ⟨(fun h => by cases h), rfl⟩

/-- C18: for every input of `va2pa` and of `va2pa_64`, the return value is 0
exactly when the output was written, and when it is not 0 the output location
holds after the call the value it held before. -/
theorem output_written_only_on_success {σ : Type} (rd : PREAD_FUNC σ) (rd64 : PREAD_FUNC_64 σ)
    (s : σ) (va level root before : Nat) :
    (((va2pa va level root rd s).status.toNat = 0 ↔
        (va2pa va level root rd s).phys_addr.isSome = true) ∧
      ((va2pa va level root rd s).status.toNat ≠ 0 →
        phys_addr_after before (va2pa va level root rd s) = before)) ∧
    (((va2pa_64 va root rd64 s).status.toNat = 0 ↔
        (va2pa_64 va root rd64 s).phys_addr.isSome = true) ∧
      ((va2pa_64 va root rd64 s).status.toNat ≠ 0 →
        phys_addr_after before (va2pa_64 va root rd64 s) = before)) :=
  ⟨written_iff_of_shape _ before (va2pa_written_shape va level root rd s),
    written_iff_of_shape _ before (long_written_shape va root rd64 s)⟩

/-- C18 at a successful Legacy walk and at a Long-mode walk that faults. -/
theorem output_written_only_on_success_witness :
    (((va2pa 0xABC 2 0x1000 (scriptReader [0x2007, 0x3007]) 0).status.toNat = 0 ↔
        (va2pa 0xABC 2 0x1000 (scriptReader [0x2007, 0x3007]) 0).phys_addr.isSome = true) ∧
      (va2pa 0xABC 2 0x1000 (scriptReader [0x2007, 0x3007]) 0).status.toNat = 0) ∧
    phys_addr_after 0xDEADBEEF (va2pa_64 0xABC 0x1000 (scriptReader [0x1006]) 0)
      = 0xDEADBEEF :=
  ⟨⟨(output_written_only_on_success (scriptReader [0x2007, 0x3007])
        (scriptReader [0x1006]) 0 0xABC 2 0x1000 0xDEADBEEF).1.1, by decide⟩,
    (output_written_only_on_success (scriptReader [0x2007, 0x3007])
      (scriptReader [0x1006]) 0 0xABC 2 0x1000 0xDEADBEEF).2.2 (by decide)⟩

/-! ## C19: the number of reader calls -/

/-- In the 32-bit API a failed read or a failed check at position `k` ends the walk there. -/
theorem fault_ends_walk_32 {σ : Type} (rd : PREAD_FUNC σ) (s : σ) (va cr3 level k : Nat)
    (e : ReadEvent) (hlevel : level = 2 ∨ level = 3)
    (he : (va2pa va level cr3 rd s).reads[k]? = some e)
    (hf : readFailed level k e.count = true ∨ checkAt level k e.data ≠ ST_SUCCESS_32) :
    (va2pa va level cr3 rd s).reads.length = k + 1 ∧
    (va2pa va level cr3 rd s).status
      = (if readFailed level k e.count = true then ST_RAM_READ_ERROR_32
          else checkAt level k e.data) := by
  rcases hlevel with rfl | rfl
  · rw [va2pa_two] at he ⊢
    obtain ⟨e1, e2, s1, s2, -, -, hc⟩ := va2pa_level2_cases va cr3 rd s
    rcases k with _ | _ | k <;>
    rcases hc with ⟨_, hw⟩ | ⟨_, _, hw⟩ | ⟨_, _, _, hw⟩ | ⟨_, _, _, _, hw⟩ |
      ⟨_, _, _, _, _, hw⟩ | ⟨_, _, _, _, _, hw⟩ <;>
    rw [hw] at he ⊢ <;>
    simp only [List.getElem?_cons_succ, List.getElem?_cons_zero, List.getElem?_nil,
      Option.some.injEq, reduceCtorEq] at he <;>
    subst he <;>
    (try simp [readFailed, checkAt] at hf ⊢) <;>
    (try simp_all [PDEIntegrityCheck_success]) <;>
    (try split_ifs) <;>
    first
      | rfl
      | omega
  · rw [va2pa_three] at he ⊢
    obtain ⟨e1, e2, e3, s1, s2, s3, -, -, -, hc⟩ := va2pa_level3_cases va cr3 rd s
    rcases k with _ | _ | _ | k <;>
    rcases hc with ⟨_, hw⟩ | ⟨_, _, hw⟩ | ⟨⟨_, _⟩, _, hw⟩ | ⟨⟨_, _⟩, _, _, hw⟩ |
      ⟨⟨_, _⟩, ⟨_, _⟩, _, hw⟩ | ⟨⟨_, _⟩, ⟨_, _, _⟩, _, hw⟩ | ⟨⟨_, _⟩, ⟨_, _, _⟩, _, _, hw⟩ |
      ⟨⟨_, _⟩, ⟨_, _, _⟩, _, _, hw⟩ <;>
    rw [hw] at he ⊢ <;>
    simp only [List.getElem?_cons_succ, List.getElem?_cons_zero, List.getElem?_nil,
      Option.some.injEq, reduceCtorEq] at he <;>
    subst he <;>
    (try simp [readFailed, checkAt] at hf ⊢) <;>
    (try simp_all) <;>
    (try split_ifs) <;>
    first
      | rfl
      | omega

/-- In Long mode a failed read or a failed check at position `k` ends the walk there. -/
theorem fault_ends_walk_64 {σ : Type} (rd : PREAD_FUNC_64 σ) (s : σ) (va cr3 k : Nat)
    (e : ReadEvent)
    (he : (va2pa_64 va cr3 rd s).reads[k]? = some e)
    (hf : readFailed_64 k e.count = true ∨ checkAt_64 k e.data ≠ ST_SUCCESS_32) :
    (va2pa_64 va cr3 rd s).reads.length = k + 1 ∧
    (va2pa_64 va cr3 rd s).status
      = (if readFailed_64 k e.count = true then ST_RAM_READ_ERROR_32
          else checkAt_64 k e.data) := by
  obtain ⟨e1, e2, e3, e4, s1, s2, s3, s4, -, -, -, -, hc⟩ := va2pa_64_cases va cr3 rd s
  rcases k with _ | _ | _ | _ | k <;>
  rcases hc with ⟨_, hw⟩ | ⟨_, _, hw⟩ | ⟨⟨_, _⟩, _, hw⟩ | ⟨⟨_, _⟩, _, _, hw⟩ |
    ⟨⟨_, _⟩, ⟨_, _⟩, _, hw⟩ | ⟨⟨_, _⟩, ⟨_, _, _⟩, _, hw⟩ | ⟨⟨_, _⟩, ⟨_, _, _⟩, _, _, hw⟩ |
    ⟨⟨_, _⟩, ⟨_, _, _⟩, ⟨_, _⟩, _, hw⟩ | ⟨⟨_, _⟩, ⟨_, _, _⟩, ⟨_, _, _⟩, _, hw⟩ |
    ⟨⟨_, _⟩, ⟨_, _, _⟩, ⟨_, _, _⟩, _, _, hw⟩ | ⟨⟨_, _⟩, ⟨_, _, _⟩, ⟨_, _, _⟩, _, _, hw⟩ <;>
  rw [hw] at he ⊢ <;>
  simp only [List.getElem?_cons_succ, List.getElem?_cons_zero, List.getElem?_nil,
    Option.some.injEq, reduceCtorEq] at he <;>
  subst he <;>
  (try simp [readFailed_64, checkAt_64] at hf ⊢) <;>
  (try simp_all) <;>
  (try split_ifs) <;>
  first
    | rfl
    | omega

/-- A walk of the 32-bit API that does not succeed reports the failed read or
the failed check of the last entry it read. -/
theorem fault_is_last_32 {σ : Type} (rd : PREAD_FUNC σ) (s : σ) (va cr3 level : Nat)
    (hlevel : level = 2 ∨ level = 3)
    (h : (va2pa va level cr3 rd s).status ≠ ST_SUCCESS_32) :
    ∃ k e, (va2pa va level cr3 rd s).reads.length = k + 1 ∧
      (va2pa va level cr3 rd s).reads[k]? = some e ∧
      (readFailed level k e.count = true ∨ checkAt level k e.data ≠ ST_SUCCESS_32) := by
  rcases hlevel with rfl | rfl
  · rw [va2pa_two] at h ⊢
    obtain ⟨e1, e2, s1, s2, -, -, hc⟩ := va2pa_level2_cases va cr3 rd s
    rcases hc with ⟨hs, hw⟩ | ⟨_, hb, hw⟩ | ⟨_, _, _, hw⟩ | ⟨_, _, _, hs, hw⟩ |
      ⟨_, _, _, _, hb, hw⟩ | ⟨_, _, _, _, _, hw⟩ <;> rw [hw] at h ⊢
    · exact ⟨0, e1, rfl, rfl, Or.inl (by simpa [readFailed] using hs)⟩
    · exact ⟨0, e1, rfl, rfl, Or.inr (by simpa [checkAt] using hb)⟩
    · exact absurd rfl h
    · exact ⟨1, e2, rfl, rfl, Or.inl (by simpa [readFailed] using hs)⟩
    · exact ⟨1, e2, rfl, rfl, Or.inr (by simpa [checkAt] using hb)⟩
    · exact absurd rfl h
  · rw [va2pa_three] at h ⊢
    obtain ⟨e1, e2, e3, s1, s2, s3, -, -, -, hc⟩ := va2pa_level3_cases va cr3 rd s
    rcases hc with ⟨hs, hw⟩ | ⟨_, hb, hw⟩ | ⟨_, hs, hw⟩ | ⟨_, _, hb, hw⟩ | ⟨_, _, _, hw⟩ |
      ⟨_, _, hs, hw⟩ | ⟨_, _, _, hb, hw⟩ | ⟨_, _, _, _, hw⟩ <;> rw [hw] at h ⊢
    · exact ⟨0, e1, rfl, rfl, Or.inl (by simpa [readFailed] using hs)⟩
    · exact ⟨0, e1, rfl, rfl, Or.inr (by simpa [checkAt] using hb)⟩
    · exact ⟨1, e2, rfl, rfl, Or.inl (by simpa [readFailed] using hs)⟩
    · exact ⟨1, e2, rfl, rfl, Or.inr (by simpa [checkAt] using hb)⟩
    · exact absurd rfl h
    · exact ⟨2, e3, rfl, rfl, Or.inl (by simpa [readFailed] using hs)⟩
    · exact ⟨2, e3, rfl, rfl, Or.inr (by simpa [checkAt] using hb)⟩
    · exact absurd rfl h

/-- A Long-mode walk that does not succeed reports the failed read or the
failed check of the last entry it read. -/
theorem fault_is_last_64 {σ : Type} (rd : PREAD_FUNC_64 σ) (s : σ) (va cr3 : Nat)
    (h : (va2pa_64 va cr3 rd s).status ≠ ST_SUCCESS_32) :
    ∃ k e, (va2pa_64 va cr3 rd s).reads.length = k + 1 ∧
      (va2pa_64 va cr3 rd s).reads[k]? = some e ∧
      (readFailed_64 k e.count = true ∨ checkAt_64 k e.data ≠ ST_SUCCESS_32) := by
  obtain ⟨e1, e2, e3, e4, s1, s2, s3, s4, -, -, -, -, hc⟩ := va2pa_64_cases va cr3 rd s
  rcases hc with ⟨hs, hw⟩ | ⟨_, hb, hw⟩ | ⟨_, hs, hw⟩ | ⟨_, _, hb, hw⟩ | ⟨_, _, _, hw⟩ |
    ⟨_, _, hs, hw⟩ | ⟨_, _, _, hb, hw⟩ | ⟨_, _, _, _, hw⟩ | ⟨_, _, _, hs, hw⟩ |
    ⟨_, _, _, _, hb, hw⟩ | ⟨_, _, _, _, _, hw⟩ <;> rw [hw] at h ⊢
  · exact ⟨0, e1, rfl, rfl, Or.inl (by simpa [readFailed_64] using hs)⟩
  · exact ⟨0, e1, rfl, rfl, Or.inr (by simpa [checkAt_64] using hb)⟩
  · exact ⟨1, e2, rfl, rfl, Or.inl (by simpa [readFailed_64] using hs)⟩
  · exact ⟨1, e2, rfl, rfl, Or.inr (by simpa [checkAt_64] using hb)⟩
  · exact absurd rfl h
  · exact ⟨2, e3, rfl, rfl, Or.inl (by simpa [readFailed_64] using hs)⟩
  · exact ⟨2, e3, rfl, rfl, Or.inr (by simpa [checkAt_64] using hb)⟩
  · exact absurd rfl h
  · exact ⟨3, e4, rfl, rfl, Or.inl (by simpa [readFailed_64] using hs)⟩
  · exact ⟨3, e4, rfl, rfl, Or.inr (by simpa [checkAt_64] using hb)⟩
  · exact absurd rfl h

/-- The number of reads of a successful Legacy walk. -/
theorem success_count_level2 {σ : Type} (rd : PREAD_FUNC σ) (s : σ) (va cr3 : Nat)
    (h : (va2pa va 2 cr3 rd s).status = ST_SUCCESS_32) :
    ∃ pde, (va2pa va 2 cr3 rd s).reads[0]? = some pde ∧
      (va2pa va 2 cr3 rd s).reads.length = (if pde.data &&& 0x80 ≠ 0 then 1 else 2) := by
  rw [va2pa_two] at h ⊢
  obtain ⟨e1, e2, hr, ⟨-, -, hps⟩, -, -⟩ := level2_success va cr3 rd s h
  rw [hr]
  exact ⟨e1, rfl, by simp [hps]⟩

/-- The number of reads of a successful PAE walk. -/
theorem success_count_level3 {σ : Type} (rd : PREAD_FUNC σ) (s : σ) (va cr3 : Nat)
    (h : (va2pa va 3 cr3 rd s).status = ST_SUCCESS_32) :
    ∃ pde, (va2pa va 3 cr3 rd s).reads[1]? = some pde ∧
      (va2pa va 3 cr3 rd s).reads.length = (if pde.data &&& 0x80 ≠ 0 then 2 else 3) := by
  rw [va2pa_three] at h ⊢
  obtain ⟨e1, e2, -, g1, -, -, hshape⟩ := level3_success va cr3 rd s h
  refine ⟨e2, g1, ?_⟩
  rcases hshape with ⟨hps, hr, -⟩ | ⟨hps, e3, hr, -, -⟩
  · rw [hr, if_pos hps]; rfl
  · rw [hr, if_neg (not_not.mpr hps)]; rfl

/-- The number of reads of a successful Long-mode walk. -/
theorem success_count_64 {σ : Type} (rd : PREAD_FUNC_64 σ) (s : σ) (va cr3 : Nat)
    (h : (va2pa_64 va cr3 rd s).status = ST_SUCCESS_32) :
    ∃ pdpte, (va2pa_64 va cr3 rd s).reads[1]? = some pdpte ∧
      (if pdpte.data &&& 0x80 ≠ 0 then (va2pa_64 va cr3 rd s).reads.length = 2
        else ∃ pde, (va2pa_64 va cr3 rd s).reads[2]? = some pde ∧
          (va2pa_64 va cr3 rd s).reads.length
            = (if pde.data &&& 0x80 ≠ 0 then 3 else 4)) := by
  obtain ⟨e1, e2, -, g1, -, -, hshape⟩ := long_success va cr3 rd s h
  refine ⟨e2, g1, ?_⟩
  rcases hshape with ⟨hps, hr, -⟩ | ⟨hps, e3, g2, -, hshape3⟩
  · rw [if_pos hps, hr]; rfl
  · rw [if_neg (not_not.mpr hps)]
    refine ⟨e3, g2, ?_⟩
    rcases hshape3 with ⟨hps3, hr, -⟩ | ⟨hps3, e4, hr, -, -⟩
    · rw [hr, if_pos hps3]; rfl
    · rw [hr, if_neg (not_not.mpr hps3)]; rfl

/-- C19: in every walk, an entry whose read failed or whose check failed is
the last one read, and the status is that read error or that check result;
a walk that does not succeed reports the failure of the last entry it read,
so the number of reader calls is the position of the entry the fault is
reported for. On success the number of calls is 2 or 1 in Legacy (PS of the
PDE clear or set), 3 or 2 in PAE (PS of the PDE), and 4, 3 or 2 in Long mode
(PS of the PDE, PS of the PDPTE). The read and check tests are the ones the
code makes at each position. -/
theorem reader_call_count {σ : Type} (rd : PREAD_FUNC σ) (rd64 : PREAD_FUNC_64 σ) (s : σ)
    (va cr3 : Nat) :
    (∀ level, level = 2 ∨ level = 3 →
      (∀ k e, (va2pa va level cr3 rd s).reads[k]? = some e →
        (readFailed level k e.count = true ∨ checkAt level k e.data ≠ ST_SUCCESS_32) →
        (va2pa va level cr3 rd s).reads.length = k + 1 ∧
        (va2pa va level cr3 rd s).status
          = (if readFailed level k e.count = true then ST_RAM_READ_ERROR_32
              else checkAt level k e.data)) ∧
      ((va2pa va level cr3 rd s).status ≠ ST_SUCCESS_32 →
        ∃ k e, (va2pa va level cr3 rd s).reads.length = k + 1 ∧
          (va2pa va level cr3 rd s).reads[k]? = some e ∧
          (readFailed level k e.count = true ∨ checkAt level k e.data ≠ ST_SUCCESS_32))) ∧
    ((va2pa va 2 cr3 rd s).status = ST_SUCCESS_32 →
      ∃ pde, (va2pa va 2 cr3 rd s).reads[0]? = some pde ∧
        (va2pa va 2 cr3 rd s).reads.length = (if pde.data &&& 0x80 ≠ 0 then 1 else 2)) ∧
    ((va2pa va 3 cr3 rd s).status = ST_SUCCESS_32 →
      ∃ pde, (va2pa va 3 cr3 rd s).reads[1]? = some pde ∧
        (va2pa va 3 cr3 rd s).reads.length = (if pde.data &&& 0x80 ≠ 0 then 2 else 3)) ∧
    ((∀ k e, (va2pa_64 va cr3 rd64 s).reads[k]? = some e →
        (readFailed_64 k e.count = true ∨ checkAt_64 k e.data ≠ ST_SUCCESS_32) →
        (va2pa_64 va cr3 rd64 s).reads.length = k + 1 ∧
        (va2pa_64 va cr3 rd64 s).status
          = (if readFailed_64 k e.count = true then ST_RAM_READ_ERROR_32
              else checkAt_64 k e.data)) ∧
      ((va2pa_64 va cr3 rd64 s).status ≠ ST_SUCCESS_32 →
        ∃ k e, (va2pa_64 va cr3 rd64 s).reads.length = k + 1 ∧
          (va2pa_64 va cr3 rd64 s).reads[k]? = some e ∧
          (readFailed_64 k e.count = true ∨ checkAt_64 k e.data ≠ ST_SUCCESS_32))) ∧
    ((va2pa_64 va cr3 rd64 s).status = ST_SUCCESS_32 →
      ∃ pdpte, (va2pa_64 va cr3 rd64 s).reads[1]? = some pdpte ∧
        (if pdpte.data &&& 0x80 ≠ 0 then (va2pa_64 va cr3 rd64 s).reads.length = 2
          else ∃ pde, (va2pa_64 va cr3 rd64 s).reads[2]? = some pde ∧
            (va2pa_64 va cr3 rd64 s).reads.length
              = (if pde.data &&& 0x80 ≠ 0 then 3 else 4))) :=
  ⟨fun level hlevel =>
      ⟨fun k e he hf => fault_ends_walk_32 rd s va cr3 level k e hlevel he hf,
        fun h => fault_is_last_32 rd s va cr3 level hlevel h⟩,
    success_count_level2 rd s va cr3,
    success_count_level3 rd s va cr3,
    ⟨fun k e he hf => fault_ends_walk_64 rd64 s va cr3 k e he hf,
      fun h => fault_is_last_64 rd64 s va cr3 h⟩,
    success_count_64 rd64 s va cr3⟩

/-- C19 at a PAE walk with a not-present PDE, a Long-mode walk whose PDE read returns no byte, and
successful Legacy, PAE 2 MiB and Long-mode 2 MiB walks. -/
theorem reader_call_count_witness :
    ((va2pa 0 3 0 (scriptReader [0x1001, 0x2006]) 0).reads.length = 1 + 1 ∧
      (va2pa 0 3 0 (scriptReader [0x1001, 0x2006]) 0).status
        = (if readFailed 3 1 8 = true then ST_RAM_READ_ERROR_32 else checkAt 3 1 0x2006)) ∧
    (∃ k e, (va2pa 0 3 0 (scriptReader [0x1001, 0x2006]) 0).reads.length = k + 1 ∧
      (va2pa 0 3 0 (scriptReader [0x1001, 0x2006]) 0).reads[k]? = some e ∧
      (readFailed 3 k e.count = true ∨ checkAt 3 k e.data ≠ ST_SUCCESS_32)) ∧
    (∃ pde, (va2pa 0 2 0 (scriptReader [0x2007, 0x3007]) 0).reads[0]? = some pde ∧
      (va2pa 0 2 0 (scriptReader [0x2007, 0x3007]) 0).reads.length
        = (if pde.data &&& 0x80 ≠ 0 then 1 else 2)) ∧
    (∃ pde, (va2pa 0 3 0 (scriptReader [0x1001, 0x00201087]) 0).reads[1]? = some pde ∧
      (va2pa 0 3 0 (scriptReader [0x1001, 0x00201087]) 0).reads.length
        = (if pde.data &&& 0x80 ≠ 0 then 2 else 3)) ∧
    ((va2pa_64 0 0 (shortReader [0x1007, 0x2007, 0x3007] 2 0) 0).reads.length = 2 + 1 ∧
      (va2pa_64 0 0 (shortReader [0x1007, 0x2007, 0x3007] 2 0) 0).status
        = (if readFailed_64 2 0 = true then ST_RAM_READ_ERROR_32
            else checkAt_64 2 0x3007)) ∧
    (∃ pdpte, (va2pa_64 0 0 (scriptReader [0x1007, 0x2007, 0x00200087]) 0).reads[1]?
        = some pdpte ∧
      (if pdpte.data &&& 0x80 ≠ 0
        then (va2pa_64 0 0 (scriptReader [0x1007, 0x2007, 0x00200087]) 0).reads.length = 2
        else ∃ pde, (va2pa_64 0 0 (scriptReader [0x1007, 0x2007, 0x00200087]) 0).reads[2]?
            = some pde ∧
          (va2pa_64 0 0 (scriptReader [0x1007, 0x2007, 0x00200087]) 0).reads.length
            = (if pde.data &&& 0x80 ≠ 0 then 3 else 4))) :=
  ⟨((reader_call_count (scriptReader [0x1001, 0x2006]) (scriptReader []) 0 0 0).1 3
      (Or.inr rfl)).1 1 ⟨8, 1, 8, 0x2006⟩ (by decide) (by decide),
    ((reader_call_count (scriptReader [0x1001, 0x2006]) (scriptReader []) 0 0 0).1 3
      (Or.inr rfl)).2 (by decide),
    (reader_call_count (scriptReader [0x2007, 0x3007]) (scriptReader []) 0 0 0).2.1
      (by decide),
    (reader_call_count (scriptReader [0x1001, 0x00201087]) (scriptReader []) 0 0 0).2.2.1
      (by decide),
    (reader_call_count (scriptReader []) (shortReader [0x1007, 0x2007, 0x3007] 2 0)
      0 0 0).2.2.2.1.1 2 ⟨8, 2, 0, 0x3007⟩ (by decide) (by decide),
    (reader_call_count (scriptReader []) (scriptReader [0x1007, 0x2007, 0x00200087])
      0 0 0).2.2.2.2 (by decide)⟩

/-! ## C20: the PAE root address -/

/-- C20, evaluated at `cr3 = 0x1000`, `va = 0`: the first reader call of the
PAE walk asks for 8 bytes at `0x80`, which is `cr3 >> 5`, where the claim says
`(cr3 & 0xFFFFFFE0) + 8 * va[31:30] = 0x1000`. -/
theorem pae_root_address_evaluated :
    (va2pa 0 3 0x1000 (scriptReader [0x1001]) 0).reads[0]?
      = some ⟨8, 0x80, 8, 0x1001⟩ ∧
    (0x1000 &&& 0xFFFFFFE0) + 8 * (0 >>> 30) = 0x1000 ∧
    (0x1000 >>> 5) + 8 * (0 >>> 30) = 0x80 := by
  decide

/-! ## C21: the present check and the reserved-bit checks -/

/-- C21, evaluated at entries whose Present bit is clear. In PAE the PDPTE
`0x100` (reserved bit 8) gives `ST_PDPTE_RESERVED_32`, the PDE `0x00200086`
(PS set, PAT clear) gives `ST_PDE_PSE_PAT_32`, a PDE and a PTE with bit 63
give `ST_PDE_RESERVED_32` and `ST_PTE_RESERVED_32`; in Long mode the PDPTE
`0x2086` (PS set, bit 13) and a PDE and a PTE with bit 63 give the reserved
kinds as well. The Legacy PDE and PTE and the Long-mode PML4E with every other
bit set do give a not-present kind. -/
theorem present_check_not_first_evaluated :
    (((0x0000000000000100 : Nat) &&& 1 = 0 ∧
        (va2pa 0 3 0 (scriptReader [0x0000000000000100]) 0).status = ST_PDPTE_RESERVED_32) ∧
      ((0x00200086 : Nat) &&& 1 = 0 ∧
        (va2pa 0 3 0 (scriptReader [0x1001, 0x00200086]) 0).status = ST_PDE_PSE_PAT_32) ∧
      ((0x8000000000002006 : Nat) &&& 1 = 0 ∧
        (va2pa 0 3 0 (scriptReader [0x1001, 0x8000000000002006]) 0).status
          = ST_PDE_RESERVED_32) ∧
      ((0x8000000000003006 : Nat) &&& 1 = 0 ∧
        (va2pa 0 3 0 (scriptReader [0x1001, 0x2007, 0x8000000000003006]) 0).status
          = ST_PTE_RESERVED_32)) ∧
    (((0x0000000000002086 : Nat) &&& 1 = 0 ∧
        (va2pa_64 0 0 (scriptReader [0x1007, 0x0000000000002086]) 0).status
          = ST_PDPTE_RESERVED_32) ∧
      ((0x8000000000003006 : Nat) &&& 1 = 0 ∧
        (va2pa_64 0 0 (scriptReader [0x1007, 0x2007, 0x8000000000003006]) 0).status
          = ST_PDE_RESERVED_32) ∧
      ((0x8000000000004006 : Nat) &&& 1 = 0 ∧
        (va2pa_64 0 0 (scriptReader [0x1007, 0x2007, 0x3007, 0x8000000000004006]) 0).status
          = ST_PTE_RESERVED_32)) ∧
    ((va2pa 0 2 0 (scriptReader [0xFFFFFFFE]) 0).status = ST_PDE_NOT_PRESENT_32 ∧
      (va2pa 0 2 0 (scriptReader [0x2007, 0xFFFFFFFE]) 0).status = ST_PTE_NOT_PRESENT_32 ∧
      (va2pa_64 0 0 (scriptReader [0xFFFFFFFFFFFFFFFE]) 0).status
        = ST_PDPTE_NOT_PRESENT_32) := by
  decide

/-! ## C22: translation through a supervisor-only entry -/

/-- C22, evaluated at Long-mode walks whose PDPTE is present with U/S (bit 2)
clear: with `va = 0x12345678` the 1 GiB leaf `0x400000083` is delivered at
the second read and the walk returns success and writes `0x412345678`, and
with `va = 0` the walk through the PDPTE `0x2003` down to a 4 KiB page returns
success and writes `0x4000`, where the claim says that no successful walk has
an entry with U/S clear at the Long-mode PDPTE. The same function refuses a
U/S-clear entry at its three other levels: the PML4E `0x1003`, the 2 MiB leaf
PDE `0x00200083` and the PTE `0x4083` give `ST_PDE_SUPERVISOR_MODE_32` and
write nothing. -/
theorem long_supervisor_pdpte_translates_evaluated :
    ((va2pa_64 0x12345678 0 (scriptReader [0x1007, 0x400000083]) 0).reads[1]?
        = some ⟨8, 1, 8, 0x400000083⟩ ∧
      (va2pa_64 0x12345678 0 (scriptReader [0x1007, 0x400000083]) 0).status = ST_SUCCESS_32 ∧
      (va2pa_64 0x12345678 0 (scriptReader [0x1007, 0x400000083]) 0).phys_addr
        = some 0x412345678 ∧
      (0x400000083 : Nat) &&& 4 = 0) ∧
    ((va2pa_64 0 0 (scriptReader [0x1007, 0x2003, 0x3007, 0x4087]) 0).reads[1]?
        = some ⟨8, 1, 8, 0x2003⟩ ∧
      (va2pa_64 0 0 (scriptReader [0x1007, 0x2003, 0x3007, 0x4087]) 0).status = ST_SUCCESS_32 ∧
      (va2pa_64 0 0 (scriptReader [0x1007, 0x2003, 0x3007, 0x4087]) 0).phys_addr
        = some 0x4000 ∧
      (0x2003 : Nat) &&& 4 = 0) ∧
    ((va2pa_64 0 0 (scriptReader [0x1003]) 0).status = ST_PDE_SUPERVISOR_MODE_32 ∧
      (va2pa_64 0 0 (scriptReader [0x1003]) 0).phys_addr = none ∧
      (va2pa_64 0x12345678 0 (scriptReader [0x1007, 0x2007, 0x00200083]) 0).status
        = ST_PDE_SUPERVISOR_MODE_32 ∧
      (va2pa_64 0x12345678 0 (scriptReader [0x1007, 0x2007, 0x00200083]) 0).phys_addr = none ∧
      (va2pa_64 0 0 (scriptReader [0x1007, 0x2007, 0x3007, 0x4083]) 0).status
        = ST_PDE_SUPERVISOR_MODE_32 ∧
      (va2pa_64 0 0 (scriptReader [0x1007, 0x2007, 0x3007, 0x4083]) 0).phys_addr = none) := by
  decide

/-! ## The entries of a successful walk -/

/-- In a successful Legacy walk every delivered entry is present and user-accessible. -/
theorem level2_success_entries {σ : Type} (rd : PREAD_FUNC σ) (s : σ) (va root k : Nat)
    (e : ReadEvent) (h : (va2pa_level2 va root rd s).status = ST_SUCCESS_32)
    (he : (va2pa_level2 va root rd s).reads[k]? = some e) :
    e.data &&& 1 ≠ 0 ∧ e.data &&& 4 ≠ 0 := by
  obtain ⟨e1, e2, hr, ⟨-, hk1, -⟩, ⟨-, hk2⟩, -⟩ := level2_success va root rd s h
  rw [PDEIntegrityCheck_success] at hk1
  rw [PTEIntegrityCheck_success] at hk2
  rw [hr] at he
  rcases k with _ | _ | k <;>
    simp only [List.getElem?_cons_succ, List.getElem?_cons_zero, List.getElem?_nil,
      Option.some.injEq, reduceCtorEq] at he
  · subst he; exact ⟨hk1.1, hk1.2.1⟩
  · subst he; exact hk2

/-- In a successful PAE walk every delivered entry is present, and every one after the PDPTE
(position 0) has U/S set. -/
theorem level3_success_entries {σ : Type} (rd : PREAD_FUNC σ) (s : σ) (va root k : Nat)
    (e : ReadEvent) (h : (va2pa_level3 va root rd s).status = ST_SUCCESS_32)
    (he : (va2pa_level3 va root rd s).reads[k]? = some e) :
    e.data &&& 1 ≠ 0 ∧ (k ≠ 0 → e.data &&& 4 ≠ 0) := by
  obtain ⟨e1, e2, g0, g1, ⟨-, hk1⟩, ⟨-, hk2⟩, hshape⟩ := level3_success va root rd s h
  rw [PDPTEIntegrityCheck_success] at hk1
  rw [PDEIntegrityCheckPAE_success] at hk2
  rcases k with _ | _ | k
  · rw [g0] at he; cases he
    exact ⟨hk1.1, fun hne => absurd rfl hne⟩
  · rw [g1] at he; cases he
    exact ⟨hk2.1, fun _ => hk2.2.1⟩
  · rcases hshape with ⟨-, hr, -⟩ | ⟨-, e3, hr, ⟨-, hk3⟩, -⟩ <;> rw [hr] at he
    · simp at he
    · rw [PTEIntegrityCheckPAE_success] at hk3
      rcases k with _ | k <;>
        simp only [List.getElem?_cons_succ, List.getElem?_cons_zero, List.getElem?_nil,
          Option.some.injEq, reduceCtorEq] at he
      subst he
      exact ⟨hk3.1, fun _ => hk3.2.1⟩

/-- In a successful Long-mode walk every delivered entry is present, and every one at a
position other than 1 has U/S set; the check of the PDPTE (position 1) does not test U/S. -/
theorem long_success_entries {σ : Type} (rd : PREAD_FUNC_64 σ) (s : σ) (va root k : Nat)
    (e : ReadEvent) (h : (va2pa_64 va root rd s).status = ST_SUCCESS_32)
    (he : (va2pa_64 va root rd s).reads[k]? = some e) :
    e.data &&& 1 ≠ 0 ∧ (k ≠ 1 → e.data &&& 4 ≠ 0) := by
  obtain ⟨e1, e2, g0, g1, ⟨-, hk1⟩, ⟨-, hk2⟩, hshape⟩ := long_success va root rd s h
  rw [PML4EIntegrityCheck_success] at hk1
  rw [PDPTEIntegrityCheck_64_success] at hk2
  rcases k with _ | _ | k
  · rw [g0] at he; cases he
    exact ⟨hk1.1, fun _ => hk1.2.1⟩
  · rw [g1] at he; cases he
    exact ⟨hk2.1, fun hne => absurd rfl hne⟩
  · rcases hshape with ⟨-, hr, -⟩ | ⟨-, e3, g2, ⟨-, hk3⟩, hshape3⟩
    · rw [hr] at he
      simp at he
    · rw [PDEIntegrityCheckPAE_64_success] at hk3
      rcases k with _ | k
      · rw [g2] at he; cases he
        exact ⟨hk3.1, fun _ => hk3.2.1⟩
      · rcases hshape3 with ⟨-, hr, -⟩ | ⟨-, e4, hr, ⟨-, hk4⟩, -⟩ <;> rw [hr] at he
        · simp at he
        · rw [PTEIntegrityCheckPAE_64_success] at hk4
          rcases k with _ | k <;>
            simp only [List.getElem?_cons_succ, List.getElem?_cons_zero, List.getElem?_nil,
              Option.some.injEq, reduceCtorEq] at he
          subst he
          exact ⟨hk4.1, fun _ => hk4.2.1⟩

/-! ## C23: the addresses of the table entries -/

/-- C23, evaluated at a Long-mode walk with `cr3 = 0x1000` and at a PAE walk,
both with `va = 0`: the code asks for the PML4E at `0x1` and for the PDPTE,
PDE and PTE at `0x1`, `0x2`, `0x3` (PAE: PDE at `0x1`, PTE at `0x2`), the
frame numbers of the parents, where the claim says `0x1000`, `0x1000`,
`0x2000`, `0x3000`; the low 12 bits of a requested address are not
`8 * index`. -/
theorem table_base_addresses_evaluated :
    ((va2pa_64 0 0x1000 (scriptReader [0x1007, 0x2007, 0x3007, 0x4087]) 0).reads
        = [⟨8, 0x1, 8, 0x1007⟩, ⟨8, 0x1, 8, 0x2007⟩, ⟨8, 0x2, 8, 0x3007⟩,
            ⟨8, 0x3, 8, 0x4087⟩] ∧
      (0x1000 &&& 0x000FFFFFFFFFF000) + 8 * ((0 >>> 39) &&& 0x1FF) = 0x1000 ∧
      (0x1007 &&& 0x000FFFFFFFFFF000) + 8 * ((0 >>> 30) &&& 0x1FF) = 0x1000 ∧
      (0x2007 &&& 0x000FFFFFFFFFF000) + 8 * ((0 >>> 21) &&& 0x1FF) = 0x2000 ∧
      (0x3007 &&& 0x000FFFFFFFFFF000) + 8 * ((0 >>> 12) &&& 0x1FF) = 0x3000) ∧
    ((va2pa 0 3 0 (scriptReader [0x1001, 0x2007, 0x3087]) 0).reads
        = [⟨8, 0x0, 8, 0x1001⟩, ⟨8, 0x1, 8, 0x2007⟩, ⟨8, 0x2, 8, 0x3087⟩] ∧
      (0x1001 &&& 0x000FFFFFFFFFF000) + 8 * ((0 >>> 21) &&& 0x1FF) = 0x1000 ∧
      (0x2007 &&& 0x000FFFFFFFFFF000) + 8 * ((0 >>> 12) &&& 0x1FF) = 0x2000 ∧
      (0x1 : Nat) &&& 0xFFF ≠ 8 * ((0 >>> 21) &&& 0x1FF)) := by
  decide

/-! ## C24: the result fits MAXPHYADDR -/

/-- A masked word or-ed with a masked offset stays below `2 ^ w` when both masks do. -/
theorem mask_or_offset_lt (x v m off w : Nat) (hm : m < 2 ^ w) (hoff : off < 2 ^ w) :
    (x &&& m) ||| (v &&& off) < 2 ^ w :=
  Nat.or_lt_two_pow (Nat.and_lt_two_pow x hm) (Nat.and_lt_two_pow v hoff)

/-- The Legacy 4 KiB result is a 32-bit value. -/
theorem phys_addr_4kb_lt (pte va : Nat) : phys_addr_4kb pte va < 2 ^ 32 := by
  unfold phys_addr_4kb
  exact Nat.mod_lt _ (by decide)

/-- The PAE 2 MiB result is below `2 ^ 52`. -/
theorem phys_addr_2mb_pae_lt (pde va : Nat) : phys_addr_2mb_pae pde va < 2 ^ 52 := by
  rw [phys_addr_2mb_pae_eq]
  exact mask_or_offset_lt _ _ _ _ 52 (by decide) (by decide)

/-- The PAE 4 KiB result is below `2 ^ 52` for a PTE whose bits above bit 51 are clear. -/
theorem phys_addr_4kb_pae_lt (pte va : Nat) (h : pte &&& 0xFFF0000000000000 = 0) :
    phys_addr_4kb_pae pte va < 2 ^ 52 := by
  rw [phys_addr_4kb_pae_eq pte va h]
  exact mask_or_offset_lt _ _ _ _ 52 (by decide) (by decide)

/-- The 1 GiB result is below `2 ^ 52`. -/
theorem phys_addr_1gb_64_lt (pdpte va : Nat) : phys_addr_1gb_64 pdpte va < 2 ^ 52 := by
  rw [phys_addr_1gb_64_eq]
  exact mask_or_offset_lt _ _ _ _ 52 (by decide) (by decide)

/-- The Long-mode 2 MiB result as the code computes it, with the offset mask `0x1FFFFE`. -/
theorem phys_addr_2mb_64_eq (pde va : Nat) :
    phys_addr_2mb_64 pde va = (pde &&& 0x000FFFFFFFE00000) ||| (va &&& 0x001FFFFE) :=
  mask_add_offset pde va 0xFFFFFFFE00000 0x1FFFFE 21 64
    (by decide) (by decide) (by decide) (by decide)

/-- The Long-mode 2 MiB result is below `2 ^ 52`. -/
theorem phys_addr_2mb_64_lt (pde va : Nat) : phys_addr_2mb_64 pde va < 2 ^ 52 := by
  rw [phys_addr_2mb_64_eq]
  exact mask_or_offset_lt _ _ _ _ 52 (by decide) (by decide)

/-- The Long-mode 4 KiB result is below `2 ^ 52` for a PTE whose bits above bit 51 are
clear. -/
theorem phys_addr_4kb_64_lt (pte va : Nat) (h : pte &&& 0xFFF0000000000000 = 0) :
    phys_addr_4kb_64 pte va < 2 ^ 52 :=
  phys_addr_4kb_pae_lt pte va h

/-- C24: whenever a walk returns success, the physical address written is
below `2 ^ 32` in Legacy mode and below `2 ^ 52` in PAE and Long mode, on the
small-page and the large-page paths alike. -/
theorem result_fits_maxphyaddr {σ : Type} (rd : PREAD_FUNC σ) (rd64 : PREAD_FUNC_64 σ)
    (s : σ) (va root : Nat) :
    ((va2pa va 2 root rd s).status = ST_SUCCESS_32 →
      ∃ p, (va2pa va 2 root rd s).phys_addr = some p ∧ p < 2 ^ LEGACY_MAXPHYADDR) ∧
    ((va2pa va 3 root rd s).status = ST_SUCCESS_32 →
      ∃ p, (va2pa va 3 root rd s).phys_addr = some p ∧ p < 2 ^ PAE_MAXPHYADDR) ∧
    ((va2pa_64 va root rd64 s).status = ST_SUCCESS_32 →
      ∃ p, (va2pa_64 va root rd64 s).phys_addr = some p ∧ p < 2 ^ PAE_MAXPHYADDR) := by
  refine ⟨?_, ?_, ?_⟩
  · intro h
    rw [va2pa_two] at h ⊢
    obtain ⟨e1, e2, -, -, -, hp⟩ := level2_success va root rd s h
    exact ⟨_, hp, phys_addr_4kb_lt _ _⟩
  · intro h
    rw [va2pa_three] at h ⊢
    obtain ⟨e1, e2, -, -, -, -, hshape⟩ := level3_success va root rd s h
    rcases hshape with ⟨-, -, hp⟩ | ⟨-, e3, -, ⟨-, hk3⟩, hp⟩
    · exact ⟨_, hp, phys_addr_2mb_pae_lt _ _⟩
    · rw [PTEIntegrityCheckPAE_success] at hk3
      exact ⟨_, hp, phys_addr_4kb_pae_lt _ _ hk3.2.2.2⟩
  · intro h
    obtain ⟨e1, e2, -, -, -, -, hshape⟩ := long_success va root rd64 s h
    rcases hshape with ⟨-, -, hp⟩ | ⟨-, e3, -, -, hshape3⟩
    · exact ⟨_, hp, phys_addr_1gb_64_lt _ _⟩
    · rcases hshape3 with ⟨-, -, hp⟩ | ⟨-, e4, -, ⟨-, hk4⟩, hp⟩
      · exact ⟨_, hp, phys_addr_2mb_64_lt _ _⟩
      · rw [PTEIntegrityCheckPAE_64_success] at hk4
        exact ⟨_, hp, phys_addr_4kb_64_lt _ _ hk4.2.2.2⟩

/-- C24 at walks whose leaf entry has every address bit set. -/
theorem result_fits_maxphyaddr_witness :
    (∃ p, (va2pa 0xFFFFFABC 2 0 (scriptReader [0xFFFFF007, 0xFFFFF007]) 0).phys_addr
        = some p ∧ p < 2 ^ LEGACY_MAXPHYADDR) ∧
    (∃ p, (va2pa 0xFFFFFABC 3 0 (scriptReader [0x1001, 0x2007, 0x000FFFFFFFFFF087]) 0).phys_addr
        = some p ∧ p < 2 ^ PAE_MAXPHYADDR) ∧
    (∃ p, (va2pa_64 0xFFFFFFFFFFFFFABC 0
        (scriptReader [0x1007, 0x2007, 0x3007, 0x000FFFFFFFFFF087]) 0).phys_addr
        = some p ∧ p < 2 ^ PAE_MAXPHYADDR) :=
  ⟨(result_fits_maxphyaddr (scriptReader [0xFFFFF007, 0xFFFFF007]) (scriptReader []) 0
      0xFFFFFABC 0).1 (by decide),
    (result_fits_maxphyaddr (scriptReader [0x1001, 0x2007, 0x000FFFFFFFFFF087])
      (scriptReader []) 0 0xFFFFFABC 0).2.1 (by decide),
    (result_fits_maxphyaddr (scriptReader [])
      (scriptReader [0x1007, 0x2007, 0x3007, 0x000FFFFFFFFFF087]) 0
      0xFFFFFFFFFFFFFABC 0).2.2 (by decide)⟩

/-! ## C25: translation through a not-present entry -/

/-- C25: whenever a walk (`va2pa` at level 2 or 3, or `va2pa_64`) returns
success, every entry the reader delivered during the walk had the Present bit
(bit 0) set. -/
theorem no_translation_through_not_present_entry {σ : Type} (rd : PREAD_FUNC σ)
    (rd64 : PREAD_FUNC_64 σ) (s : σ) (va root k : Nat) (e : ReadEvent) :
    ((va2pa va 2 root rd s).status = ST_SUCCESS_32 →
      (va2pa va 2 root rd s).reads[k]? = some e → e.data &&& 1 ≠ 0) ∧
    ((va2pa va 3 root rd s).status = ST_SUCCESS_32 →
      (va2pa va 3 root rd s).reads[k]? = some e → e.data &&& 1 ≠ 0) ∧
    ((va2pa_64 va root rd64 s).status = ST_SUCCESS_32 →
      (va2pa_64 va root rd64 s).reads[k]? = some e → e.data &&& 1 ≠ 0) := by
  refine ⟨?_, ?_, ?_⟩
  · intro h he
    rw [va2pa_two] at h he
    exact (level2_success_entries rd s va root k e h he).1
  · intro h he
    rw [va2pa_three] at h he
    exact (level3_success_entries rd s va root k e h he).1
  · intro h he
    exact (long_success_entries rd64 s va root k e h he).1

/-- C25 at one successful walk per mode. -/
theorem no_translation_through_not_present_entry_witness :
    ((va2pa 0 2 0 (scriptReader [0x2007, 0x3007]) 0).status = ST_SUCCESS_32 ∧
      (va2pa 0 2 0 (scriptReader [0x2007, 0x3007]) 0).reads[1]? = some ⟨4, 2, 4, 0x3007⟩ ∧
      (0x3007 : Nat) &&& 1 ≠ 0) ∧
    ((va2pa 0 3 0 (scriptReader [0x1001, 0x2007, 0x3087]) 0).status = ST_SUCCESS_32 ∧
      (va2pa 0 3 0 (scriptReader [0x1001, 0x2007, 0x3087]) 0).reads[0]?
        = some ⟨8, 0, 8, 0x1001⟩ ∧
      (0x1001 : Nat) &&& 1 ≠ 0) ∧
    ((va2pa_64 0 0 (scriptReader [0x1007, 0x2003, 0x3007, 0x4087]) 0).status
        = ST_SUCCESS_32 ∧
      (va2pa_64 0 0 (scriptReader [0x1007, 0x2003, 0x3007, 0x4087]) 0).reads[1]?
        = some ⟨8, 1, 8, 0x2003⟩ ∧
      (0x2003 : Nat) &&& 1 ≠ 0) :=
  ⟨⟨by decide, by decide,
      (no_translation_through_not_present_entry (scriptReader [0x2007, 0x3007])
        (scriptReader []) 0 0 0 1 ⟨4, 2, 4, 0x3007⟩).1 (by decide) (by decide)⟩,
    ⟨by decide, by decide,
      (no_translation_through_not_present_entry (scriptReader [0x1001, 0x2007, 0x3087])
        (scriptReader []) 0 0 0 0 ⟨8, 0, 8, 0x1001⟩).2.1 (by decide) (by decide)⟩,
    ⟨by decide, by decide,
      (no_translation_through_not_present_entry (scriptReader [])
        (scriptReader [0x1007, 0x2003, 0x3007, 0x4087]) 0 0 0 1 ⟨8, 1, 8, 0x2003⟩).2.2
        (by decide) (by decide)⟩⟩

/-! ## C26: the upper bits of a Long-mode virtual address -/

/-- A 9-bit table index taken at bit `k` depends only on the bits below `k + 9`. -/
theorem index_congr (va va' k : Nat) (hk : k + 9 ≤ 48) (h : va % 2 ^ 48 = va' % 2 ^ 48) :
    (va >>> k) &&& 0x1FF = (va' >>> k) &&& 0x1FF := by
  have e : (0x1FF : Nat) = 2 ^ 9 - 1 := by decide
  rw [e, Nat.and_pow_two_sub_one_eq_mod, Nat.and_pow_two_sub_one_eq_mod,
    Nat.shiftRight_eq_div_pow, Nat.shiftRight_eq_div_pow,
    ← Nat.mod_mul_right_div_self, ← Nat.mod_mul_right_div_self, ← Nat.pow_add]
  have hs : 48 = (k + 9) + (48 - (k + 9)) := by omega
  have hm : ∀ x : Nat, x % 2 ^ (k + 9) = x % 2 ^ 48 % 2 ^ (k + 9) := by
    intro x
    rw [Nat.mod_mod_of_dvd]
    exact Nat.pow_dvd_pow 2 hk
  rw [hm va, hm va', h]

/-- An offset masked below bit 48 depends only on the low 48 bits. -/
theorem offset_congr (va va' off : Nat) (hoff : (2 ^ 48 - 1) &&& off = off)
    (h : va % 2 ^ 48 = va' % 2 ^ 48) : va &&& off = va' &&& off := by
  have e : ∀ x : Nat, x &&& off = (x % 2 ^ 48) &&& off := by
    intro x
    rw [← Nat.and_pow_two_sub_one_eq_mod, Nat.and_assoc, hoff]
  rw [e va, e va', h]

/-- The reads, the status and the output of `va2pa_64` depend only on bits 47..0 of the
virtual address. -/
theorem va2pa_64_congr {σ : Type} (rd : PREAD_FUNC_64 σ) (s : σ) (cr3 va va' : Nat)
    (h : va % 2 ^ 48 = va' % 2 ^ 48) : va2pa_64 va cr3 rd s = va2pa_64 va' cr3 rd s := by
  have a1 : pml4e_addr cr3 va = pml4e_addr cr3 va' := by
    unfold pml4e_addr
    rw [index_congr va va' 39 (by decide) h]
  have a2 : ∀ x, pdpte_addr_64 x va = pdpte_addr_64 x va' := by
    intro x
    unfold pdpte_addr_64
    rw [index_congr va va' 30 (by decide) h]
  have a3 : ∀ x, pde_addr_64 x va = pde_addr_64 x va' := by
    intro x
    unfold pde_addr_64
    rw [index_congr va va' 21 (by decide) h]
  have a4 : ∀ x, pte_addr_64 x va = pte_addr_64 x va' := by
    intro x
    unfold pte_addr_64
    rw [index_congr va va' 12 (by decide) h]
  have p1 : ∀ x, phys_addr_1gb_64 x va = phys_addr_1gb_64 x va' := by
    intro x
    unfold phys_addr_1gb_64
    rw [offset_congr va va' 0x3FFFFFFF (by decide) h]
  have p2 : ∀ x, phys_addr_2mb_64 x va = phys_addr_2mb_64 x va' := by
    intro x
    unfold phys_addr_2mb_64
    rw [offset_congr va va' 0x1FFFFE (by decide) h]
  have p3 : ∀ x, phys_addr_4kb_64 x va = phys_addr_4kb_64 x va' := by
    intro x
    unfold phys_addr_4kb_64
    rw [offset_congr va va' 0xFFF (by decide) h]
  unfold va2pa_64
  simp only [a1, a2, a3, a4, p1, p2, p3]

/-- C26: for two virtual addresses that agree on bits 47..0, `va2pa_64` makes
the same sequence of reader calls, leaves the reader in the same state and
returns the same status and the same physical address. -/
theorem upper_va_bits_ignored {σ : Type} (rd : PREAD_FUNC_64 σ) (s : σ) (cr3 va va' : Nat)
    (h : va % 2 ^ 48 = va' % 2 ^ 48) :
    (va2pa_64 va cr3 rd s).reads = (va2pa_64 va' cr3 rd s).reads ∧
    (va2pa_64 va cr3 rd s).status = (va2pa_64 va' cr3 rd s).status ∧
    (va2pa_64 va cr3 rd s).phys_addr = (va2pa_64 va' cr3 rd s).phys_addr ∧
    (va2pa_64 va cr3 rd s).final = (va2pa_64 va' cr3 rd s).final := by
  rw [va2pa_64_congr rd s cr3 va va' h]
  exact ⟨rfl, rfl, rfl, rfl⟩

/-- C26 at `0xFFFF800012345678` and the non-canonical `0x0000800012345678`. -/
theorem upper_va_bits_ignored_witness :
    (va2pa_64 0xFFFF800012345678 0 (scriptReader [0x1007, 0x400000087]) 0).reads
      = (va2pa_64 0x0000800012345678 0 (scriptReader [0x1007, 0x400000087]) 0).reads ∧
    (va2pa_64 0xFFFF800012345678 0 (scriptReader [0x1007, 0x400000087]) 0).status
      = (va2pa_64 0x0000800012345678 0 (scriptReader [0x1007, 0x400000087]) 0).status ∧
    (va2pa_64 0xFFFF800012345678 0 (scriptReader [0x1007, 0x400000087]) 0).phys_addr
      = (va2pa_64 0x0000800012345678 0 (scriptReader [0x1007, 0x400000087]) 0).phys_addr ∧
    (va2pa_64 0xFFFF800012345678 0 (scriptReader [0x1007, 0x400000087]) 0).final
      = (va2pa_64 0x0000800012345678 0 (scriptReader [0x1007, 0x400000087]) 0).final :=
  upper_va_bits_ignored (scriptReader [0x1007, 0x400000087]) 0 0 0xFFFF800012345678
    0x0000800012345678 (by decide)

end Va2pa
